import Mathlib

/-!
# The default reporter of the diff graph (`src/src/abg-default-reporter.cc`)

`default_reporter::report` walks a graph of diff nodes and serialises it to an
output stream.  The embedding below follows the source overload by overload.

* The diff graph is an arena `List Diff`; a `diff_sptr` is an `Option Nat`
  (`none` is the null pointer) that indexes the arena.
* The output stream is the `out` field of `RState`; the two reporting-state
  flags of every node (`currently_reporting`, `reported_once`) are the two id
  lists of `RState`.
* One overload is a list of `Step`s built from the node (`*_steps`), run by
  `exec`; `report` is the virtual dispatch `dif->report(out, indent)`, with a
  fuel argument that bounds the depth of nested `report` calls.
* Functions of the repository that the reporter calls and that live in other
  files (`report_loc_info`, `report_mem_header`, `represent`, ...) are the
  fields of `Helpers`.
-/

namespace default_reporter

/-! ## Entities read by the reporter -/

/-- Runtime faults of the C++ code: a null pointer is dereferenced, an
`assert` fails, a pointer leads to no node of the kind that its type
promises, a sequence is indexed out of its bounds. -/
inductive Fault
  | null_deref
  | assert_failed
  | dangling
  | out_of_bounds
deriving DecidableEq, Repr

/-- An `elf_symbol`, through the accessors that the reporter calls. -/
structure elf_symbol where
  id_string : String := ""
  /-- Value of `get_aliases_id_string(sym_map)`. -/
  aliases_id_string : String := ""
  /-- Value of `get_aliases_id_string(false)`. -/
  aliases_id_string_no_main : String := ""
  has_aliases : Bool := false
  number_of_aliases : Nat := 0
deriving DecidableEq, Repr

/-- A `type_or_decl_base`, through the accessors that the reporter calls. -/
structure Entity where
  pretty_representation : String := ""
  qualified_name : String := ""
  name : String := ""
  linkage_name : String := ""
  visibility : String := ""
  /-- Result of `dynamic_pointer_cast<type_decl>`. -/
  is_type_decl : Bool := false
deriving DecidableEq, Repr

/-- An `enum_type_decl::enumerator`. -/
structure enumerator where
  qualified_name : String := ""
  value : Int := 0
deriving DecidableEq, Repr

/-- A `reference_type_def`. -/
structure reference_type_def extends Entity where
  is_lvalue : Bool := true
deriving DecidableEq, Repr

/-- A `function_decl::parameter`. -/
structure parameter extends Entity where
  index : Nat := 0
  type_pretty_representation : String := ""
  /-- The entity returned by `get_type()`. -/
  type : Entity := {}
deriving DecidableEq, Repr

/-- A `function_type`. -/
structure function_type extends Entity where
  size_in_bits : Nat := 0
  alignment_in_bits : Nat := 0
deriving DecidableEq, Repr

/-- A `class_or_union` (`class_decl` or `union_decl`). -/
structure class_or_union extends Entity where
  is_declaration_only : Bool := false
  has_vtable : Bool := false
  /-- Declarations of the member types, `get_type_declaration` applied to
  the elements of `get_member_types()`. -/
  member_types : List Entity := []
  /-- Result of `as_function_tdecl()` on each member function template. -/
  member_function_templates : List Entity := []
  /-- Result of `as_class_tdecl()` on each member class template. -/
  member_class_templates : List Entity := []
deriving DecidableEq, Repr

/-- A `class_decl::base_spec`. -/
structure base_spec extends Entity where
  is_static : Bool := false
  access_specifier : String := ""
  base_class : Entity := {}
deriving DecidableEq, Repr

/-- A `function_decl` (a `method_decl` when `is_member_function`). -/
structure function_decl extends Entity where
  symbol : Option elf_symbol := none
  is_declared_inline : Bool := false
  is_member_function : Bool := false
  member_function_is_virtual : Bool := false
  member_function_vtable_offset : Nat := 0
  member_function_is_ctor : Bool := false
  member_function_is_dtor : Bool := false
  /-- Result of `is_class_type(is_method_type(get_type())->get_class_type())`. -/
  class_type : Option class_or_union := none
  /-- Result of `is_c_language(get_translation_unit(fn)->get_language())`. -/
  is_c_language : Bool := false
deriving DecidableEq, Repr

/-- A `var_decl`; `is_var_decl` is the result of
`dynamic_pointer_cast<var_decl>` on the `decl_base` it was stored as. -/
structure var_decl extends Entity where
  symbol : Option elf_symbol := none
  is_var_decl : Bool := true
  member_is_static : Bool := false
deriving DecidableEq, Repr

/-- A `corpus`, through the accessors that the reporter calls. -/
structure corpus where
  soname : String := ""
  architecture_name : String := ""
deriving DecidableEq, Repr

/-- The `diff_kind` argument of `report_mem_header`. -/
inductive diff_kind
  | del_kind
  | ins_kind
  | subtype_change_kind
  | change_kind
deriving DecidableEq, Repr

/-- Modelled from the spec: the edit script of `abg-diff-utils.h`, which is
not among the sources.  Deletion records carry the original index in the
first sequence, insertion records carry original indexes in the second
sequence and may group a contiguous run (spec 4.2). -/
structure insertion where
  insertion_point_index : Int := 0
  inserted_indexes : List Nat := []
deriving DecidableEq, Repr

/-- Modelled from the spec: see `insertion`. -/
structure edit_script where
  deletions : List Nat := []
  insertions : List insertion := []
deriving DecidableEq, Repr

/-- Modelled from the spec: `edit_script::num_deletions`. -/
def edit_script.num_deletions (e : edit_script) : Nat := e.deletions.length

/-- Modelled from the spec: `edit_script::num_insertions`, the number of
inserted indexes over all insertion records. -/
def edit_script.num_insertions (e : edit_script) : Nat :=
  (e.insertions.map (fun i => i.inserted_indexes.length)).sum

/-- Modelled from the spec: `edit_script::operator bool`, true when the
script records at least one deletion or insertion. -/
def edit_script.to_bool (e : edit_script) : Bool :=
  !(e.insertions.isEmpty && e.deletions.isEmpty)

/-- The `corpus_diff::diff_stats` accessors read by the reporter. -/
structure diff_stats where
  net_num_func_removed : Nat := 0
  net_num_func_added : Nat := 0
  net_num_func_changed : Nat := 0
  num_func_changed : Nat := 0
  num_changed_func_filtered_out : Nat := 0
  num_vars_removed : Nat := 0
  num_vars_added : Nat := 0
  num_vars_changed : Nat := 0
  num_changed_vars_filtered_out : Nat := 0
  net_num_vars_removed : Nat := 0
  net_num_vars_added : Nat := 0
  num_var_syms_removed : Nat := 0
  net_num_removed_func_syms : Nat := 0
  net_num_added_func_syms : Nat := 0
  net_num_removed_var_syms : Nat := 0
  net_num_added_var_syms : Nat := 0
deriving DecidableEq, Repr

/-- Addition of two `size_t` values. -/
def size_t_add (a b : Nat) : Nat := (a + b) % 2 ^ 64

/-- Subtraction of two `size_t` values. -/
def size_t_sub (a b : Nat) : Nat := (a % 2 ^ 64 + (2 ^ 64 - b % 2 ^ 64)) % 2 ^ 64

/-! ## Diff nodes -/

/-- A `diff_sptr`: `none` is the null pointer, `some i` points to node `i`
of the arena. -/
abbrev diff_sptr := Option Nat

/-- Data of an `enum_diff`. -/
structure enum_diff where
  first_enum : Entity := {}
  second_enum : Entity := {}
  underlying_type_diff : diff_sptr := none
  deleted_enumerators : List (String × enumerator) := []
  inserted_enumerators : List (String × enumerator) := []
  changed_enumerators : List (String × enumerator × enumerator) := []
deriving DecidableEq, Repr

/-- Data of a `function_type_diff`. -/
structure function_type_diff where
  first_function_type : function_type := {}
  second_function_type : function_type := {}
  return_type_diff : diff_sptr := none
  sorted_subtype_changed_parms : List diff_sptr := []
  sorted_deleted_parms : List parameter := []
  sorted_added_parms : List parameter := []
deriving DecidableEq, Repr

/-- Data of a `scope_diff` (and of a `translation_unit_diff`). -/
structure scope_diff where
  first_scope : Entity := {}
  second_scope : Entity := {}
  changed_types : List diff_sptr := []
  changed_decls : List diff_sptr := []
  deleted_types : List (String × Entity) := []
  deleted_decls : List (String × Entity) := []
  inserted_types : List (String × Entity) := []
  inserted_decls : List (String × Entity) := []
deriving DecidableEq, Repr

/-- Data of a `class_or_union_diff`, the common part of `class_diff` and
`union_diff`. -/
structure class_or_union_diff where
  first_class_or_union : class_or_union := {}
  second_class_or_union : class_or_union := {}
  member_fns_changes : edit_script := {}
  deleted_member_functions : List (String × function_decl) := []
  inserted_member_functions : List (String × function_decl) := []
  sorted_changed_member_functions : List diff_sptr := []
  count_filtered_deleted_mem_fns : Nat := 0
  count_filtered_inserted_mem_fns : Nat := 0
  count_filtered_changed_mem_fns : Nat := 0
  data_members_changes : edit_script := {}
  deleted_non_static_data_members_number : Nat := 0
  deleted_data_members : List (String × var_decl) := []
  inserted_data_members : List (String × var_decl) := []
  sorted_subtype_changed_dm : List diff_sptr := []
  count_filtered_subtype_changed_dm : Nat := 0
  sorted_changed_dm : List diff_sptr := []
  count_filtered_changed_dm : Nat := 0
  member_types_changes : edit_script := {}
  sorted_changed_member_types : List diff_sptr := []
  deleted_member_types : List (String × Entity) := []
  member_fn_tmpls_changes : edit_script := {}
  member_class_tmpls_changes : edit_script := {}
deriving DecidableEq, Repr

/-- Data of a `class_diff` on top of its `class_or_union_diff` part. -/
structure class_diff extends class_or_union_diff where
  base_changes : edit_script := {}
  deleted_bases : List (String × base_spec) := []
  sorted_deleted_bases : List base_spec := []
  sorted_changed_bases : List diff_sptr := []
  count_filtered_bases : Nat := 0
  inserted_bases : List (String × base_spec) := []
  sorted_inserted_bases : List base_spec := []
deriving DecidableEq, Repr

/-- Data of a `corpus_diff`. -/
structure corpus_diff where
  /-- Value returned by `apply_filters_and_suppressions_before_reporting`. -/
  stats : diff_stats := {}
  first_corpus : corpus := {}
  second_corpus : corpus := {}
  sonames_equal : Bool := true
  architectures_equal : Bool := true
  deleted_fns : List (String × function_decl) := []
  added_fns : List (String × function_decl) := []
  changed_fns_map : List (String × diff_sptr) := []
  deleted_vars : List (String × var_decl) := []
  added_vars : List (String × var_decl) := []
  sorted_changed_vars : List diff_sptr := []
  deleted_unrefed_fn_syms : List (String × elf_symbol) := []
  added_unrefed_fn_syms : List (String × elf_symbol) := []
  deleted_unrefed_var_syms : List (String × elf_symbol) := []
  added_unrefed_var_syms : List (String × elf_symbol) := []
deriving DecidableEq, Repr

/-- The kinds of diff node, each with the data its `report` overload
reads. -/
inductive Node
  | type_decl_diff (first second : Entity)
  | enum_diff (p : enum_diff)
  | typedef_diff (first second : Entity) (underlying_type_diff : diff_sptr)
  | qualified_type_diff (first second : Entity)
      (leaf_underlying_type_diff : diff_sptr)
  | pointer_diff (first second : Entity) (underlying_type_diff : diff_sptr)
  | reference_diff (first second : reference_type_def)
      (underlying_type_diff : diff_sptr)
  | fn_parm_diff (first second : parameter) (type_diff : diff_sptr)
  | function_type_diff (p : function_type_diff)
  | array_diff (first second : Entity) (element_type_diff : diff_sptr)
  | base_diff (first second : base_spec) (underlying_class_diff : diff_sptr)
  | scope_diff (p : scope_diff)
  | class_diff (p : class_diff)
  | union_diff (p : class_or_union_diff)
  | distinct_diff (first second : Option Entity)
      (compatible_child_diff : diff_sptr)
  | function_decl_diff (first second : function_decl) (type_diff : diff_sptr)
  | var_diff (first second : var_decl) (type_diff : diff_sptr)
  | translation_unit_diff (p : scope_diff)
  | corpus_diff (p : corpus_diff)
deriving DecidableEq, Repr

/-- A node of the diff graph: its kind-specific data and the memoised value
of `to_be_reported()`. -/
structure Diff where
  to_be_reported : Bool := true
  node : Node
deriving DecidableEq, Repr

/-- Result of `diff::first_subject()`. -/
def Node.first_subject : Node → Option Entity
  | .type_decl_diff f _ => some f
  | .enum_diff p => some p.first_enum
  | .typedef_diff f _ _ => some f
  | .qualified_type_diff f _ _ => some f
  | .pointer_diff f _ _ => some f
  | .reference_diff f _ _ => some f.toEntity
  | .fn_parm_diff f _ _ => some f.toEntity
  | .function_type_diff p => some p.first_function_type.toEntity
  | .array_diff f _ _ => some f
  | .base_diff f _ _ => some f.toEntity
  | .scope_diff p => some p.first_scope
  | .class_diff p => some p.first_class_or_union.toEntity
  | .union_diff p => some p.first_class_or_union.toEntity
  | .distinct_diff f _ _ => f
  | .function_decl_diff f _ _ => some f.toEntity
  | .var_diff f _ _ => some f.toEntity
  | .translation_unit_diff p => some p.first_scope
  | .corpus_diff _ => none

/-- Result of `diff::second_subject()`. -/
def Node.second_subject : Node → Option Entity
  | .type_decl_diff _ s => some s
  | .enum_diff p => some p.second_enum
  | .typedef_diff _ s _ => some s
  | .qualified_type_diff _ s _ => some s
  | .pointer_diff _ s _ => some s
  | .reference_diff _ s _ => some s.toEntity
  | .fn_parm_diff _ s _ => some s.toEntity
  | .function_type_diff p => some p.second_function_type.toEntity
  | .array_diff _ s _ => some s
  | .base_diff _ s _ => some s.toEntity
  | .scope_diff p => some p.second_scope
  | .class_diff p => some p.second_class_or_union.toEntity
  | .union_diff p => some p.second_class_or_union.toEntity
  | .distinct_diff _ s _ => s
  | .function_decl_diff _ s _ => some s.toEntity
  | .var_diff _ s _ => some s.toEntity
  | .translation_unit_diff p => some p.second_scope
  | .corpus_diff _ => none

/-- True on `class_diff` and `union_diff` nodes, the two kinds whose report
writes the reporting-state flags. -/
def Node.is_class_or_union_diff : Node → Bool
  | .class_diff _ => true
  | .union_diff _ => true
  | _ => false

/-- The diff graph: node `i` is the `i`-th element. -/
abbrev Graph := List Diff

/-! ## The session: context, collaborators, reporter state -/

/-- The `diff_context` accessors read by the reporter. -/
structure diff_context where
  allowed_category : Nat := 0
  show_leaf_changes_only : Bool := false
  show_stats_only : Bool := false
  show_soname_change : Bool := true
  show_architecture_change : Bool := true
  show_deleted_fns : Bool := true
  show_added_fns : Bool := true
  show_changed_fns : Bool := true
  show_deleted_vars : Bool := true
  show_added_vars : Bool := true
  show_changed_vars : Bool := true
  show_linkage_names : Bool := false
  show_symbols_unreferenced_by_debug_info : Bool := true
  show_added_symbols_unreferenced_by_debug_info : Bool := true
  /-- Whether `get_first_corpus()` is non-null. -/
  has_first_corpus : Bool := true
  /-- Whether `get_second_corpus()` is non-null. -/
  has_second_corpus : Bool := true
deriving DecidableEq, Repr

/-- Functions and constants of the repository that the reporter uses and that
are defined in other files (`abg-reporter-priv.h`, `abg-comparison-priv.h`,
`abg-comparison.h`, `abg-ir.h`).  A function that writes to the stream is
taken as the text it writes (paired with its return value when the reporter
reads it). -/
structure Helpers where
  /-- Bit of `diff_category`. -/
  ACCESS_CHANGE_CATEGORY : Nat
  /-- Bit of `diff_category`. -/
  HARMLESS_DECL_NAME_CHANGE_CATEGORY : Nat
  /-- Bit of `diff_category`. -/
  NON_VIRT_MEM_FUN_CHANGE_CATEGORY : Nat
  /-- Bit of `diff_category`. -/
  CLASS_DECL_ONLY_DEF_CHANGE_CATEGORY : Nat
  /-- Arguments: entity. -/
  report_loc_info : Option Entity → String
  /-- Arguments: first, second, indent, start with a new line. -/
  report_name_size_and_alignment_changes :
    Entity → Entity → String → Bool → String × Bool
  /-- Arguments: first, second, indent, start with a new line. -/
  report_size_and_alignment_changes :
    Option Entity → Option Entity → String → Bool → String × Bool
  /-- Arguments: first, second, indent. -/
  maybe_report_diff_for_member : Entity → Entity → String → String
  /-- Arguments: first symbol, second symbol, indent. -/
  maybe_report_diff_for_symbol :
    Option elf_symbol → Option elf_symbol → String → String
  /-- Arguments: number, number filtered, kind, section name, indent. -/
  report_mem_header : Nat → Nat → diff_kind → String → String → String
  /-- Arguments: the diff node, indent, whether to start with a new line. -/
  maybe_report_interfaces_impacted_by_diff : Nat → String → Bool → String
  /-- Overload `represent(ctxt, mem_fn, out)`. -/
  represent_method : function_decl → String
  /-- Arguments: the data member. -/
  represent_data_member : var_decl → String
  /-- Text that `represent(var_diff, ctxt, out, indent)` writes before it
  descends into the type diff.  Arguments: the two variables, indent. -/
  represent_var_diff_before : var_decl → var_decl → String → String
  /-- Text that `represent(var_diff, ctxt, out, indent)` writes after it
  descended into the type diff.  Arguments: the two variables, indent. -/
  represent_var_diff_after : var_decl → var_decl → String → String
  /-- Arguments: the text written before the names, the symbol. -/
  show_linkage_name_and_aliases : String → elf_symbol → String
  /-- Arguments: the statistics, indent. -/
  emit_diff_stats : diff_stats → String → String
  /-- Free function `ir::get_pretty_representation` on a possibly null
  type. -/
  get_pretty_representation : Option Entity → String
  has_harmless_name_change : Entity → Entity → Bool
  has_class_decl_only_def_change : class_or_union → class_or_union → Bool
  type_has_sub_type_changes : Entity → Entity → Bool
  member_type_has_changed : class_or_union_diff → Entity → Bool
  base_has_changed : class_diff → base_spec → Bool
  deleted_function_is_suppressed : corpus_diff → function_decl → Bool
  added_function_is_suppressed : corpus_diff → function_decl → Bool
  deleted_variable_is_suppressed : corpus_diff → var_decl → Bool
  added_variable_is_suppressed : corpus_diff → var_decl → Bool
  deleted_unrefed_fn_sym_is_suppressed : corpus_diff → elf_symbol → Bool
  added_unrefed_fn_sym_is_suppressed : corpus_diff → elf_symbol → Bool
  deleted_unrefed_var_sym_is_suppressed : corpus_diff → elf_symbol → Bool
  added_unrefed_var_sym_is_suppressed : corpus_diff → elf_symbol → Bool
  sort_enumerators : List (String × enumerator) → List enumerator
  sort_changed_enumerators :
    List (String × enumerator × enumerator) → List (enumerator × enumerator)
  sort_data_members : List (String × var_decl) → List var_decl
  sort_string_function_ptr_map :
    List (String × function_decl) → List function_decl
  sort_string_function_decl_diff_sptr_map :
    List (String × diff_sptr) → List diff_sptr
  sort_string_var_ptr_map : List (String × var_decl) → List var_decl
  sort_string_elf_symbol_map : List (String × elf_symbol) → List elf_symbol
  /-- Text written by `RETURN_IF_BEING_REPORTED_OR_WAS_REPORTED_EARLIER`
  when it returns.  Arguments: whether the node is currently being reported
  (else it was reported earlier), indent. -/
  reported_note : Bool → String → String
  /-- Text written by `RETURN_IF_BEING_REPORTED_OR_WAS_REPORTED_EARLIER2`
  when it returns.  Arguments: currently being reported, the diff node, the
  intro text, indent. -/
  reported_note2 : Bool → Diff → String → String → String
  /-- Text written by `RETURN_IF_BEING_REPORTED_OR_WAS_REPORTED_EARLIER3`
  when it returns.  Arguments: currently being reported, the diff node, the
  intro text, indent. -/
  reported_note3 : Bool → Diff → String → String → String

/-- Effects of the reporter other than writing to the stream, in the order
in which they happened. -/
inductive Event
  /-- The call `report(d, out, indent)` on node `d` started. -/
  | report (d : Nat)
  /-- The call `d.currently_reporting(b)`. -/
  | currently_reporting (d : Nat) (b : Bool)
  /-- The call `d.reported_once(b)`. -/
  | reported_once (d : Nat) (b : Bool)
  /-- The call `d.apply_filters_and_suppressions_before_reporting()`. -/
  | apply_filters_and_suppressions_before_reporting (d : Nat)
  /-- The call `d.priv_->maybe_dump_diff_tree()`. -/
  | maybe_dump_diff_tree (d : Nat)
deriving DecidableEq, Repr

/-- State of a reporting session: the output stream, the reporting-state
table and the effects so far. -/
structure RState where
  /-- The text written to the stream `out`. -/
  out : String := ""
  /-- Modelled from the spec: the nodes in state currently-being-visited of
  the reporting-state table (4.5), the ones for which
  `diff::currently_reporting()`, not among the sources, is true. -/
  currently_reporting : List Nat := []
  /-- Modelled from the spec: the nodes in state visited-once of the
  reporting-state table (4.5), the ones for which `diff::reported_once()`,
  not among the sources, is true. -/
  reported_once : List Nat := []
  /-- The effects other than writing to the stream, oldest first. -/
  history : List Event := []
deriving DecidableEq, Repr

/-- Appends to the output stream. -/
def RState.write (st : RState) (s : String) : RState :=
  { st with out := st.out ++ s }

/-- Records an effect. -/
def RState.log (st : RState) (e : Event) : RState :=
  { st with history := st.history ++ [e] }

/-- Modelled from the spec: `d.currently_reporting(b)`, the setter of the
first reporting-state flag of node `d`. -/
def RState.set_currently_reporting (st : RState) (d : Nat) (b : Bool) :
    RState :=
  { st with
    currently_reporting :=
      if b then d :: st.currently_reporting.filter (fun x => x != d)
      else st.currently_reporting.filter (fun x => x != d)
    history := st.history ++ [Event.currently_reporting d b] }

/-- Modelled from the spec: `d.reported_once(b)`, the setter of the second
reporting-state flag of node `d`. -/
def RState.set_reported_once (st : RState) (d : Nat) (b : Bool) : RState :=
  { st with
    reported_once :=
      if b then d :: st.reported_once.filter (fun x => x != d)
      else st.reported_once.filter (fun x => x != d)
    history := st.history ++ [Event.reported_once d b] }

/-- Outcome of a report: the final state, the fault that stopped it, or
`out_of_fuel` when the nesting of `report` calls exceeded the bound given to
`report`. -/
inductive Result
  | ok (st : RState)
  | fault (f : Fault)
  | out_of_fuel
deriving DecidableEq, Repr

/-- One statement of a `report` overload. -/
inductive Step
  /-- The statement `out << s`. -/
  | emit (s : String)
  /-- The statement `dif->report(out, indent)` on node `d`. -/
  | call (d : Nat) (indent : String)
  /-- One of the `RETURN_IF_BEING_REPORTED_OR_WAS_REPORTED_EARLIER`
  statements on node `d`, with the two texts it may write. -/
  | return_if_reported (d : Nat) (being earlier : String)
  /-- A statement that faults (null dereference, failed assertion). -/
  | fault (f : Fault)
  /-- The statement `d.priv_->maybe_dump_diff_tree()`. -/
  | maybe_dump_diff_tree (d : Nat)

/-- Modelled from the spec: the test of
`RETURN_IF_BEING_REPORTED_OR_WAS_REPORTED_EARLIER` and of its variants 2 and
3, which are defined in `abg-reporter-priv.h`, not among the sources.
Following 4.5, when node `d` is currently-being-visited or visited-once the
overload returns at once; the result is then the note that it writes before
it returns (`being` in the first state, `earlier` in the second).  Otherwise
the result is `none` and the overload goes on. -/
def return_note (st : RState) (d : Nat) (being earlier : String) :
    Option String :=
  if d ∈ st.currently_reporting then some being
  else if d ∈ st.reported_once then some earlier
  else none

/-- Runs the statements of one overload in order.  `rep` is what
`dif->report(out, indent)` does. -/
def exec (rep : Nat → String → RState → Result) : List Step → RState → Result
  | [], st => .ok st
  | .emit s :: rest, st => exec rep rest (st.write s)
  | .call d indent :: rest, st =>
    match rep d indent st with
    | .ok st1 => exec rep rest st1
    | .fault f => .fault f
    | .out_of_fuel => .out_of_fuel
  | .return_if_reported d being earlier :: rest, st =>
    match return_note st d being earlier with
    | some note => .ok (st.write note)
    | none => exec rep rest st
  | .fault f :: _, _ => .fault f
  | .maybe_dump_diff_tree d :: rest, st =>
    exec rep rest (st.log (Event.maybe_dump_diff_tree d))

/-! ## The `report` overloads, as statement lists -/

section overloads

variable (H : Helpers) (ctxt : diff_context) (g : Graph)

/-- Dereference of a `diff_sptr`: a null pointer faults. -/
def with_diff (p : diff_sptr) (k : Nat → Diff → List Step) : List Step :=
  match p with
  | none => [.fault .null_deref]
  | some i =>
    match g[i]? with
    | none => [.fault .dangling]
    | some d => k i d

/-- Dereference of a possibly null entity pointer. -/
def with_entity (e : Option Entity) (k : Entity → List Step) : List Step :=
  match e with
  | none => [.fault .null_deref]
  | some x => k x

/-- The test `ctxt->get_allowed_category() & category`. -/
def allowed (category : Nat) : Bool :=
  (ctxt.allowed_category &&& category) != 0

/-- A loop whose body starts with `if (i != begin) out << "\n";`. -/
def loop_newline_between {α : Type} (body : α → List Step) :
    List α → List Step
  | [] => []
  | x :: xs => body x ++ xs.flatMap (fun y => Step.emit "\n" :: body y)

/-- A loop that threads local variables of type `σ` through its
iterations. -/
def loop_with {α σ : Type} (body : σ → α → List Step × σ) :
    σ → List α → List Step × σ
  | s, [] => ([], s)
  | s, x :: xs =>
    let r := body s x
    let t := loop_with body r.2 xs
    (r.1 ++ t.1, t.2)

/-- `RETURN_IF_BEING_REPORTED_OR_WAS_REPORTED_EARLIER(S1, S2)` where `S1`,
`S2` are the subjects of node `self`. -/
def return_if_reported1 (self : Nat) (indent : String) : Step :=
  .return_if_reported self (H.reported_note true indent)
    (H.reported_note false indent)

/-- `RETURN_IF_BEING_REPORTED_OR_WAS_REPORTED_EARLIER2(D, INTRO_TEXT)`. -/
def return_if_reported2 (i : Nat) (d : Diff) (intro indent : String) : Step :=
  .return_if_reported i (H.reported_note2 true d intro indent)
    (H.reported_note2 false d intro indent)

/-- `RETURN_IF_BEING_REPORTED_OR_WAS_REPORTED_EARLIER3(S1, S2, INTRO_TEXT)`
where `S1`, `S2` are the subjects of node `self`. -/
def return_if_reported3 (self : Nat) (d : Diff) (intro indent : String) :
    Step :=
  .return_if_reported self (H.reported_note3 true d intro indent)
    (H.reported_note3 false d intro indent)

/-- `report(const type_decl_diff&)`, lines 46-85. -/
def type_decl_diff_steps (d : Diff) (f s : Entity) (indent : String) :
    List Step :=
  if !d.to_be_reported then [] else
  let r := H.report_name_size_and_alignment_changes f s indent false
  let n := r.2
  let vis := f.visibility != s.visibility
  let n1 := n || vis
  let lnk := f.linkage_name != s.linkage_name
  let n2 := n1 || lnk
  [Step.emit r.1]
  ++ (if vis then
        (if n then [Step.emit "\n"] else [])
        ++ [Step.emit (indent ++ "visibility changed from '"
              ++ f.visibility ++ "' to '" ++ s.visibility)]
      else [])
  ++ (if lnk then
        (if n1 then [Step.emit "\n"] else [])
        ++ [Step.emit (indent ++ "mangled name changed from '"
              ++ f.linkage_name ++ "' to " ++ s.linkage_name)]
      else [])
  ++ (if n2 then [Step.emit "\n"] else [])

/-- `report(const enum_diff&)`, lines 94-188. -/
def enum_diff_steps (self : Nat) (d : Diff) (p : enum_diff)
    (indent : String) : List Step :=
  if !d.to_be_reported then [] else
  let first := p.first_enum
  let second := p.second_enum
  let r := H.report_name_size_and_alignment_changes first second indent false
  let numdels := p.deleted_enumerators.length
  let numins := p.inserted_enumerators.length
  let numchanges := p.changed_enumerators.length
  [Step.emit r.1]
  ++ (if r.2 then [Step.emit "\n"] else [])
  ++ [Step.emit (H.maybe_report_diff_for_member first second indent)]
  ++ with_diff g p.underlying_type_diff (fun i _ => [Step.call i indent])
  ++ (if numdels != 0 then
        [Step.emit (H.report_mem_header numdels 0 .del_kind "enumerator"
            indent)]
        ++ loop_newline_between
            (fun (e : enumerator) =>
              [Step.emit (indent ++ "  '" ++ e.qualified_name ++ "' value '"
                ++ toString e.value ++ "'")])
            (H.sort_enumerators p.deleted_enumerators)
        ++ [Step.emit "\n\n"]
      else [])
  ++ (if numins != 0 then
        [Step.emit (H.report_mem_header numins 0 .ins_kind "enumerator"
            indent)]
        ++ loop_newline_between
            (fun (e : enumerator) =>
              [Step.emit (indent ++ "  '" ++ e.qualified_name ++ "' value '"
                ++ toString e.value ++ "'")])
            (H.sort_enumerators p.inserted_enumerators)
        ++ [Step.emit "\n\n"]
      else [])
  ++ (if numchanges != 0 then
        [Step.emit (H.report_mem_header numchanges 0 .change_kind
            "enumerator" indent)]
        ++ loop_newline_between
            (fun (e : enumerator × enumerator) =>
              [Step.emit (indent ++ "  '" ++ e.1.qualified_name
                ++ "' from value '" ++ toString e.1.value ++ "' to '"
                ++ toString e.2.value ++ "'"),
               Step.emit (H.report_loc_info (some second))])
            (H.sort_changed_enumerators p.changed_enumerators)
        ++ [Step.emit "\n\n"]
      else [])
  ++ (if ctxt.show_leaf_changes_only then
        [Step.emit (H.maybe_report_interfaces_impacted_by_diff self indent
            false)]
      else [])

/-- `report_local_typedef_changes`, lines 200-229: the statements and the
returned flag. -/
def report_local_typedef_changes (d : Diff) (f s : Entity)
    (indent : String) : List Step × Bool :=
  if !d.to_be_reported then ([], false) else
  if (H.has_harmless_name_change f s
        && (allowed ctxt H.HARMLESS_DECL_NAME_CHANGE_CATEGORY
            || ctxt.show_leaf_changes_only))
      || f.qualified_name != s.qualified_name then
    ([Step.emit (H.maybe_report_diff_for_member f s indent),
      Step.emit (indent ++ "typedef name changed from " ++ f.qualified_name
        ++ " to " ++ s.qualified_name),
      Step.emit (H.report_loc_info (some s)),
      Step.emit "\n"], true)
  else
    ([Step.emit (H.maybe_report_diff_for_member f s indent)], false)

/-- `report(const typedef_diff&)`, lines 239-267. -/
def typedef_diff_steps (self : Nat) (d : Diff) (f s : Entity)
    (underlying_type_diff : diff_sptr) (indent : String) : List Step :=
  if !d.to_be_reported then [] else
  let loc := report_local_typedef_changes H ctxt d f s indent
  let emit_nl := loc.2
  [return_if_reported1 H self indent]
  ++ loc.1
  ++ (match underlying_type_diff with
      | none => if emit_nl then [Step.emit "\n"] else []
      | some i =>
        match g[i]? with
        | none => [Step.fault .dangling]
        | some dif =>
          if dif.to_be_reported then
            [return_if_reported2 H i dif "underlying type" indent]
            ++ with_entity dif.node.first_subject (fun fs =>
                [Step.emit (indent ++ "underlying type '"
                    ++ fs.pretty_representation ++ "'"),
                 Step.emit (H.report_loc_info dif.node.second_subject),
                 Step.emit " changed:\n",
                 Step.call i (indent ++ "  ")])
          else if emit_nl then [Step.emit "\n"] else [])

/-- `report_local_qualified_type_changes`, lines 280-297: the statements
and the returned flag. -/
def report_local_qualified_type_changes (d : Diff) (first second : Entity)
    (indent : String) : List Step × Bool :=
  if !d.to_be_reported then ([], false) else
  let fname := first.pretty_representation
  let sname := second.pretty_representation
  if fname != sname then
    ([Step.emit (indent ++ "'" ++ fname ++ "' changed to '" ++ sname
        ++ "'\n")], true)
  else ([], false)

/-- `report(const qualified_type_diff&)`, lines 306-334. -/
def qualified_type_diff_steps (self : Nat) (d : Diff) (first second : Entity)
    (leaf_underlying_type_diff : diff_sptr) (indent : String) : List Step :=
  if !d.to_be_reported then [] else
  let loc := report_local_qualified_type_changes d first second indent
  [return_if_reported1 H self indent]
  ++ loc.1
  ++ (if loc.2 then [] else
      match leaf_underlying_type_diff with
      | none => [Step.fault .assert_failed]
      | some i =>
        match g[i]? with
        | none => [Step.fault .dangling]
        | some dif =>
          if !dif.to_be_reported then [Step.fault .assert_failed] else
          [return_if_reported2 H i dif "unqualified underlying type" indent]
          ++ with_entity dif.node.first_subject (fun fs =>
              [Step.emit (indent ++ "in unqualified underlying type '"
                  ++ fs.pretty_representation ++ "'"),
               Step.emit (H.report_loc_info dif.node.second_subject),
               Step.emit ":\n",
               Step.call i (indent ++ "  ")]))

/-- `report(const pointer_diff&)`, lines 344-364. -/
def pointer_diff_steps (d : Diff) (underlying_type_diff : diff_sptr)
    (indent : String) : List Step :=
  if !d.to_be_reported then [] else
  match underlying_type_diff with
  | none => []
  | some i =>
    match g[i]? with
    | none => [Step.fault .dangling]
    | some dif =>
      let repr :=
        match dif.node.first_subject with
        | some fs => fs.pretty_representation
        | none => "void"
      [return_if_reported2 H i dif "pointed to type" indent,
       Step.emit (indent ++ "in pointed to type '" ++ repr ++ "'"),
       Step.emit (H.report_loc_info dif.node.second_subject),
       Step.emit ":\n",
       Step.call i (indent ++ "  ")]

/-- `report_local_reference_type_changes`, lines 374-403. -/
def report_local_reference_type_changes (d : Diff)
    (f s : reference_type_def) (indent : String) : List Step :=
  if !d.to_be_reported then [] else
  if f.is_lvalue != s.is_lvalue then
    let f_repr := f.pretty_representation
    let s_repr := s.pretty_representation
    [Step.emit indent,
     if f.is_lvalue then
       Step.emit ("lvalue reference type '" ++ f_repr
         ++ " became an rvalue reference type: '" ++ s_repr ++ "'")
     else
       Step.emit ("rvalue reference type '" ++ f_repr
         ++ " became an lvalue reference type: '" ++ s_repr ++ "'\n")]
  else []

/-- `report(const reference_diff&)`, lines 412-432. -/
def reference_diff_steps (d : Diff) (f s : reference_type_def)
    (underlying_type_diff : diff_sptr) (indent : String) : List Step :=
  if !d.to_be_reported then [] else
  report_local_reference_type_changes d f s indent
  ++ (match underlying_type_diff with
      | none => []
      | some i =>
        match g[i]? with
        | none => [Step.fault .dangling]
        | some dif =>
          [return_if_reported2 H i dif "referenced type" indent]
          ++ with_entity dif.node.first_subject (fun fs =>
              [Step.emit (indent ++ "in referenced type '"
                  ++ fs.pretty_representation ++ "'"),
               Step.emit (H.report_loc_info dif.node.second_subject),
               Step.emit ":\n",
               Step.call i (indent ++ "  ")]))

/-- `report(const fn_parm_diff&)`, lines 441-472. -/
def fn_parm_diff_steps (d : Diff) (f s : parameter) (type_diff : diff_sptr)
    (indent : String) : List Step :=
  let has_sub_type_change := H.type_has_sub_type_changes f.type s.type
  if d.to_be_reported then
    match type_diff with
    | none => [Step.fault .assert_failed]
    | some i =>
      match g[i]? with
      | none => [Step.fault .dangling]
      | some td =>
        if !td.to_be_reported then [Step.fault .assert_failed] else
        [Step.emit (indent ++ "parameter " ++ toString f.index),
         Step.emit (H.report_loc_info (some f.toEntity)),
         Step.emit (" of type '" ++ f.type_pretty_representation),
         if has_sub_type_change then Step.emit "' has sub-type changes:\n"
         else Step.emit "' changed:\n",
         Step.call i (indent ++ "  ")]
  else []

/-- `report_local_function_type_changes`, lines 482-551. -/
def report_local_function_type_changes (d : Diff) (p : function_type_diff)
    (indent : String) : List Step :=
  if !d.to_be_reported then [] else
  let fft := p.first_function_type
  let sft := p.second_function_type
  (if fft.size_in_bits != sft.size_in_bits then
     [Step.emit (indent ++ "address size of function changed from "
        ++ toString fft.size_in_bits ++ " bits to "
        ++ toString sft.size_in_bits ++ " bits\n")]
   else [])
  ++ (if fft.alignment_in_bits != sft.alignment_in_bits then
        [Step.emit (indent ++ "address alignment of function changed from "
          ++ toString fft.alignment_in_bits ++ " bits to "
          ++ toString sft.alignment_in_bits ++ " bits\n")]
      else [])
  ++ p.sorted_deleted_parms.map (fun i =>
        Step.emit (indent ++ "parameter " ++ toString i.index ++ " of type '"
          ++ i.type_pretty_representation ++ "' was removed\n"))
  ++ (if !p.sorted_deleted_parms.isEmpty then [Step.emit "\n"] else [])
  ++ p.sorted_added_parms.map (fun i =>
        Step.emit (indent ++ "parameter " ++ toString i.index ++ " of type '"
          ++ i.type_pretty_representation ++ "' was added\n"))
  ++ (if !p.sorted_added_parms.isEmpty then [Step.emit "\n"] else [])

/-- `report(const function_type_diff&)`, lines 560-595. -/
def function_type_diff_steps (d : Diff) (p : function_type_diff)
    (indent : String) : List Step :=
  if !d.to_be_reported then [] else
  (match p.return_type_diff with
   | none => []
   | some i =>
     match g[i]? with
     | none => [Step.fault .dangling]
     | some rd =>
       if rd.to_be_reported then
         [Step.emit (indent ++ "return type changed:\n"),
          Step.call i (indent ++ "  ")]
       else [])
  ++ p.sorted_subtype_changed_parms.flatMap (fun dif =>
      match dif with
      | none => []
      | some i =>
        match g[i]? with
        | none => [Step.fault .dangling]
        | some pd => if pd.to_be_reported then [Step.call i indent] else [])
  ++ report_local_function_type_changes d p indent

/-- `report(const array_diff&)`, lines 604-632. -/
def array_diff_steps (self : Nat) (d : Diff) (first second : Entity)
    (element_type_diff : diff_sptr) (indent : String) : List Step :=
  if !d.to_be_reported then [] else
  [return_if_reported3 H self d "array type" indent]
  ++ with_diff g element_type_diff (fun i dif =>
      (if dif.to_be_reported then
         let fn := H.get_pretty_representation dif.node.first_subject
         [Step.emit (indent ++ "array element type '" ++ fn
            ++ "' changed: \n"),
          Step.call i (indent ++ "  ")]
       else [])
      ++ [Step.emit
            (H.report_name_size_and_alignment_changes first second indent
              false).1,
          Step.emit (H.report_loc_info (some second))])

/-- `report(const base_diff&)`, lines 641-685. -/
def base_diff_steps (d : Diff) (f s : base_spec)
    (underlying_class_diff : diff_sptr) (indent : String) : List Step :=
  if !d.to_be_reported then [] else
  let static_changed := f.is_static != s.is_static
  let access_changed :=
    allowed ctxt H.ACCESS_CHANGE_CATEGORY
      && f.access_specifier != s.access_specifier
  let emitted := static_changed || access_changed
  (if static_changed then
     [if f.is_static then Step.emit (indent ++ "is no more static")
      else Step.emit (indent ++ "now becomes static")]
   else [])
  ++ (if access_changed then
        (if static_changed then [Step.emit ", "] else [])
        ++ [Step.emit ("has access changed from '" ++ f.access_specifier
              ++ "' to '" ++ s.access_specifier ++ "'")]
      else [])
  ++ (match underlying_class_diff with
      | none => []
      | some i =>
        match g[i]? with
        | none => [Step.fault .dangling]
        | some dif =>
          if dif.to_be_reported then
            (if emitted then [Step.emit "\n"] else [])
            ++ [Step.call i indent]
          else [])

/-- `report(const scope_diff&)`, lines 694-814. -/
def scope_diff_steps (d : Diff) (p : scope_diff) (indent : String) :
    List Step :=
  if !d.to_be_reported then [] else
  let num_changed_types := p.changed_types.length
  let num_changed_decls := p.changed_decls.length
  let added_types := p.inserted_types.filter (fun i => !i.2.is_type_decl)
  let added_decls := p.inserted_decls.filter (fun i => !i.2.is_type_decl)
  (if num_changed_types == 0 then []
   else if num_changed_types == 1 then
     [Step.emit (indent ++ "1 changed type:\n")]
   else
     [Step.emit (indent ++ toString num_changed_types
        ++ " changed types:\n")])
  ++ p.changed_types.flatMap (fun dif =>
      match dif with
      | none => []
      | some i =>
        match g[i]? with
        | none => [Step.fault .dangling]
        | some cd =>
          with_entity cd.node.first_subject (fun fs =>
            [Step.emit (indent ++ "  '" ++ fs.pretty_representation
                ++ "' changed:\n"),
             Step.call i (indent ++ "    ")]))
  ++ (if num_changed_decls == 0 then []
      else if num_changed_decls == 1 then
        [Step.emit (indent ++ "1 changed declaration:\n")]
      else
        [Step.emit (indent ++ toString num_changed_decls
          ++ " changed declarations:\n")])
  ++ p.changed_decls.flatMap (fun dif =>
      match dif with
      | none => []
      | some i =>
        match g[i]? with
        | none => [Step.fault .dangling]
        | some cd =>
          with_entity cd.node.first_subject (fun fs =>
            with_entity cd.node.second_subject (fun ss =>
              [Step.emit (indent ++ "  '" ++ fs.pretty_representation
                  ++ "' was changed to '" ++ ss.pretty_representation
                  ++ "'"),
               Step.emit (H.report_loc_info cd.node.second_subject),
               Step.emit ":\n",
               Step.call i (indent ++ "    ")])))
  ++ p.deleted_types.map (fun i =>
      Step.emit (indent ++ "  '" ++ i.2.pretty_representation
        ++ "' was removed\n"))
  ++ (if !p.deleted_types.isEmpty then [Step.emit "\n"] else [])
  ++ p.deleted_decls.map (fun i =>
      Step.emit (indent ++ "  '" ++ i.2.pretty_representation
        ++ "' was removed\n"))
  ++ (if !p.deleted_decls.isEmpty then [Step.emit "\n"] else [])
  ++ added_types.map (fun i =>
      Step.emit (indent ++ "  '" ++ i.2.pretty_representation
        ++ "' was added\n"))
  ++ (if !added_types.isEmpty then [Step.emit "\n"] else [])
  ++ added_decls.map (fun i =>
      Step.emit (indent ++ "  '" ++ i.2.pretty_representation
        ++ "' was added\n"))
  ++ (if !added_decls.isEmpty then [Step.emit "\n"] else [])

/-- Modelled from the spec: `represent(var_diff_sptr, ctxt, out, indent)` of
`abg-reporter-priv.h` is not among the sources.  It writes the local changes
of the data member (the two texts of `Helpers`) and, like every traversal of
the graph (4.5, 6), descends through `report` into the type diff of the data
member when that one is to be reported. -/
def represent_var_diff (d : Diff) (indent : String) : List Step :=
  match d.node with
  | .var_diff f s type_diff =>
    [Step.emit (H.represent_var_diff_before f s indent)]
    ++ (match type_diff with
        | none => []
        | some t =>
          match g[t]? with
          | none => [Step.fault .dangling]
          | some td =>
            if td.to_be_reported then [Step.call t (indent ++ "  ")] else [])
    ++ [Step.emit (H.represent_var_diff_after f s indent)]
  | _ => [Step.fault .dangling]

/-- One of the two loops over changed data members, lines 1019-1029 and
1039-1049. -/
def changed_data_members_steps (dms : List diff_sptr) (indent : String) :
    List Step :=
  dms.flatMap (fun it =>
    with_diff g it (fun _ vd =>
      if vd.to_be_reported then
        represent_var_diff H g vd (indent ++ " ") ++ [Step.emit "\n"]
      else []))

/-- The member functions section of `report(const class_or_union_diff&)`,
lines 856-951. -/
def member_functions_steps (p : class_or_union_diff) (indent : String) :
    List Step :=
  if !p.member_fns_changes.to_bool then [] else
  let numdels := p.deleted_member_functions.length
  let numins := p.inserted_member_functions.length
  let numchanges := p.sorted_changed_member_functions.length
  let non_virt := allowed ctxt H.NON_VIRT_MEM_FUN_CHANGE_CATEGORY
  let dels :=
    loop_with
      (fun (st : Bool × Bool) (i : String × function_decl) =>
        if !non_virt && !i.2.member_function_is_virtual then
          ([], (st.1, false))
        else
          ((if st.1 && !st.2 then [Step.emit "\n"] else [])
            ++ [Step.emit (indent ++ "  "),
                Step.emit (H.represent_method i.2)],
           (true, false)))
      (false, true) p.deleted_member_functions
  let ins :=
    loop_with
      (fun (st : Bool × Bool) (i : String × function_decl) =>
        if !non_virt && !i.2.member_function_is_virtual then
          ([], (st.1, false))
        else
          ((if st.1 && !st.2 then [Step.emit "\n"] else [])
            ++ [Step.emit (indent ++ "  "),
                Step.emit (H.represent_method i.2)],
           (true, false)))
      (false, true) p.inserted_member_functions
  let chg :=
    loop_with
      (fun (st : Bool × Bool) (i : diff_sptr) =>
        match i with
        | none =>
          if non_virt then ([], (st.1, false))
          else ([Step.fault .null_deref], (st.1, false))
        | some k =>
          match g[k]? with
          | some ⟨tbr, .function_decl_diff ff sf _⟩ =>
            if !non_virt && !ff.member_function_is_virtual
                && !sf.member_function_is_virtual then
              ([], (st.1, false))
            else if !tbr then ([], (st.1, false))
            else
              ((if st.1 && !st.2 then [Step.emit "\n"] else [])
                ++ [Step.emit (indent ++ "  '" ++ ff.pretty_representation
                      ++ "' has some sub-type changes:\n"),
                    Step.call k (indent ++ "    ")],
               (true, false))
          | _ => ([Step.fault .dangling], (st.1, false)))
      (false, true) p.sorted_changed_member_functions
  (if numdels != 0 then
     [Step.emit (H.report_mem_header numdels p.count_filtered_deleted_mem_fns
        .del_kind "member function" indent)]
   else [])
  ++ dels.1
  ++ (if dels.2.1 then [Step.emit "\n"] else [])
  ++ (if numins != 0 then
        [Step.emit (H.report_mem_header numins
          p.count_filtered_inserted_mem_fns .ins_kind "member function"
          indent)]
      else [])
  ++ ins.1
  ++ (if ins.2.1 then [Step.emit "\n"] else [])
  ++ (if numchanges != 0 then
        [Step.emit (H.report_mem_header numchanges
          p.count_filtered_changed_mem_fns .change_kind "member function"
          indent)]
      else [])
  ++ chg.1
  ++ (if numchanges != 0 then [Step.emit "\n"] else [])

/-- The data members section of `report(const class_or_union_diff&)`, lines
953-1051. -/
def data_members_steps (p : class_or_union_diff) (indent : String) :
    List Step :=
  if !p.data_members_changes.to_bool then [] else
  let numdels := p.deleted_non_static_data_members_number
  let numins := p.inserted_data_members.length
  let dels :=
    loop_with
      (fun (emitted : Bool) (data_mem : var_decl) =>
        if !data_mem.is_var_decl then ([Step.fault .assert_failed], emitted)
        else if data_mem.member_is_static then ([], emitted)
        else
          ((if emitted then [Step.emit "\n"] else [])
            ++ [Step.emit (indent ++ "  "),
                Step.emit (H.represent_data_member data_mem)],
           true))
      false (H.sort_data_members p.deleted_data_members)
  (if numdels != 0 then
     [Step.emit (H.report_mem_header numdels 0 .del_kind "data member"
        indent)]
     ++ dels.1
     ++ (if dels.2 then [Step.emit "\n"] else [])
   else [])
  ++ (if numins != 0 then
        [Step.emit (H.report_mem_header numins 0 .ins_kind "data member"
          indent)]
        ++ (H.sort_data_members p.inserted_data_members).flatMap
            (fun data_mem =>
              if !data_mem.is_var_decl then [Step.fault .assert_failed]
              else
                [Step.emit (indent ++ "  "),
                 Step.emit (H.represent_data_member data_mem)])
      else [])
  ++ (if p.sorted_subtype_changed_dm.length != 0 then
        [Step.emit (H.report_mem_header p.sorted_subtype_changed_dm.length
          p.count_filtered_subtype_changed_dm .subtype_change_kind
          "data member" indent)]
        ++ changed_data_members_steps H g p.sorted_subtype_changed_dm indent
      else [])
  ++ (if p.sorted_changed_dm.length != 0 then
        [Step.emit (H.report_mem_header p.sorted_changed_dm.length
          p.count_filtered_changed_dm .change_kind "data member" indent)]
        ++ changed_data_members_steps H g p.sorted_changed_dm indent
      else [])

/-- The member types section of `report(const class_or_union_diff&)`, lines
1053-1144. -/
def member_types_steps (p : class_or_union_diff) (indent : String) :
    List Step :=
  let e := p.member_types_changes
  if !e.to_bool then [] else
  let numchanges := p.sorted_changed_member_types.length
  let numdels := p.deleted_member_types.length
  let ins :=
    loop_with
      (fun (emitted : Bool) (j : Nat) =>
        match p.second_class_or_union.member_types[j]? with
        | none =>
          ((if emitted then [Step.emit "\n"] else [])
            ++ [Step.fault .out_of_bounds], emitted)
        | some mem_type =>
          if !H.member_type_has_changed p mem_type then
            ((if emitted then [Step.emit "\n"] else [])
              ++ [Step.emit (indent ++ "  '"
                    ++ mem_type.pretty_representation ++ "'")],
             true)
          else (if emitted then [Step.emit "\n"] else [], emitted))
      false (e.insertions.flatMap (fun i => i.inserted_indexes))
  (if numdels != 0 then
     [Step.emit (H.report_mem_header numdels 0 .del_kind "member type"
        indent)]
     ++ loop_newline_between
          (fun (i : String × Entity) =>
            [Step.emit (indent ++ "  '" ++ i.2.pretty_representation
              ++ "'")])
          p.deleted_member_types
     ++ [Step.emit "\n\n"]
   else [])
  ++ (if numchanges != 0 then
        [Step.emit (H.report_mem_header numchanges 0 .change_kind
          "member type" indent)]
        ++ p.sorted_changed_member_types.flatMap (fun it =>
            with_diff g it (fun k md =>
              if !md.to_be_reported then [] else
              with_entity md.node.first_subject (fun o =>
                [Step.emit (indent ++ "  '" ++ o.pretty_representation
                    ++ "' changed "),
                 Step.emit (H.report_loc_info md.node.second_subject),
                 Step.emit ":\n",
                 Step.call k (indent ++ "    ")])))
        ++ [Step.emit "\n"]
      else [])
  ++ (if e.num_insertions < numchanges then [Step.fault .assert_failed]
      else if e.num_insertions - numchanges != 0 then
        [Step.emit (H.report_mem_header (e.num_insertions - numchanges) 0
          .ins_kind "member type" indent)]
        ++ ins.1
        ++ [Step.emit "\n\n"]
      else [])

/-- The member function templates and member class templates sections of
`report(const class_or_union_diff&)`, lines 1146-1197 and 1199-1250:
`e` is the edit script, `first_tmpls` and `second_tmpls` the template
sequences of the two subjects, `what` the section name. -/
def member_tmpls_steps (e : edit_script) (first_tmpls second_tmpls :
    List Entity) (what indent : String) : List Step :=
  if !e.to_bool then [] else
  let numdels := e.num_deletions
  let numins := e.num_insertions
  let ins :=
    loop_with
      (fun (emitted : Bool) (j : Nat) =>
        ((if emitted then [Step.emit "\n"] else [])
          ++ (match second_tmpls[j]? with
              | none => [Step.fault .out_of_bounds]
              | some tmpl =>
                [Step.emit (indent ++ "  '" ++ tmpl.pretty_representation
                  ++ "'")]),
         true))
      false (e.insertions.flatMap (fun i => i.inserted_indexes))
  (if numdels != 0 then
     [Step.emit (H.report_mem_header numdels 0 .del_kind what indent)]
   else [])
  ++ loop_newline_between
      (fun (i : Nat) =>
        match first_tmpls[i]? with
        | none => [Step.fault .out_of_bounds]
        | some tmpl =>
          [Step.emit (indent ++ "  '" ++ tmpl.pretty_representation
            ++ "'")])
      e.deletions
  ++ (if numdels != 0 then [Step.emit "\n\n"] else [])
  ++ (if numins != 0 then
        [Step.emit (H.report_mem_header numins 0 .ins_kind what indent)]
      else [])
  ++ ins.1
  ++ (if numins != 0 then [Step.emit "\n\n"] else [])

/-- `report(const class_or_union_diff&)`, lines 824-1251. -/
def class_or_union_diff_steps (d : Diff) (p : class_or_union_diff)
    (indent : String) : List Step :=
  if !d.to_be_reported then [] else
  let first := p.first_class_or_union
  let second := p.second_class_or_union
  if allowed ctxt H.CLASS_DECL_ONLY_DEF_CHANGE_CATEGORY
      && H.has_class_decl_only_def_change first second then
    let was :=
      if first.is_declaration_only then " was a declaration-only type"
      else " was a defined type"
    let is_now :=
      if second.is_declaration_only then
        " and is now a declaration-only type"
      else " and is now a defined type"
    [Step.emit (indent ++ "type " ++ first.pretty_representation ++ was
      ++ is_now)]
  else
    member_functions_steps H ctxt g p indent
    ++ data_members_steps H g p indent
    ++ member_types_steps H g p indent
    ++ member_tmpls_steps H p.member_fn_tmpls_changes
        first.member_function_templates second.member_function_templates
        "member function template" indent
    ++ member_tmpls_steps H p.member_class_tmpls_changes
        first.member_class_templates second.member_class_templates
        "member class template" indent

/-- The base classes section of `report(const class_diff&)`, lines
1288-1369. -/
def base_classes_steps (p : class_diff) (indent : String) : List Step :=
  if !p.base_changes.to_bool then [] else
  let numdels := p.deleted_bases.length
  let numchanges := p.sorted_changed_bases.length
  let numins := p.inserted_bases.length
  let chg :=
    loop_with
      (fun (emitted : Bool) (it : diff_sptr) =>
        match it with
        | none => ([], emitted)
        | some k =>
          match g[k]? with
          | some ⟨tbr, .base_diff o _ _⟩ =>
            if !tbr then ([], emitted)
            else
              ([Step.emit (indent ++ "  '"
                  ++ o.base_class.pretty_representation ++ "'"),
                Step.emit (H.report_loc_info (some o.base_class)),
                Step.emit " changed:\n",
                Step.call k (indent ++ "    ")], true)
          | _ => ([Step.fault .dangling], emitted))
      false p.sorted_changed_bases
  (if numdels != 0 then
     [Step.emit (H.report_mem_header numdels 0 .del_kind "base class"
        indent)]
     ++ loop_newline_between
          (fun (base : base_spec) =>
            if H.base_has_changed p base then []
            else
              [Step.emit (indent ++ "  "
                ++ base.base_class.pretty_representation),
               Step.emit (H.report_loc_info (some base.base_class))])
          p.sorted_deleted_bases
     ++ [Step.emit "\n"]
   else [])
  ++ (if numchanges != 0 then
        [Step.emit (H.report_mem_header numchanges p.count_filtered_bases
          .change_kind "base class" indent)]
        ++ chg.1
        ++ (if chg.2 then [Step.emit "\n"] else [])
      else [])
  ++ (if numins != 0 then
        [Step.emit (H.report_mem_header numins 0 .ins_kind "base class"
          indent)]
        ++ loop_newline_between
            (fun (i : base_spec) =>
              [Step.emit (indent ++ "  "
                ++ i.base_class.pretty_representation),
               Step.emit (H.report_loc_info (some i.base_class))])
            p.sorted_inserted_bases
        ++ [Step.emit "\n"]
      else [])

/-- The statements of `report(const class_diff&)` between
`d.currently_reporting(true)` and `d.currently_reporting(false)`, lines
1276-1371. -/
def class_diff_steps (d : Diff) (p : class_diff) (indent : String) :
    List Step :=
  let first := p.first_class_or_union
  let second := p.second_class_or_union
  let r :=
    H.report_name_size_and_alignment_changes first.toEntity second.toEntity
      indent false
  [Step.emit r.1]
  ++ (if r.2 then [Step.emit "\n"] else [])
  ++ [Step.emit
        (H.maybe_report_diff_for_member first.toEntity second.toEntity
          indent)]
  ++ base_classes_steps H g p indent
  ++ class_or_union_diff_steps H ctxt g d p.toclass_or_union_diff indent

/-- The statements of `report(const union_diff&)` between
`d.currently_reporting(true)` and `d.currently_reporting(false)`, lines
1396-1406. -/
def union_diff_steps (d : Diff) (p : class_or_union_diff) (indent : String) :
    List Step :=
  let first := p.first_class_or_union
  let second := p.second_class_or_union
  let r :=
    H.report_name_size_and_alignment_changes first.toEntity second.toEntity
      indent false
  [Step.emit r.1]
  ++ (if r.2 then [Step.emit "\n"] else [])
  ++ [Step.emit
        (H.maybe_report_diff_for_member first.toEntity second.toEntity
          indent)]
  ++ class_or_union_diff_steps H ctxt g d p indent

/-- The representation of a subject of a `distinct_diff`, lines 1430-1431:
a null subject is written `'void'`. -/
def subject_repr (e : Option Entity) : String :=
  match e with
  | some x => x.pretty_representation
  | none => "'void'"

/-- `report(const distinct_diff&)`, lines 1421-1451. -/
def distinct_diff_steps (d : Diff) (f s : Option Entity)
    (compatible_child_diff : diff_sptr) (indent : String) : List Step :=
  if !d.to_be_reported then [] else
  let f_repr := subject_repr f
  let s_repr := subject_repr s
  let diff := compatible_child_diff
  let compatible := if diff.isSome then " to compatible type '" else " to '"
  [Step.emit (indent ++ "entity changed from '" ++ f_repr ++ "'"
      ++ compatible ++ s_repr ++ "'"),
   Step.emit (H.report_loc_info s),
   Step.emit "\n"]
  ++ (match diff with
      | some i => [Step.call i (indent ++ "  ")]
      | none =>
        let r := H.report_size_and_alignment_changes f s indent false
        [Step.emit r.1] ++ (if r.2 then [Step.emit "\n"] else []))

/-- The linkage names of a function as computed in
`report(const function_decl_diff&)`, lines 1480-1496: `has_corpus` tells
whether the corpus of the function is there. -/
def linkage_names (has_corpus : Bool) (sym : Option elf_symbol) : String :=
  match sym with
  | none => ""
  | some s1 => if has_corpus then s1.aliases_id_string else s1.id_string

/-- The flags `vtable_added` and `vtable_removed` of
`report(const function_decl_diff&)`, lines 1588-1593, from the classes `fc`
and `sc` of the two member functions; `none` when a null class is
dereferenced. -/
def vtable_added_removed (fc sc : Option class_or_union) :
    Option (Bool × Bool) :=
  match fc with
  | none => none
  | some c1 =>
    if c1.is_declaration_only then some (false, false)
    else
      match sc with
      | none => none
      | some c2 =>
        if c2.is_declaration_only then some (false, false)
        else
          some (!c1.has_vtable && c2.has_vtable,
                c1.has_vtable && !c2.has_vtable)

/-- The statements of `report(const function_decl_diff&)` that tell about
a vtable change of the class `fc` of the first member function, lines
1594-1618. -/
def vtable_note_steps (ff sf : function_decl) (fc : class_or_union)
    (vtable_added vtable_removed : Bool) (indent : String) : List Step :=
  let ff_is_virtual := ff.member_function_is_virtual
  let sf_is_virtual := sf.member_function_is_virtual
  let ff_vtable_offset := ff.member_function_vtable_offset
  let sf_vtable_offset := sf.member_function_vtable_offset
  let vtable_changed :=
    ff_is_virtual != sf_is_virtual || ff_vtable_offset != sf_vtable_offset
  let incompatible_change := ff_vtable_offset != sf_vtable_offset
  if vtable_added then
    [Step.emit (indent ++ "  note that a vtable was added to "
      ++ fc.pretty_representation ++ "\n")]
  else if vtable_removed then
    [Step.emit (indent ++ "  note that the vtable was removed from "
      ++ fc.pretty_representation ++ "\n")]
  else if vtable_changed then
    [Step.emit indent,
     if incompatible_change then
       Step.emit "  note that this is an ABI incompatible change to the vtable of "
     else Step.emit "  note that this induces a change to the vtable of ",
     Step.emit (fc.pretty_representation ++ "\n")]
  else []

/-- The statements of `report(const function_decl_diff&)` about the
virtuality and the vtable offset of the two functions, lines 1556-1578. -/
def virtual_change_steps (ff sf : function_decl) (indent : String) :
    List Step :=
  let ff_is_virtual := ff.member_function_is_virtual
  let sf_is_virtual := sf.member_function_is_virtual
  let ff_vtable_offset := ff.member_function_vtable_offset
  let sf_vtable_offset := sf.member_function_vtable_offset
  (if ff_is_virtual != sf_is_virtual then
     [Step.emit indent,
      if ff_is_virtual then
        Step.emit (ff.pretty_representation
          ++ " is no more declared virtual\n")
      else
        Step.emit (ff.pretty_representation ++ " is now declared virtual\n")]
   else [])
  ++ (if ff_is_virtual && sf_is_virtual
          && ff_vtable_offset != sf_vtable_offset then
        [Step.emit (indent ++ "the vtable offset of "
          ++ ff.pretty_representation ++ " changed from "
          ++ toString ff_vtable_offset ++ " to "
          ++ toString sf_vtable_offset ++ "\n")]
      else [])

/-- The statements of `report(const function_decl_diff&)` about vtable
offset changes, lines 1553-1620. -/
def vtable_offset_steps (ff sf : function_decl) (indent : String) :
    List Step :=
  if ff.is_member_function && sf.is_member_function then
    virtual_change_steps ff sf indent
    ++ (match ff.class_type, vtable_added_removed ff.class_type sf.class_type
          with
        | some fc, some (vtable_added, vtable_removed) =>
          vtable_note_steps ff sf fc vtable_added vtable_removed indent
        | _, _ => [Step.fault .null_deref])
  else []

/-- The statements of `report(const function_decl_diff&)` before those
about the vtable, lines 1468-1551: member, linkage names, name, symbol and
inline-ness changes. -/
def function_decl_diff_local_steps (ff sf : function_decl)
    (type_diff : diff_sptr) (indent : String) : List Step :=
  let qn1 := ff.qualified_name
  let qn2 := sf.qualified_name
  let s1 := ff.symbol
  let s2 := sf.symbol
  let linkage_names1 := linkage_names ctxt.has_first_corpus s1
  let linkage_names2 := linkage_names ctxt.has_second_corpus s2
  [Step.emit (H.maybe_report_diff_for_member ff.toEntity sf.toEntity indent)]
  ++ (if linkage_names1 != linkage_names2 then
        if linkage_names1.isEmpty then
          [Step.emit (indent ++ ff.pretty_representation
            ++ " didn't have any linkage name, and it now has: '"
            ++ linkage_names2 ++ "'\n")]
        else if linkage_names2.isEmpty then
          [Step.emit (indent ++ ff.pretty_representation
            ++ " did have linkage names '" ++ linkage_names1 ++ "'\n"
            ++ indent ++ "but it doesn't have any linkage name anymore\n")]
        else
          [Step.emit (indent ++ "linkage names of "
            ++ ff.pretty_representation ++ "\n" ++ indent
            ++ "changed from '" ++ linkage_names1 ++ "' to '"
            ++ linkage_names2 ++ "'\n")]
      else [])
  ++ (if qn1 != qn2 then
        match type_diff with
        | none => []
        | some i =>
          match g[i]? with
          | none => [Step.fault .dangling]
          | some td =>
            if td.to_be_reported then
              [Step.emit (indent ++ "'" ++ ff.pretty_representation
                ++ " \x7b" ++ linkage_names1 ++ "\x7d" ++ "' now becomes '"
                ++ sf.pretty_representation ++ " \x7b" ++ linkage_names2
                ++ "\x7d" ++ "'\n")]
            else []
      else [])
  ++ [Step.emit (H.maybe_report_diff_for_symbol s1 s2 indent)]
  ++ (if ff.is_declared_inline != sf.is_declared_inline then
        [Step.emit indent,
         if ff.is_declared_inline then
           Step.emit (sf.pretty_representation
             ++ " is not declared inline anymore\n")
         else
           Step.emit (sf.pretty_representation
             ++ " is now declared inline\n")]
      else [])

/-- The last statement of `report(const function_decl_diff&)`, lines
1622-1624: the report of the function type diff. -/
def function_decl_diff_type_steps (type_diff : diff_sptr) (indent : String) :
    List Step :=
  match type_diff with
  | none => []
  | some i =>
    match g[i]? with
    | none => [Step.fault .dangling]
    | some td => if td.to_be_reported then [Step.call i indent] else []

/-- `report(const function_decl_diff&)`, lines 1461-1625. -/
def function_decl_diff_steps (d : Diff) (ff sf : function_decl)
    (type_diff : diff_sptr) (indent : String) : List Step :=
  if !d.to_be_reported then [] else
  function_decl_diff_local_steps H ctxt g ff sf type_diff indent
  ++ vtable_offset_steps ff sf indent
  ++ function_decl_diff_type_steps g type_diff indent

/-- `report(const var_diff&)`, lines 1636-1667. -/
def var_diff_steps (d : Diff) (first second : var_decl)
    (type_diff : diff_sptr) (indent : String) : List Step :=
  if !d.to_be_reported then [] else
  let r :=
    H.report_name_size_and_alignment_changes first.toEntity second.toEntity
      indent false
  [Step.emit r.1]
  ++ (if r.2 then [Step.emit "\n"] else [])
  ++ [Step.emit
        (H.maybe_report_diff_for_symbol first.symbol second.symbol indent),
      Step.emit
        (H.maybe_report_diff_for_member first.toEntity second.toEntity
          indent)]
  ++ (match type_diff with
      | none => []
      | some i =>
        match g[i]? with
        | none => [Step.fault .dangling]
        | some dif =>
          if dif.to_be_reported then
            [return_if_reported2 H i dif "type" indent,
             Step.emit (indent ++ "type of variable changed:\n"),
             Step.call i (indent ++ " ")]
          else [])

/-- The header of a section of `report(const corpus_diff&)`: nothing for
zero, a singular form for one, a plural form with the count otherwise. -/
def count_header (n : Nat) (one many indent : String) : List Step :=
  if n == 1 then [Step.emit (indent ++ one)]
  else if n > 1 then [Step.emit (indent ++ toString n ++ many)]
  else []

/-- The statements that list one removed or added function in
`report(const corpus_diff&)`, lines 1743-1765 and 1788-1814: `tag` is
`"[D] "` or `"[A] "`, `note` the text about the vtable. -/
def listed_function_steps (total : Nat) (tag note : String)
    (i : function_decl) (indent : String) : List Step :=
  [Step.emit (indent ++ "  ")]
  ++ (if total > 100 then [Step.emit tag] else [])
  ++ [Step.emit ("'" ++ i.pretty_representation ++ "'")]
  ++ (if ctxt.show_linkage_names then
        match i.symbol with
        | none => [Step.emit "    \x7b", Step.fault .null_deref]
        | some sym =>
          [Step.emit "    \x7b",
           Step.emit (H.show_linkage_name_and_aliases "" sym),
           Step.emit "\x7d"]
      else [])
  ++ [Step.emit "\n"]
  ++ (if i.is_member_function && i.member_function_is_virtual then
        match i.class_type with
        | none => [Step.fault .null_deref]
        | some c =>
          [Step.emit (indent ++ "    " ++ note ++ c.pretty_representation
            ++ "\n")]
      else [])

/-- The statements that list one removed or added variable in
`report(const corpus_diff&)`, lines 1918-1934 and 1962-1976. -/
def listed_variable_steps (total : Nat) (tag : String) (i : var_decl)
    (indent : String) : List Step :=
  [Step.emit (indent ++ "  ")]
  ++ (if total > 100 then [Step.emit tag] else [])
  ++ [Step.emit ("'" ++ i.pretty_representation ++ "'")]
  ++ (if ctxt.show_linkage_names then
        match i.symbol with
        | none => [Step.emit "    \x7b", Step.fault .null_deref]
        | some sym =>
          [Step.emit "    \x7b",
           Step.emit (H.show_linkage_name_and_aliases "" sym),
           Step.emit "\x7d"]
      else [])
  ++ [Step.emit "\n"]

/-- The statements about one changed function in
`report(const corpus_diff&)`, lines 1842-1887; `k` is the diff node. -/
def changed_function_steps (k : Nat) (fn sfn : function_decl)
    (indent : String) : List Step :=
  [Step.emit (indent ++ "  [C]'" ++ fn.pretty_representation ++ "'"),
   Step.emit (H.report_loc_info (some sfn.toEntity)),
   Step.emit " has some indirect sub-type changes:\n"]
  ++ (match fn.symbol with
      | none => [Step.fault .null_deref]
      | some sym =>
        (if (sym.has_aliases
              && !(fn.is_member_function && fn.member_function_is_ctor)
              && !(fn.is_member_function && fn.member_function_is_dtor))
            || (fn.is_c_language && fn.name != fn.linkage_name) then
           if sym.number_of_aliases == 0 then
             [Step.emit (indent ++ "    "
               ++ "Please note that the exported symbol of this function is "
               ++ sym.id_string ++ "\n")]
           else
             [Step.emit (indent ++ "    "
               ++ "Please note that the symbol of this function is "
               ++ sym.id_string ++ "\n     and it aliases symbol")]
             ++ (if sym.number_of_aliases > 1 then [Step.emit "s"] else [])
             ++ [Step.emit (": " ++ sym.aliases_id_string_no_main ++ "\n")]
         else [])
        ++ [Step.call k (indent ++ "    "), Step.emit "\n"])

/-- One of the four sections of `report(const corpus_diff&)` about symbols
not referenced by debug info, lines 2024-2165: `shown` is the test that
opens the section, `net` the count in the header, `tagged` the count
compared with `large_num`. -/
def unrefed_syms_steps (shown : Bool) (syms : List (String × elf_symbol))
    (net tagged : Nat) (one many tag : String)
    (is_suppressed : elf_symbol → Bool) (indent : String) : List Step :=
  if shown && syms.length != 0 then
    let sorted := H.sort_string_elf_symbol_map syms
    (if net == 1 then [Step.emit (indent ++ one)]
     else if net > 0 then [Step.emit (indent ++ toString net ++ many)]
     else [])
    ++ sorted.flatMap (fun i =>
        if is_suppressed i then []
        else
          [Step.emit (indent ++ "  ")]
          ++ (if tagged > 100 then [Step.emit tag] else [])
          ++ [Step.emit (H.show_linkage_name_and_aliases "" i),
              Step.emit "\n"])
    ++ (if sorted.length != 0 then [Step.emit "\n"] else [])
  else []

/-- `report(const corpus_diff&)`, lines 1693-2168, after the call of
`apply_filters_and_suppressions_before_reporting` that yields `p.stats`. -/
def corpus_diff_steps (self : Nat) (p : corpus_diff) (indent : String) :
    List Step :=
  let s := p.stats
  let total :=
    size_t_add (size_t_add s.net_num_func_removed s.net_num_func_added)
      s.net_num_func_changed
  let total_vars :=
    size_t_sub
      (size_t_add (size_t_add s.num_vars_removed s.num_vars_added)
        s.num_vars_changed)
      s.num_changed_vars_filtered_out
  let deleted_fns :=
    (H.sort_string_function_ptr_map p.deleted_fns).filter
      (fun i => !H.deleted_function_is_suppressed p i)
  let removed := if ctxt.show_deleted_fns then deleted_fns.length else 0
  let added_fns :=
    (H.sort_string_function_ptr_map p.added_fns).filter
      (fun i => !H.added_function_is_suppressed p i)
  let num_changed_fns :=
    size_t_sub s.num_func_changed s.num_changed_func_filtered_out
  let changed_fns :=
    loop_with
      (fun (emitted : Bool) (i : diff_sptr) =>
        match i with
        | none => ([], emitted)
        | some k =>
          match g[k]? with
          | some ⟨tbr, .function_decl_diff fn sfn _⟩ =>
            if tbr then (changed_function_steps H k fn sfn indent, true)
            else ([], emitted)
          | _ => ([Step.fault .dangling], emitted))
      false (H.sort_string_function_decl_diff_sptr_map p.changed_fns_map)
  let deleted_vars :=
    (H.sort_string_var_ptr_map p.deleted_vars).filter
      (fun i => !H.deleted_variable_is_suppressed p i)
  let removed_vars := removed + deleted_vars.length
  let added_vars :=
    (H.sort_string_var_ptr_map p.added_vars).filter
      (fun i => !H.added_variable_is_suppressed p i)
  let num_changed_vars :=
    size_t_sub s.num_vars_changed s.num_changed_vars_filtered_out
  [Step.emit (H.emit_diff_stats s indent)]
  ++ (if ctxt.show_stats_only then [] else
  [Step.emit "\n"]
  ++ (if ctxt.show_soname_change && !p.sonames_equal then
        [Step.emit (indent ++ "SONAME changed from '" ++ p.first_corpus.soname
          ++ "' to '" ++ p.second_corpus.soname ++ "'\n\n")]
      else [])
  ++ (if ctxt.show_architecture_change && !p.architectures_equal then
        [Step.emit (indent ++ "architecture changed from '"
          ++ p.first_corpus.architecture_name ++ "' to '"
          ++ p.second_corpus.architecture_name ++ "'\n\n")]
      else [])
  ++ (if ctxt.show_deleted_fns then
        count_header s.net_num_func_removed "1 Removed function:\n\n"
          " Removed functions:\n\n" indent
        ++ deleted_fns.flatMap (fun i =>
            listed_function_steps H ctxt total "[D] "
              "note that this removes an entry from the vtable of " i indent)
        ++ (if removed != 0 then [Step.emit "\n"] else [])
      else [])
  ++ (if ctxt.show_added_fns then
        count_header s.net_num_func_added "1 Added function:\n\n"
          " Added functions:\n\n" indent
        ++ added_fns.flatMap (fun i =>
            listed_function_steps H ctxt total "[A] "
              "note that this adds a new entry to the vtable of " i indent)
        ++ (if added_fns.length != 0 then [Step.emit "\n"] else [])
      else [])
  ++ (if ctxt.show_changed_fns then
        count_header num_changed_fns
          "1 function with some indirect sub-type change:\n\n"
          " functions with some indirect sub-type change:\n\n" indent
        ++ changed_fns.1
        ++ (if changed_fns.2 then [Step.emit "\n"] else [])
      else [])
  ++ (if ctxt.show_deleted_vars then
        count_header s.net_num_vars_removed "1 Removed variable:\n\n"
          " Removed variables:\n\n" indent
        ++ deleted_vars.flatMap (fun i =>
            listed_variable_steps H ctxt total_vars "[D] " i indent)
        ++ (if removed_vars != 0 then [Step.emit "\n"] else [])
      else [])
  ++ (if ctxt.show_added_vars then
        count_header s.net_num_vars_added "1 Added variable:\n\n"
          " Added variables:\n\n" indent
        ++ added_vars.flatMap (fun i =>
            listed_variable_steps H ctxt total_vars "[A] " i indent)
        ++ (if added_vars.length != 0 then [Step.emit "\n"] else [])
      else [])
  ++ (if ctxt.show_changed_vars then
        count_header num_changed_vars "1 Changed variable:\n\n"
          " Changed variables:\n\n" indent
        ++ p.sorted_changed_vars.flatMap (fun i =>
            match i with
            | none => []
            | some k =>
              match g[k]? with
              | none => [Step.fault .dangling]
              | some diff =>
                if !diff.to_be_reported then [] else
                with_entity diff.node.first_subject (fun fs =>
                  with_entity diff.node.second_subject (fun ss =>
                    let n1 := fs.pretty_representation
                    let n2 := ss.pretty_representation
                    [Step.emit (indent ++ "  [C]'" ++ n1 ++ "' was changed")]
                    ++ (if n1 != n2 then
                          [Step.emit (" to '" ++ n2 ++ "'")]
                        else [])
                    ++ [Step.emit (H.report_loc_info diff.node.second_subject),
                        Step.emit ":\n",
                        Step.call k (indent ++ "    "),
                        Step.emit "\n"])))
        ++ (if num_changed_vars != 0 then [Step.emit "\n"] else [])
      else [])
  ++ unrefed_syms_steps H ctxt.show_symbols_unreferenced_by_debug_info
      p.deleted_unrefed_fn_syms s.net_num_removed_func_syms
      s.net_num_removed_func_syms
      "1 Removed function symbol not referenced by debug info:\n\n"
      " Removed function symbols not referenced by debug info:\n\n" "[D] "
      (H.deleted_unrefed_fn_sym_is_suppressed p) indent
  ++ unrefed_syms_steps H
      (ctxt.show_symbols_unreferenced_by_debug_info
        && ctxt.show_added_symbols_unreferenced_by_debug_info)
      p.added_unrefed_fn_syms s.net_num_added_func_syms
      s.net_num_added_func_syms
      "1 Added function symbol not referenced by debug info:\n\n"
      " Added function symbols not referenced by debug info:\n\n" "[A] "
      (H.added_unrefed_fn_sym_is_suppressed p) indent
  ++ unrefed_syms_steps H ctxt.show_symbols_unreferenced_by_debug_info
      p.deleted_unrefed_var_syms s.net_num_removed_var_syms
      s.num_var_syms_removed
      "1 Removed variable symbol not referenced by debug info:\n\n"
      " Removed variable symbols not referenced by debug info:\n\n" "[D] "
      (H.deleted_unrefed_var_sym_is_suppressed p) indent
  ++ unrefed_syms_steps H
      (ctxt.show_symbols_unreferenced_by_debug_info
        && ctxt.show_added_symbols_unreferenced_by_debug_info)
      p.added_unrefed_var_syms s.net_num_added_var_syms
      s.net_num_added_var_syms
      "1 Added variable symbol not referenced by debug info:\n\n"
      " Added variable symbols not referenced by debug info:\n\n" "[A] "
      (H.added_unrefed_var_sym_is_suppressed p) indent
  ++ [Step.maybe_dump_diff_tree self])

/-- The statements of the overload that the virtual call
`dif->report(out, indent)` selects for node `d`.  For `class_diff` and
`union_diff` these are the statements between the two writes of
`currently_reporting`; for `corpus_diff` those after the filters were
applied.  `translation_unit_diff` forwards to the `scope_diff` overload
(lines 1677-1683). -/
def steps (self : Nat) (d : Diff) (indent : String) : List Step :=
  match d.node with
  | .type_decl_diff f s => type_decl_diff_steps H d f s indent
  | .enum_diff p => enum_diff_steps H ctxt g self d p indent
  | .typedef_diff f s u => typedef_diff_steps H ctxt g self d f s u indent
  | .qualified_type_diff f s u =>
    qualified_type_diff_steps H g self d f s u indent
  | .pointer_diff _ _ u => pointer_diff_steps H g d u indent
  | .reference_diff f s u => reference_diff_steps H g d f s u indent
  | .fn_parm_diff f s t => fn_parm_diff_steps H g d f s t indent
  | .function_type_diff p => function_type_diff_steps g d p indent
  | .array_diff f s e => array_diff_steps H g self d f s e indent
  | .base_diff f s u => base_diff_steps H ctxt g d f s u indent
  | .scope_diff p => scope_diff_steps H g d p indent
  | .class_diff p => class_diff_steps H ctxt g d p indent
  | .union_diff p => union_diff_steps H ctxt g d p indent
  | .distinct_diff f s c => distinct_diff_steps H d f s c indent
  | .function_decl_diff f s t => function_decl_diff_steps H ctxt g d f s t indent
  | .var_diff f s t => var_diff_steps H g d f s t indent
  | .translation_unit_diff p => scope_diff_steps H g d p indent
  | .corpus_diff p => corpus_diff_steps H ctxt g self p indent

/-- The frame of `report(const class_diff&)` (lines 1271-1274 and 1373-1375)
and of `report(const union_diff&)` (lines 1391-1394 and 1408-1410) around
the statements `body`: the guard on the node itself, then
`currently_reporting(true)`, the body, `currently_reporting(false)` and
`reported_once(true)`. -/
def report_marked (rep : Nat → String → RState → Result) (self : Nat)
    (body : List Step) (indent : String) (st : RState) : Result :=
  match return_note st self (H.reported_note true indent)
      (H.reported_note false indent) with
  | some note => .ok (st.write note)
  | none =>
    match exec rep body (st.set_currently_reporting self true) with
    | .ok st1 =>
      .ok ((st1.set_currently_reporting self false).set_reported_once self
        true)
    | .fault f => .fault f
    | .out_of_fuel => .out_of_fuel

/-- The call `report(d, out, indent)` on node `self`, dispatched on the kind
of the node; `rep` is what the nested calls `dif->report(out, indent)`
do. -/
def report_node (rep : Nat → String → RState → Result) (self : Nat)
    (d : Diff) (indent : String) (st : RState) : Result :=
  match d.node with
  | .class_diff _ =>
    if !d.to_be_reported then .ok st
    else report_marked H rep self (steps H ctxt g self d indent) indent st
  | .union_diff _ =>
    report_marked H rep self (steps H ctxt g self d indent) indent st
  | .corpus_diff _ =>
    exec rep (steps H ctxt g self d indent)
      (st.log (Event.apply_filters_and_suppressions_before_reporting self))
  | _ => exec rep (steps H ctxt g self d indent) st

/-- The call `dif->report(out, indent)` on node `self` of the graph.  The
first argument bounds the depth of nested calls; a call that needs more
ends with `Result.out_of_fuel`. -/
def report : Nat → Nat → String → RState → Result
  | 0, _, _, _ => .out_of_fuel
  | fuel + 1, self, indent, st =>
    match g[self]? with
    | none => .fault .dangling
    | some d =>
      report_node H ctxt g (report fuel) self d indent
        (st.log (Event.report self))

end overloads

/-! ## Concrete collaborators and graphs used by the examples -/

/-- Collaborators that write nothing, apart from the notes of the reporting
guard; no category bit is shared. -/
def H0 : Helpers where
  ACCESS_CHANGE_CATEGORY := 1
  HARMLESS_DECL_NAME_CHANGE_CATEGORY := 4
  NON_VIRT_MEM_FUN_CHANGE_CATEGORY := 8
  CLASS_DECL_ONLY_DEF_CHANGE_CATEGORY := 4096
  report_loc_info := fun _ => ""
  report_name_size_and_alignment_changes := fun _ _ _ _ => ("", false)
  report_size_and_alignment_changes := fun _ _ _ _ => ("", false)
  maybe_report_diff_for_member := fun _ _ _ => ""
  maybe_report_diff_for_symbol := fun _ _ _ => ""
  report_mem_header := fun _ _ _ _ _ => ""
  maybe_report_interfaces_impacted_by_diff := fun _ _ _ => ""
  represent_method := fun _ => ""
  represent_data_member := fun _ => ""
  represent_var_diff_before := fun _ _ _ => ""
  represent_var_diff_after := fun _ _ _ => ""
  show_linkage_name_and_aliases := fun _ _ => ""
  emit_diff_stats := fun _ _ => ""
  get_pretty_representation := fun e =>
    match e with
    | some x => x.pretty_representation
    | none => "void"
  has_harmless_name_change := fun _ _ => false
  has_class_decl_only_def_change := fun _ _ => false
  type_has_sub_type_changes := fun _ _ => false
  member_type_has_changed := fun _ _ => false
  base_has_changed := fun _ _ => false
  deleted_function_is_suppressed := fun _ _ => false
  added_function_is_suppressed := fun _ _ => false
  deleted_variable_is_suppressed := fun _ _ => false
  added_variable_is_suppressed := fun _ _ => false
  deleted_unrefed_fn_sym_is_suppressed := fun _ _ => false
  added_unrefed_fn_sym_is_suppressed := fun _ _ => false
  deleted_unrefed_var_sym_is_suppressed := fun _ _ => false
  added_unrefed_var_sym_is_suppressed := fun _ _ => false
  sort_enumerators := fun l => l.map (fun x => x.2)
  sort_changed_enumerators := fun l => l.map (fun x => x.2)
  sort_data_members := fun l => l.map (fun x => x.2)
  sort_string_function_ptr_map := fun l => l.map (fun x => x.2)
  sort_string_function_decl_diff_sptr_map := fun l => l.map (fun x => x.2)
  sort_string_var_ptr_map := fun l => l.map (fun x => x.2)
  sort_string_elf_symbol_map := fun l => l.map (fun x => x.2)
  reported_note := fun being indent =>
    indent ++ (if being then "details are being reported\n"
               else "details were reported earlier\n")
  reported_note2 := fun being _ intro indent =>
    indent ++ intro ++ (if being then " is being reported\n"
                        else " was reported earlier\n")
  reported_note3 := fun being _ intro indent =>
    indent ++ intro ++ (if being then " is being reported\n"
                        else " was reported earlier\n")

/-- A context with every category allowed by `H0` switched on. -/
def ctxt0 : diff_context := { allowed_category := 4109 }

/-- The `class_diff` of a class `T` whose data member `next` changed. -/
def list_graph_class : Diff :=
  { node := .class_diff
      { first_class_or_union := { pretty_representation := "class T" }
        second_class_or_union := { pretty_representation := "class T" }
        data_members_changes := { deletions := [0] }
        sorted_changed_dm := [some 1] } }

/-- The class `T` with a data member `next` of type pointer to `T`: node 0
is the `class_diff` of `T`, node 1 the `var_diff` of `next`, node 2 the
`pointer_diff` of its type, which points back to node 0. -/
def list_graph : Graph :=
  [ list_graph_class,
    { node := .var_diff { pretty_representation := "T* T::next" }
        { pretty_representation := "T* T::next" } (some 2) },
    { node := .pointer_diff { pretty_representation := "T*" }
        { pretty_representation := "T*" } (some 0) } ]

/-! ## Notions used to state the properties -/

/-- Whether node `m` of the graph is a `class_diff` or a `union_diff`. -/
def is_class_or_union_at (g : Graph) (m : Nat) : Bool :=
  match g[m]? with
  | some d => d.node.is_class_or_union_diff
  | none => false

/-- Whether node `m` of the graph is a `corpus_diff`. -/
def is_corpus_at (g : Graph) (m : Nat) : Bool :=
  match g[m]? with
  | some ⟨_, .corpus_diff _⟩ => true
  | _ => false

/-- Number of times the sections of node `c` were entered in a history:
the writes `c.currently_reporting(true)`. -/
def traversals (c : Nat) (h : List Event) : Nat :=
  h.count (Event.currently_reporting c true)

/-- Relation between the state before and the state after a report:
the `currently_reporting` flags are as before, `reported_once` flags were
only set, and only on class and union diffs; output and history were
appended to, filters were applied only on corpus diffs and the sections of
a node were entered at most once, never for a node that was flagged. -/
structure Frame (g : Graph) (st st1 : RState) : Prop where
  cr : st1.currently_reporting = st.currently_reporting
  ro_mono : ∀ m, m ∈ st.reported_once → m ∈ st1.reported_once
  ro_new : ∀ m, m ∈ st1.reported_once →
    m ∈ st.reported_once ∨ is_class_or_union_at g m = true
  out : ∃ s, st1.out = st.out ++ s
  hist : ∃ h, st1.history = st.history ++ h
    ∧ (∀ m, Event.apply_filters_and_suppressions_before_reporting m ∈ h →
        is_corpus_at g m = true)
    ∧ (∀ c, (c ∈ st.currently_reporting ∨ c ∈ st.reported_once →
              traversals c h = 0)
          ∧ traversals c h ≤ 1
          ∧ (traversals c h = 1 → c ∈ st1.reported_once))

/-- Number of class and union diffs of the graph whose two reporting-state
flags are both unset. -/
def unvisited (g : Graph) (st : RState) : Nat :=
  (List.range g.length).countP (fun n =>
    is_class_or_union_at g n && !decide (n ∈ st.currently_reporting)
      && !decide (n ∈ st.reported_once))

/-- Fuel that the report of node `n` needs in state `st`, given a rank
`rk` on the nodes and a bound `W` on the ranks. -/
def need (g : Graph) (rk : Nat → Nat) (W : Nat) (n : Nat) (st : RState) : Nat :=
  if is_class_or_union_at g n then
    if n ∈ st.currently_reporting ∨ n ∈ st.reported_once then 1
    else (unvisited g st - 1) * W + rk n + 2
  else unvisited g st * W + rk n + 2

/-- A state reached later in the same reporting session, through any
sequence of the transitions that the reporter makes: a text written to the
stream, an effect recorded, a completed `report` call, and the two halves
of the frame of a class or union report, `enter` when the sections of a node
that is not flagged are entered and `leave` when they are left. -/
inductive Session (H : Helpers) (ctxt : diff_context) (g : Graph) :
    RState → RState → Prop
  | refl (st : RState) : Session H ctxt g st st
  | write {st st1 : RState} (s : String) :
      Session H ctxt g st st1 → Session H ctxt g st (st1.write s)
  | log {st st1 : RState} (e : Event) :
      Session H ctxt g st st1 → Session H ctxt g st (st1.log e)
  | report {st st1 st2 : RState} (fuel m : Nat) (indent : String) :
      Session H ctxt g st st1 →
      report H ctxt g fuel m indent st1 = .ok st2 → Session H ctxt g st st2
  | enter {st st1 : RState} (m : Nat) :
      Session H ctxt g st st1 → m ∉ st1.currently_reporting →
      m ∉ st1.reported_once →
      Session H ctxt g st (st1.set_currently_reporting m true)
  | leave {st st1 : RState} (m : Nat) :
      Session H ctxt g st st1 →
      Session H ctxt g st
        ((st1.set_currently_reporting m false).set_reported_once m true)

/-- The kinds of node whose report consults the reporting-state guard on the
subjects of the node itself. -/
def Node.guards_itself : Node → Bool
  | .typedef_diff _ _ _ => true
  | .qualified_type_diff _ _ _ => true
  | .array_diff _ _ _ => true
  | .class_diff _ => true
  | .union_diff _ => true
  | _ => false

/-- Whether a statement is a reporting-state guard. -/
def Step.is_guard : Step → Bool
  | .return_if_reported _ _ _ => true
  | _ => false

/-- Whether no statement of the list is a reporting-state guard. -/
def no_guard (l : List Step) : Bool := l.all (fun s => !s.is_guard)

/-- The state in which the report of node 0 of `list_graph` ends when it
starts from the empty state. -/
def list_graph_reported : RState :=
  { out := "   pointed to type is being reported\n\n"
    currently_reporting := []
    reported_once := [0]
    history :=
      [Event.report 0, Event.currently_reporting 0 true, Event.report 2,
       Event.currently_reporting 0 false, Event.reported_once 0 true] }

/-- A class whose size changed, say: one `class_diff` node that is to be
reported and has no sub-diff. -/
def class_graph : Graph :=
  [ { node := .class_diff
        { first_class_or_union := { pretty_representation := "class C" }
          second_class_or_union := { pretty_representation := "class C" } } } ]

/-- A rank on the nodes of `list_graph`: the class diff and the diff of
the data member are above the pointer diff. -/
def list_graph_rank (n : Nat) : Nat := if n = 2 then 0 else 1

/-- A typedef whose underlying type did not change: one `typedef_diff`
node. -/
def typedef_graph : Graph :=
  [ { node := .typedef_diff { qualified_name := "A" } { qualified_name := "B" }
        none } ]

/-- A class `C` whose virtual method `m` moves from vtable offset 2 to
vtable offset 3: the only node is the `function_decl_diff` of `C::m`. -/
def vtable_offset_graph : Graph :=
  [ { node := .function_decl_diff
        { pretty_representation := "method void C::m()"
          is_member_function := true
          member_function_is_virtual := true
          member_function_vtable_offset := 2
          class_type := some
            { pretty_representation := "class C", has_vtable := true } }
        { pretty_representation := "method void C::m()"
          is_member_function := true
          member_function_is_virtual := true
          member_function_vtable_offset := 3
          class_type := some
            { pretty_representation := "class C", has_vtable := true } }
        none } ]

/-- The state in which the report of node 0 of `vtable_offset_graph` with
an indentation of two spaces ends. -/
def vtable_offset_reported : RState :=
  { out := "  the vtable offset of method void C::m() changed from 2 to 3\n"
      ++ "    note that this is an ABI incompatible change to the vtable of "
      ++ "class C\n"
    history := [Event.report 0] }

/-- The first subject of `virtual_graph`: the method `C::m`, not virtual. -/
def plain_method : function_decl :=
  { pretty_representation := "method void C::m()"
    is_member_function := true
    member_function_is_virtual := false
    class_type := some
      { pretty_representation := "class C", has_vtable := true } }

/-- The second subject of `virtual_graph`: the method `C::m`, virtual. -/
def virtual_method : function_decl :=
  { pretty_representation := "method void C::m()"
    is_member_function := true
    member_function_is_virtual := true
    class_type := some
      { pretty_representation := "class C", has_vtable := true } }

/-- A class `C` with a vtable whose method `m` becomes virtual, at the same
vtable offset: the only node is the `function_decl_diff` of `C::m`. -/
def virtual_graph : Graph :=
  [ { node := .function_decl_diff plain_method virtual_method none } ]

/-- The state in which the report of node 0 of `virtual_graph` with an
indentation of two spaces ends. -/
def virtual_reported : RState :=
  { out := "  method void C::m() is now declared virtual\n"
      ++ "    note that this induces a change to the vtable of class C\n"
    history := [Event.report 0] }

/-- The method `m` of a class `C` that has a vtable or not and is
declaration-only or not; the method is virtual when the class has a
vtable. -/
def method_of (has_vtable declaration_only : Bool) : function_decl :=
  { pretty_representation := "method void C::m()"
    is_member_function := true
    member_function_is_virtual := has_vtable
    class_type := some
      { pretty_representation := "class C", has_vtable := has_vtable
        is_declaration_only := declaration_only } }

/-- A corpus diff (node 0) with one changed function (node 1) whose
declarations have no symbol. -/
def no_symbol_graph : Graph :=
  [ { node := .corpus_diff
        { stats := { num_func_changed := 1, net_num_func_changed := 1 }
          changed_fns_map := [("f", some 1)] } },
    { node := .function_decl_diff
        { pretty_representation := "function void f(int)", name := "f" }
        { pretty_representation := "function void f(long)", name := "f" }
        none } ]

/-- A context that shows linkage names. -/
def ctxt_linkage_names : diff_context :=
  { allowed_category := 4109, show_linkage_names := true }

/-- A corpus diff with one removed function whose declaration has no
symbol. -/
def no_symbol_removed_graph : Graph :=
  [ { node := .corpus_diff
        { stats := { net_num_func_removed := 1 }
          deleted_fns :=
            [("f", { pretty_representation := "function void f(int)" })] } } ]

/-- A typedef that became a compatible enum (node 0, a `distinct_diff` with
the compatible child diff node 1), and an `int` that became a class
(node 2, a `distinct_diff` without child). -/
def distinct_graph : Graph :=
  [ { node := .distinct_diff (some { pretty_representation := "typedef T" })
        (some { pretty_representation := "enum E" }) (some 1) },
    { node := .type_decl_diff { pretty_representation := "int" }
        { pretty_representation := "unsigned int" } },
    { node := .distinct_diff (some { pretty_representation := "int" })
        (some { pretty_representation := "class C" }) none } ]

/-! ## Sections of the overloads, loop by loop -/

/-- The text that a list of statements writes when it holds `out << s`
statements only: the texts of the `emit` statements, in order. -/
def written : List Step → String
  | [] => ""
  | .emit s :: rest => s ++ written rest
  | _ :: rest => written rest

/-- One of the two loops of `report(const scope_diff&)` over inserted
entries, lines 775-793 (types) and 795-813 (declarations), with the test of
the local variable `emitted` that follows it. -/
def inserted_steps (entries : List (String × Entity)) (indent : String) :
    List Step :=
  let r :=
    loop_with
      (fun (emitted : Bool) (i : String × Entity) =>
        if i.2.is_type_decl then ([], emitted)
        else
          ([Step.emit (indent ++ "  '" ++ i.2.pretty_representation
              ++ "' was added\n")], true))
      false entries
  r.1 ++ (if r.2 then [Step.emit "\n"] else [])

/-- The line that `report(const scope_diff&)` writes for an inserted entry,
lines 785-788 and 805-808. -/
def was_added_line (i : String × Entity) (indent : String) : Step :=
  Step.emit (indent ++ "  '" ++ i.2.pretty_representation ++ "' was added\n")

/-- A `scope_diff` with two inserted types, the first one a `type_decl`, and
one inserted declaration. -/
def inserted_scope : scope_diff :=
  { inserted_types :=
      [("int", { pretty_representation := "int", is_type_decl := true }),
       ("S", { pretty_representation := "struct S" })]
    inserted_decls := [("f", { pretty_representation := "void f()" })] }

/-- A `qualified_type_diff` from `const int` to `volatile int` (node 0) over
the `type_decl_diff` of `int` (node 1). -/
def qualified_graph : Graph :=
  [ { node := .qualified_type_diff { pretty_representation := "const int" }
        { pretty_representation := "volatile int" } (some 1) },
    { node := .type_decl_diff { pretty_representation := "int" }
        { pretty_representation := "int" } } ]

/-- Collaborators as `H0`, except that `represent` writes a member function
as its pretty representation between quotes. -/
def H_methods : Helpers :=
  { H0 with
    represent_method := fun f => "'" ++ f.pretty_representation ++ "'" }

/-- Collaborators as `H0`, except that
`report_name_size_and_alignment_changes` reports a change of size. -/
def H_sizes : Helpers :=
  { H0 with
    report_name_size_and_alignment_changes := fun _ _ indent _ =>
      (indent ++ "type size changed from 32 to 64 (in bits)", true) }

/-- A union whose size changed and whose diff is not to be reported
(filtered out or suppressed): one `union_diff` node. -/
def filtered_union_graph : Graph :=
  [ { to_be_reported := false
      node := .union_diff
        { first_class_or_union := { pretty_representation := "union U" }
          second_class_or_union := { pretty_representation := "union U" } } } ]

/-- The same union when its diff is a `class_diff` node that is not to be
reported. -/
def filtered_class_graph : Graph :=
  [ { to_be_reported := false
      node := .class_diff
        { first_class_or_union := { pretty_representation := "union U" }
          second_class_or_union := { pretty_representation := "union U" } } } ]

/-- The virtual member function `name` of class `C`. -/
def virtual_member (name : String) : function_decl :=
  { pretty_representation := "method virtual void C::" ++ name ++ "()"
    is_member_function := true
    member_function_is_virtual := true
    class_type := some
      { pretty_representation := "class C", has_vtable := true } }

/-- A class `C` that lost the virtual member functions given by `deleted`,
the entries of the map `deleted_member_functions_` in the order in which the
map is iterated: one `class_diff` node. -/
def deleted_methods_graph (deleted : List (String × function_decl)) : Graph :=
  [ { node := .class_diff
        { first_class_or_union := { pretty_representation := "class C" }
          second_class_or_union := { pretty_representation := "class C" }
          member_fns_changes := { deletions := [0, 1] }
          deleted_member_functions := deleted } } ]

/-- A scope that lost the types given by `deleted`, the entries of the map
`deleted_types_` in the order in which the map is iterated: one
`scope_diff` node. -/
def deleted_types_graph (deleted : List (String × Entity)) : Graph :=
  [ { node := .scope_diff { deleted_types := deleted } } ]

/-- The line that `report(const class_or_union_diff&)` writes for a member
template, lines 1167-1169, 1189-1191, 1220-1222 and 1242-1244. -/
def tmpl_line (indent : String) (tmpl : Entity) : Step :=
  Step.emit (indent ++ "  '" ++ tmpl.pretty_representation ++ "'")

/-- An edit script between the member function templates `first_tmpls` and
`second_tmpls`: the templates at indexes 0 and 2 of the first sequence were
deleted, the one at index 1 of the second sequence was inserted. -/
def tmpls_script : edit_script :=
  { deletions := [0, 2]
    insertions := [{ insertion_point_index := 1, inserted_indexes := [1] }] }

/-- Three member function templates. -/
def first_tmpls : List Entity :=
  [{ pretty_representation := "template<T> void a(T)" },
   { pretty_representation := "template<T> void b(T)" },
   { pretty_representation := "template<T> void c(T)" }]

/-- Two member function templates. -/
def second_tmpls : List Entity :=
  [{ pretty_representation := "template<T> void b(T)" },
   { pretty_representation := "template<T> void d(T)" }]

/-- Assumption on the sort functions of `abg-comparison-priv.h` that
`report(const corpus_diff&)` calls and that are not among the sources: each
returns the values of the map it is given, each once, in some order. -/
structure Helpers.sort_permutes (H : Helpers) : Prop where
  fns : ∀ l : List (String × function_decl),
    (H.sort_string_function_ptr_map l).Perm (l.map (fun x => x.2))
  fn_diffs : ∀ l : List (String × diff_sptr),
    (H.sort_string_function_decl_diff_sptr_map l).Perm (l.map (fun x => x.2))
  vars : ∀ l : List (String × var_decl),
    (H.sort_string_var_ptr_map l).Perm (l.map (fun x => x.2))

/-- The section of the removed functions (lines 1726-1770) or of the added
functions (lines 1772-1822) of `report(const corpus_diff&)`, with the local
variable `removed`, or `added`, that the loop counts up: `shown` is the test
that opens the section, `net` the count in the header, `sorted` the sorted
functions, `is_suppressed` the test on one of them.  The second component
is the value of the local variable after the loop. -/
def function_list_steps (H : Helpers) (ctxt : diff_context) (shown : Bool)
    (net : Nat) (one many : String) (total : Nat) (tag note : String)
    (sorted : List function_decl) (is_suppressed : function_decl → Bool)
    (indent : String) : List Step × Nat :=
  if shown then
    let r :=
      loop_with
        (fun (listed : Nat) (i : function_decl) =>
          if is_suppressed i then ([], listed)
          else
            (listed_function_steps H ctxt total tag note i indent,
             listed + 1))
        0 sorted
    (count_header net one many indent
      ++ r.1
      ++ (if r.2 != 0 then [Step.emit "\n"] else []),
     r.2)
  else ([], 0)

/-- The statistics of a corpus diff whose only change is one added
function: the net counts of removed, added and changed functions are 0, 1
and 0, no changed function is left after filtering, and nothing changed
among the variables. -/
def diff_stats.one_function_added (s : diff_stats) : Prop :=
  s.net_num_func_removed = 0 ∧ s.net_num_func_added = 1
  ∧ s.net_num_func_changed = 0
  ∧ s.num_func_changed = s.num_changed_func_filtered_out
  ∧ s.net_num_vars_removed = 0 ∧ s.net_num_vars_added = 0
  ∧ s.num_vars_changed = s.num_changed_vars_filtered_out

instance (s : diff_stats) : Decidable s.one_function_added := by
  unfold diff_stats.one_function_added
  infer_instance

/-- The function `void f(int)`. -/
def void_f_int : function_decl :=
  { pretty_representation := "void f(int)", name := "f" }

/-- The corpus diff of two corpora of which the second one adds the
function `void f(int)`. -/
def added_function_corpus_diff : corpus_diff :=
  { stats := { net_num_func_added := 1 }
    added_fns := [("f", void_f_int)] }

/-- The graph of `added_function_corpus_diff`: one `corpus_diff` node. -/
def added_function_graph : Graph :=
  [ { node := .corpus_diff added_function_corpus_diff } ]

/-- Collaborators as `H0`, except that the functions named `g` are
suppressed. -/
def H_suppress : Helpers :=
  { H0 with
    deleted_function_is_suppressed := fun _ f => f.name == "g"
    added_function_is_suppressed := fun _ f => f.name == "g" }

/-- A corpus diff with three removed functions, of which `g` is
suppressed, and one added function. -/
def removed_functions_corpus_diff : corpus_diff :=
  { stats := { net_num_func_removed := 2, net_num_func_added := 1 }
    deleted_fns :=
      [("f", { pretty_representation := "void f()", name := "f" }),
       ("g", { pretty_representation := "void g()", name := "g" }),
       ("h", { pretty_representation := "void h()", name := "h" })]
    added_fns := [("k", { pretty_representation := "void k()", name := "k" })] }

/-- The call `dif->report(out, indent)` as `report` does it, with a probe
on the flag `currently_reporting` of node `c`: a report, at any depth, that
starts while `c` is not currently being reported ends at once with the
result `v`. -/
def report_observing (H : Helpers) (ctxt : diff_context) (g : Graph)
    (c : Nat) (v : Result) : Nat → Nat → String → RState → Result
  | 0, _, _, _ => .out_of_fuel
  | fuel + 1, self, indent, st =>
    if c ∈ st.currently_reporting then
      match g[self]? with
      | none => .fault .dangling
      | some d =>
        report_node H ctxt g (report_observing H ctxt g c v fuel) self d
          indent (st.log (Event.report self))
    else v

/-! ## Examples for the overloads of functions, bases, classes and corpora -/

/-- A context as `ctxt0` in which `NON_VIRT_MEM_FUN_CHANGE_CATEGORY` (bit 8
of `H0`) is not allowed. -/
def ctxt_virtual_only : diff_context := { allowed_category := 4101 }

/-- A context as `ctxt0` that shows the statistics only. -/
def ctxt_stats_only : diff_context :=
  { allowed_category := 4109, show_stats_only := true }

/-- A context as `ctxt0` that does not show the removed variables. -/
def ctxt_no_deleted_vars : diff_context :=
  { allowed_category := 4109, show_deleted_vars := false }

/-- Collaborators as `H0`, except that `emit_diff_stats` writes the net
numbers of removed and added functions. -/
def H_stats : Helpers :=
  { H0 with
    emit_diff_stats := fun s indent =>
      indent ++ "Functions changes summary: "
        ++ toString s.net_num_func_removed ++ " Removed, "
        ++ toString s.net_num_func_added ++ " Added\n" }

/-- Collaborators as `H0`, except that two classes have a declaration-only /
definition change when one of them is declaration-only and the other is
not. -/
def H_decl_only : Helpers :=
  { H0 with
    has_class_decl_only_def_change := fun a b =>
      a.is_declaration_only != b.is_declaration_only }

/-- The corpus diff of two corpora of which the second one lacks the
function `void f(int)`; no variable changed. -/
def removed_function_corpus_diff : corpus_diff :=
  { stats := { net_num_func_removed := 1 }
    deleted_fns := [("f", void_f_int)] }

/-- The graph of `removed_function_corpus_diff`: one `corpus_diff` node. -/
def removed_function_graph : Graph :=
  [ { node := .corpus_diff removed_function_corpus_diff } ]

/-- A class `C` whose `sorted_changed_member_functions_` holds the entries
`changed`; node 0 is the `class_diff`, node 1 the diff of the virtual member
function `C::m`, which is to be reported. -/
def changed_methods_graph (changed : List diff_sptr) : Graph :=
  [ { node := .class_diff
        { first_class_or_union := { pretty_representation := "class C" }
          second_class_or_union := { pretty_representation := "class C" }
          member_fns_changes := { deletions := [0] }
          sorted_changed_member_functions := changed } },
    { node := .function_decl_diff (virtual_member "m") (virtual_member "m")
        none } ]

/-- A declaration-only class `C` that became a defined class: the data of
its `class_or_union_diff`, with a deleted data member. -/
def decl_only_diff : class_or_union_diff :=
  { first_class_or_union :=
      { pretty_representation := "class C", is_declaration_only := true }
    second_class_or_union := { pretty_representation := "class C" }
    data_members_changes := { deletions := [0] }
    deleted_non_static_data_members_number := 1
    deleted_data_members := [("x", { pretty_representation := "int C::x" })] }

/-- The function `f` with a symbol of the given name, or without symbol. -/
def f_with_symbol (sym : Option String) : function_decl :=
  { pretty_representation := "function void f()", qualified_name := "f"
    name := "f"
    symbol := sym.map (fun s => { id_string := s, aliases_id_string := s }) }

/-- A base class `B` of a class that changes from static and `private` to
not static and `public` (node 0, a `base_diff`), over the `class_diff` of
`B` (node 1). -/
def base_graph : Graph :=
  [ { node := .base_diff
        { is_static := true, access_specifier := "private"
          base_class := { pretty_representation := "class B" } }
        { is_static := false, access_specifier := "public"
          base_class := { pretty_representation := "class B" } }
        (some 1) },
    { node := .class_diff
        { first_class_or_union := { pretty_representation := "class B" }
          second_class_or_union := { pretty_representation := "class B" } } } ]

/-- The text that `report(const base_diff&)` writes about the static-ness
of the two base specifiers, lines 652-659. -/
def static_change_text (f s : base_spec) (indent : String) : String :=
  if f.is_static != s.is_static then
    if f.is_static then indent ++ "is no more static"
    else indent ++ "now becomes static"
  else ""

/-- The text that `report(const base_diff&)` writes about the access
specifiers of the two base specifiers, lines 661-674, with the separator
that follows the text about static-ness. -/
def access_change_text (H : Helpers) (ctxt : diff_context)
    (f s : base_spec) : String :=
  if allowed ctxt H.ACCESS_CHANGE_CATEGORY
      && f.access_specifier != s.access_specifier then
    (if f.is_static != s.is_static then ", " else "")
      ++ "has access changed from '" ++ f.access_specifier ++ "' to '"
      ++ s.access_specifier ++ "'"
  else ""

/-- The statements of `report(const function_decl_diff&)` about the
linkage names, lines 1498-1520, on the two computed strings
`linkage_names1` and `linkage_names2`. -/
def linkage_names_steps (ff : function_decl)
    (linkage_names1 linkage_names2 indent : String) : List Step :=
  if linkage_names1 != linkage_names2 then
    if linkage_names1.isEmpty then
      [Step.emit (indent ++ ff.pretty_representation
        ++ " didn't have any linkage name, and it now has: '"
        ++ linkage_names2 ++ "'\n")]
    else if linkage_names2.isEmpty then
      [Step.emit (indent ++ ff.pretty_representation
        ++ " did have linkage names '" ++ linkage_names1 ++ "'\n"
        ++ indent ++ "but it doesn't have any linkage name anymore\n")]
    else
      [Step.emit (indent ++ "linkage names of "
        ++ ff.pretty_representation ++ "\n" ++ indent
        ++ "changed from '" ++ linkage_names1 ++ "' to '"
        ++ linkage_names2 ++ "'\n")]
  else []

/-! ## Auxiliary definitions for the run-level statements -/

/-- Whether the statement is an `out << s` statement. -/
def Step.is_emit : Step → Bool
  | .emit _ => true
  | _ => false

/-- Whether the list holds `out << s` statements only. -/
def only_emits (l : List Step) : Bool := l.all Step.is_emit

/-- The run that continues with `k` after a run that ended with result `r`:
a fault or a lack of fuel ends the whole run. -/
def Result.bind (r : Result) (k : RState → Result) : Result :=
  match r with
  | .ok st => k st
  | .fault f => .fault f
  | .out_of_fuel => .out_of_fuel

/-- The virtual method `m` of class `C`, which has a vtable, at vtable
offset `k`: the subjects of `vtable_offset_graph` are `method_at 2` and
`method_at 3`. -/
def method_at (k : Nat) : function_decl :=
  { pretty_representation := "method void C::m()"
    is_member_function := true
    member_function_is_virtual := true
    member_function_vtable_offset := k
    class_type := some
      { pretty_representation := "class C", has_vtable := true } }

/-- The data of the diff of a union `U`: its member function templates
changed as `tmpls_script` tells, from `first_tmpls` to `second_tmpls`, and
its only member class template was deleted. -/
def tmpls_diff : class_or_union_diff :=
  { first_class_or_union :=
      { pretty_representation := "union U"
        member_function_templates := first_tmpls
        member_class_templates :=
          [{ pretty_representation := "template<T> class X" }] }
    second_class_or_union :=
      { pretty_representation := "union U"
        member_function_templates := second_tmpls }
    member_fn_tmpls_changes := tmpls_script
    member_class_tmpls_changes := { deletions := [0] } }

/-- Modelled from the spec: whether the filters and suppressions were
applied to the corpus diff `m` in a session with effects `h`, that is,
whether `apply_filters_and_suppressions_before_reporting` was called on it.
That function is in abg-comparison.cc, not among the sources: it runs the
categorization and suppression engine, which sets the category masks and
the to-be-reported status of the nodes, and computes the statistics of the
corpus diff (2, 4.3, 4.4); it does so once, a later call yields the same
result with no additional mutation (4.4). -/
def filters_applied (h : List Event) (m : Nat) : Bool :=
  decide (Event.apply_filters_and_suppressions_before_reporting m ∈ h)

/-- Whether `e` is an effect of one of these kinds: the start of a report,
a write of the flag `currently_reporting` of a class or union diff of `g`,
the setting of the flag `reported_once` of a class or union diff of `g`,
the application of filters and suppressions to a corpus diff of `g`, a dump
of the diff tree. -/
def Event.is_report_effect (g : Graph) : Event → Bool
  | .report _ => true
  | .currently_reporting m _ => is_class_or_union_at g m
  | .reported_once m b => b && is_class_or_union_at g m
  | .apply_filters_and_suppressions_before_reporting m => is_corpus_at g m
  | .maybe_dump_diff_tree _ => true

/-- A corpus diff without any change: one `corpus_diff` node. -/
def empty_corpus_graph : Graph := [ { node := .corpus_diff {} } ]

/-! ## What a report may change -/

theorem Frame.refl (g : Graph) (st : RState) : Frame g st st := by
  refine ⟨rfl, fun _ h => h, fun _ h => Or.inl h, ⟨"", by simp⟩, ⟨[], by simp, ?_, ?_⟩⟩
  · intro m hm; simp at hm
  · intro c; simp [traversals]

theorem Frame.trans {g : Graph} {a b c : RState} (h1 : Frame g a b)
    (h2 : Frame g b c) : Frame g a c := by
  obtain ⟨s1, hs1⟩ := h1.out
  obtain ⟨s2, hs2⟩ := h2.out
  obtain ⟨k1, hk1, ha1, ht1⟩ := h1.hist
  obtain ⟨k2, hk2, ha2, ht2⟩ := h2.hist
  refine ⟨by rw [h2.cr, h1.cr], fun m hm => h2.ro_mono m (h1.ro_mono m hm), ?_,
    ⟨s1 ++ s2, by rw [hs2, hs1, String.append_assoc]⟩,
    ⟨k1 ++ k2, by rw [hk2, hk1, List.append_assoc], ?_, ?_⟩⟩
  · intro m hm
    rcases h2.ro_new m hm with h | h
    · exact h1.ro_new m h
    · exact Or.inr h
  · intro m hm
    rcases List.mem_append.1 hm with h | h
    · exact ha1 m h
    · exact ha2 m h
  · intro x
    obtain ⟨p1, q1, r1⟩ := ht1 x
    obtain ⟨p2, q2, r2⟩ := ht2 x
    have hsum : traversals x (k1 ++ k2) = traversals x k1 + traversals x k2 := by
      simp [traversals]
    have hflag : x ∈ b.reported_once → traversals x k2 = 0 := fun h => p2 (Or.inr h)
    refine ⟨?_, ?_, ?_⟩
    · intro hx
      have e1 := p1 hx
      have e2 : traversals x k2 = 0 := by
        apply p2
        rcases hx with hx | hx
        · exact Or.inl (by rw [h1.cr]; exact hx)
        · exact Or.inr (h1.ro_mono x hx)
      omega
    · by_cases e : traversals x k1 = 1
      · have := hflag (r1 e); omega
      · omega
    · intro e
      by_cases e1 : traversals x k1 = 1
      · exact h2.ro_mono x (r1 e1)
      · exact r2 (by omega)

theorem Frame.write (g : Graph) (st : RState) (s : String) :
    Frame g st (st.write s) := by
  refine ⟨rfl, fun _ h => h, fun _ h => Or.inl h, ⟨s, rfl⟩, ⟨[], by simp [RState.write], ?_, ?_⟩⟩
  · intro m hm; simp at hm
  · intro c; simp [traversals, RState.write]

theorem Frame.log_report (g : Graph) (st : RState) (n : Nat) :
    Frame g st (st.log (Event.report n)) := by
  refine ⟨rfl, fun _ h => h, fun _ h => Or.inl h, ⟨"", by simp [RState.log]⟩,
    ⟨[Event.report n], rfl, ?_, ?_⟩⟩
  · intro m hm; simp at hm
  · intro c; simp [traversals, RState.log]

theorem Frame.log_dump (g : Graph) (st : RState) (n : Nat) :
    Frame g st (st.log (Event.maybe_dump_diff_tree n)) := by
  refine ⟨rfl, fun _ h => h, fun _ h => Or.inl h, ⟨"", by simp [RState.log]⟩,
    ⟨[Event.maybe_dump_diff_tree n], rfl, ?_, ?_⟩⟩
  · intro m hm; simp at hm
  · intro c; simp [traversals, RState.log]

theorem Frame.log_apply (g : Graph) (st : RState) (n : Nat)
    (hn : is_corpus_at g n = true) :
    Frame g st
      (st.log (Event.apply_filters_and_suppressions_before_reporting n)) := by
  refine ⟨rfl, fun _ h => h, fun _ h => Or.inl h, ⟨"", by simp [RState.log]⟩,
    ⟨[Event.apply_filters_and_suppressions_before_reporting n], rfl, ?_, ?_⟩⟩
  · intro m hm
    simp at hm
    subst hm
    exact hn
  · intro c; simp [traversals, RState.log]

theorem return_note_eq_none {st : RState} {d : Nat} {being earlier : String} :
    return_note st d being earlier = none
      ↔ d ∉ st.currently_reporting ∧ d ∉ st.reported_once := by
  unfold return_note
  by_cases h1 : d ∈ st.currently_reporting
  · simp [h1]
  · by_cases h2 : d ∈ st.reported_once <;> simp [h1, h2]

theorem return_note_of_flagged {st : RState} {d : Nat} {being earlier : String}
    (h : d ∈ st.currently_reporting ∨ d ∈ st.reported_once) :
    return_note st d being earlier
      = some (if d ∈ st.currently_reporting then being else earlier) := by
  unfold return_note
  by_cases h1 : d ∈ st.currently_reporting
  · simp [h1]
  · simp [h1, h.resolve_left h1]

/-- Running statements keeps the frame when the nested reports do. -/
theorem exec_frame {g : Graph} {rep : Nat → String → RState → Result}
    (hrep : ∀ d ind s s1, rep d ind s = .ok s1 → Frame g s s1) :
    ∀ (l : List Step) (st st1 : RState), exec rep l st = .ok st1 →
      Frame g st st1 := by
  intro l
  induction l with
  | nil =>
    intro st st1 h
    simp [exec] at h
    subst h
    exact Frame.refl g st
  | cons a rest ih =>
    intro st st1 h
    cases a with
    | emit s =>
      simp only [exec] at h
      exact (Frame.write g st s).trans (ih _ _ h)
    | call d ind =>
      simp only [exec] at h
      cases hr : rep d ind st with
      | fault e => rw [hr] at h; simp at h
      | out_of_fuel => rw [hr] at h; simp at h
      | ok s2 =>
        rw [hr] at h
        exact (hrep d ind st s2 hr).trans (ih _ _ h)
    | return_if_reported d being earlier =>
      simp only [exec] at h
      split at h
      · simp at h; subst h; exact Frame.write g st _
      · exact ih _ _ h
    | fault f => simp [exec] at h
    | maybe_dump_diff_tree d =>
      simp only [exec] at h
      exact (Frame.log_dump g st d).trans (ih _ _ h)

theorem mem_filter_ne {l : List Nat} {m d : Nat} :
    m ∈ l.filter (fun x => x != d) ↔ m ∈ l ∧ m ≠ d := by
  simp [List.mem_filter]

theorem filter_ne_of_not_mem {l : List Nat} {d : Nat} (h : d ∉ l) :
    l.filter (fun x => x != d) = l := by
  apply List.filter_eq_self.2
  intro a ha
  have : a ≠ d := fun e => h (e ▸ ha)
  simpa using this

/-- The frame of `class_diff` and `union_diff` reports keeps `Frame`. -/
theorem report_marked_frame {H : Helpers} {g : Graph}
    {rep : Nat → String → RState → Result}
    (hrep : ∀ d ind s s1, rep d ind s = .ok s1 → Frame g s s1)
    (self : Nat) (hself : is_class_or_union_at g self = true)
    (body : List Step) (indent : String) (st st1 : RState)
    (h : report_marked H rep self body indent st = .ok st1) :
    Frame g st st1 := by
  unfold report_marked at h
  split at h
  · simp at h; subst h; exact Frame.write g st _
  · rename_i hnone
    obtain ⟨hcr, hro⟩ := return_note_eq_none.1 hnone
    cases hb : exec rep body (st.set_currently_reporting self true) with
    | fault e => rw [hb] at h; simp at h
    | out_of_fuel => rw [hb] at h; simp at h
    | ok s2 =>
      rw [hb] at h
      simp only [Result.ok.injEq] at h
      subst h
      have hf := exec_frame hrep body _ _ hb
      obtain ⟨s, hs⟩ := hf.out
      obtain ⟨k, hk, ha, ht⟩ := hf.hist
      have hcr2 : s2.currently_reporting = self :: st.currently_reporting := by
        rw [hf.cr]
        simp [RState.set_currently_reporting, filter_ne_of_not_mem hcr]
      refine ⟨?_, ?_, ?_, ⟨s, ?_⟩,
        ⟨Event.currently_reporting self true :: k
          ++ [Event.currently_reporting self false, Event.reported_once self true],
          ?_, ?_, ?_⟩⟩
      · simp [RState.set_currently_reporting, RState.set_reported_once, hcr2,
          filter_ne_of_not_mem hcr]
      · intro m hm
        have h1 : m ∈ s2.reported_once := hf.ro_mono m (by
          simpa [RState.set_currently_reporting] using hm)
        have h2 : m ≠ self := fun e => hro (e ▸ hm)
        simp [RState.set_currently_reporting, RState.set_reported_once, h1, h2]
      · intro m hm
        simp only [RState.set_currently_reporting, RState.set_reported_once,
          if_true, List.mem_cons, mem_filter_ne] at hm
        rcases hm with e | ⟨h1, _⟩
        · subst e; exact Or.inr hself
        · rcases hf.ro_new m h1 with h3 | h3
          · left; simpa [RState.set_currently_reporting] using h3
          · exact Or.inr h3
      · simp [RState.set_currently_reporting, RState.set_reported_once, hs]
      · simp [RState.set_currently_reporting, RState.set_reported_once, hk]
      · intro m hm
        simp at hm
        exact ha m hm
      · intro c
        obtain ⟨p, q, r⟩ := ht c
        have hself0 : traversals self k = 0 :=
          (ht self).1 (Or.inl (by simp [RState.set_currently_reporting]))
        by_cases e : c = self
        · subst e
          have hc : traversals c (Event.currently_reporting c true :: k
              ++ [Event.currently_reporting c false, Event.reported_once c true]) = 1 := by
            simp [traversals] at hself0 ⊢
            simp [List.count_cons, hself0]
          rw [hc]
          refine ⟨?_, le_refl _, ?_⟩
          · rintro (h1 | h1)
            · exact absurd h1 hcr
            · exact absurd h1 hro
          · intro _
            simp [RState.set_currently_reporting, RState.set_reported_once]
        · have hc : traversals c (Event.currently_reporting self true :: k
              ++ [Event.currently_reporting self false, Event.reported_once self true])
              = traversals c k := by
            simp [traversals, List.count_cons, e, Ne.symm e]
          rw [hc]
          refine ⟨?_, q, ?_⟩
          · intro hx
            apply p
            rcases hx with hx | hx
            · left; simp [RState.set_currently_reporting, mem_filter_ne, hx, e]
            · right; simpa [RState.set_currently_reporting] using hx
          · intro h1
            have := r h1
            simp [RState.set_currently_reporting, RState.set_reported_once,
              mem_filter_ne, this, e]

/-- Every report keeps `Frame`, whatever the nested reports are, as long as
they keep it. -/
theorem report_node_frame {H : Helpers} {ctxt : diff_context} {g : Graph}
    {rep : Nat → String → RState → Result}
    (hrep : ∀ d ind s s1, rep d ind s = .ok s1 → Frame g s s1)
    (self : Nat) (d : Diff) (hd : g[self]? = some d) (indent : String)
    (st st1 : RState)
    (h : report_node H ctxt g rep self d indent st = .ok st1) :
    Frame g st st1 := by
  unfold report_node at h
  split at h
  · rename_i p hp
    have hself : is_class_or_union_at g self = true := by
      simp [is_class_or_union_at, hd, hp, Node.is_class_or_union_diff]
    split at h
    · simp at h; subst h; exact Frame.refl g st
    · exact report_marked_frame hrep self hself _ indent st st1 h
  · rename_i p hp
    have hself : is_class_or_union_at g self = true := by
      simp [is_class_or_union_at, hd, hp, Node.is_class_or_union_diff]
    exact report_marked_frame hrep self hself _ indent st st1 h
  · rename_i p hp
    have hself : is_corpus_at g self = true := by
      obtain ⟨tbr, nd⟩ := d
      simp only at hp
      subst hp
      simp [is_corpus_at, hd]
    exact (Frame.log_apply g st self hself).trans (exec_frame hrep _ _ _ h)
  · exact exec_frame hrep _ _ _ h

/-- Every report keeps `Frame`. -/
theorem report_frame_aux (H : Helpers) (ctxt : diff_context) (g : Graph) :
    ∀ (fuel self : Nat) (indent : String) (st st1 : RState),
      report H ctxt g fuel self indent st = .ok st1 → Frame g st st1 := by
  intro fuel
  induction fuel with
  | zero => intro self indent st st1 h; simp [report] at h
  | succ n ih =>
    intro self indent st st1 h
    simp only [report] at h
    cases hd : g[self]? with
    | none => rw [hd] at h; simp at h
    | some d =>
      rw [hd] at h
      simp only at h
      exact (Frame.log_report g st self).trans
        (report_node_frame (fun d ind s s1 => ih d ind s s1) self d hd indent _ _ h)

/-! ## Termination of a report -/

theorem is_class_or_union_at_lt {g : Graph} {m : Nat}
    (h : is_class_or_union_at g m = true) : m < g.length := by
  unfold is_class_or_union_at at h
  cases hm : g[m]? with
  | none => rw [hm] at h; simp at h
  | some d =>
    by_contra hlt
    have : g[m]? = none := List.getElem?_eq_none (by omega)
    rw [this] at hm
    simp at hm

theorem unvisited_mono {g : Graph} {s s1 : RState}
    (hcr : ∀ m, m ∈ s.currently_reporting → m ∈ s1.currently_reporting)
    (hro : ∀ m, m ∈ s.reported_once → m ∈ s1.reported_once) :
    unvisited g s1 ≤ unvisited g s := by
  apply List.countP_mono_left
  intro x _ hx
  simp only [Bool.and_eq_true, Bool.not_eq_true', decide_eq_false_iff_not] at hx ⊢
  exact ⟨⟨hx.1.1, fun h => hx.1.2 (hcr x h)⟩, fun h => hx.2 (hro x h)⟩

theorem unvisited_frame {g : Graph} {s s1 : RState} (h : Frame g s s1) :
    unvisited g s1 ≤ unvisited g s :=
  unvisited_mono (fun m hm => by rw [h.cr]; exact hm) h.ro_mono

theorem unvisited_pos {g : Graph} {s : RState} {m : Nat}
    (hm : is_class_or_union_at g m = true)
    (hcr : m ∉ s.currently_reporting) (hro : m ∉ s.reported_once) :
    1 ≤ unvisited g s := by
  apply List.countP_pos_iff.2
  exact ⟨m, List.mem_range.2 (is_class_or_union_at_lt hm), by simp [hm, hcr, hro]⟩

theorem countP_succ_le {p q : Nat → Bool} (a : Nat) :
    ∀ (l : List Nat), (∀ x ∈ l, p x = true → q x = true) → a ∈ l →
      q a = true → p a = false → l.countP p + 1 ≤ l.countP q := by
  intro l
  induction l with
  | nil => intro _ h; simp at h
  | cons b t ih =>
    intro himp hmem hq hp
    have hmono : t.countP p ≤ t.countP q :=
      List.countP_mono_left (fun x hx => himp x (List.mem_cons_of_mem _ hx))
    rw [List.countP_cons, List.countP_cons]
    rcases List.mem_cons.1 hmem with e | hin
    · subst e
      simp [hq, hp]
      exact hmono
    · have := ih (fun x hx => himp x (List.mem_cons_of_mem _ hx)) hin hq hp
      by_cases hb : p b = true
      · have := himp b (List.mem_cons_self _ _) hb
        simp [hb, this]
        omega
      · simp [hb]
        split <;> omega

theorem unvisited_mark {g : Graph} {s : RState} {m : Nat}
    (hm : is_class_or_union_at g m = true)
    (hcr : m ∉ s.currently_reporting) (hro : m ∉ s.reported_once) :
    unvisited g (s.set_currently_reporting m true) + 1 ≤ unvisited g s := by
  unfold unvisited
  apply countP_succ_le m
  · intro x _ hx
    simp only [RState.set_currently_reporting, if_true, List.mem_cons, mem_filter_ne,
      Bool.and_eq_true, Bool.not_eq_true', decide_eq_false_iff_not, not_or, not_and] at hx ⊢
    obtain ⟨⟨h1, h2, h3⟩, h4⟩ := hx
    exact ⟨⟨h1, fun h => h3 h h2⟩, h4⟩
  · exact List.mem_range.2 (is_class_or_union_at_lt hm)
  · simp [hm, hcr, hro]
  · simp [RState.set_currently_reporting]

theorem exec_ne_out_of_fuel {g : Graph} {rep : Nat → String → RState → Result}
    (hrep : ∀ d ind s s1, rep d ind s = .ok s1 → Frame g s s1) (B : Nat) :
    ∀ (l : List Step),
      (∀ m ind, Step.call m ind ∈ l → ∀ s, unvisited g s ≤ B →
        rep m ind s ≠ .out_of_fuel) →
      ∀ st, unvisited g st ≤ B → exec rep l st ≠ .out_of_fuel := by
  intro l
  induction l with
  | nil => intro _ st _; simp [exec]
  | cons a rest ih =>
    intro hcall st hst
    have ih2 := ih (fun m ind hm => hcall m ind (List.mem_cons_of_mem _ hm))
    cases a with
    | emit s =>
      simp only [exec]
      exact ih2 _ (le_trans (unvisited_frame (Frame.write g st s)) hst)
    | call d ind =>
      simp only [exec]
      cases hr : rep d ind st with
      | fault e => simp
      | out_of_fuel => exact absurd hr (hcall d ind (List.mem_cons_self _ _) st hst)
      | ok s2 =>
        simp only
        exact ih2 _ (le_trans (unvisited_frame (hrep d ind st s2 hr)) hst)
    | return_if_reported d being earlier =>
      simp only [exec]
      split
      · simp
      · exact ih2 _ hst
    | fault f => simp [exec]
    | maybe_dump_diff_tree d =>
      simp only [exec]
      exact ih2 _ (le_trans (unvisited_frame (Frame.log_dump g st d)) hst)

theorem need_pos (g : Graph) (rk : Nat → Nat) (W n : Nat) (st : RState) :
    1 ≤ need g rk W n st := by
  unfold need
  split
  · split <;> omega
  · omega

theorem unvisited_log (g : Graph) (st : RState) (e : Event) :
    unvisited g (st.log e) = unvisited g st := rfl

/-- Nested reports that have the fuel they need do not run out of it. -/
theorem calls_ne_out_of_fuel {H : Helpers} {ctxt : diff_context} {g : Graph}
    {rk : Nat → Nat} {W : Nat}
    (hrk : ∀ n d indent m ind, g[n]? = some d →
      Step.call m ind ∈ steps H ctxt g n d indent →
      is_class_or_union_at g m = false → rk m < rk n)
    (hW : ∀ m, is_class_or_union_at g m = true → rk m + 1 ≤ W)
    {F : Nat}
    (ih : ∀ (n : Nat) (indent : String) (st : RState),
      need g rk W n st ≤ F → report H ctxt g F n indent st ≠ .out_of_fuel)
    {n : Nat} {d : Diff} (hd : g[n]? = some d) (indent : String) (B : Nat)
    (hF : B * W + rk n + 1 ≤ F) :
    ∀ m ind, Step.call m ind ∈ steps H ctxt g n d indent →
      ∀ s, unvisited g s ≤ B → report H ctxt g F m ind s ≠ .out_of_fuel := by
  intro m ind hm s hs
  apply ih
  have hmul : unvisited g s * W ≤ B * W := Nat.mul_le_mul_right W hs
  unfold need
  cases hcu : is_class_or_union_at g m with
  | true =>
    simp only [if_true]
    split
    · omega
    · rename_i hfl
      have hpos : 1 ≤ unvisited g s :=
        unvisited_pos hcu (fun h => hfl (Or.inl h)) (fun h => hfl (Or.inr h))
      have hw := hW m hcu
      obtain ⟨u, hu⟩ : ∃ u, unvisited g s = u + 1 := ⟨unvisited g s - 1, by omega⟩
      rw [hu] at hmul ⊢
      rw [Nat.succ_mul] at hmul
      simp only [Nat.add_sub_cancel]
      omega
  | false =>
    simp only [Bool.false_eq_true, if_false]
    have := hrk n d indent m ind hd hm hcu
    omega

theorem not_class_or_union_at {g : Graph} {n : Nat} {d : Diff}
    (hd : g[n]? = some d) (h1 : ∀ p, d.node ≠ Node.class_diff p)
    (h2 : ∀ p, d.node ≠ Node.union_diff p) :
    is_class_or_union_at g n = false := by
  simp only [is_class_or_union_at, hd]
  cases hn : d.node <;> simp [Node.is_class_or_union_diff]
  · exact h1 _ hn
  · exact h2 _ hn

/-- A report that has the fuel it needs does not run out of it. -/
theorem report_ne_out_of_fuel (H : Helpers) (ctxt : diff_context) (g : Graph)
    (rk : Nat → Nat) (W : Nat)
    (hrk : ∀ n d indent m ind, g[n]? = some d →
      Step.call m ind ∈ steps H ctxt g n d indent →
      is_class_or_union_at g m = false → rk m < rk n)
    (hW : ∀ m, is_class_or_union_at g m = true → rk m + 1 ≤ W) :
    ∀ (F n : Nat) (indent : String) (st : RState),
      need g rk W n st ≤ F → report H ctxt g F n indent st ≠ .out_of_fuel := by
  intro F
  induction F with
  | zero =>
    intro n indent st h
    have := need_pos g rk W n st
    omega
  | succ F ih =>
    intro n indent st hneed
    simp only [report]
    cases hd : g[n]? with
    | none => simp
    | some d =>
      simp only
      have hfr := report_frame_aux H ctxt g F
      have marked : is_class_or_union_at g n = true →
          report_marked H (report H ctxt g F) n (steps H ctxt g n d indent) indent
            (st.log (Event.report n)) ≠ .out_of_fuel := by
        intro hcu
        unfold report_marked
        split
        · simp
        · rename_i hnone
          obtain ⟨hcr, hro⟩ := return_note_eq_none.1 hnone
          have hcr2 : n ∉ st.currently_reporting := hcr
          have hro2 : n ∉ st.reported_once := hro
          have hn : (unvisited g st - 1) * W + rk n + 2 ≤ F + 1 := by
            have := hneed
            unfold need at this
            simp only [hcu, if_true] at this
            rw [if_neg (by
              rintro (h | h)
              · exact hcr2 h
              · exact hro2 h)] at this
            exact this
          have hmark : unvisited g ((st.log (Event.report n)).set_currently_reporting n true) + 1
              ≤ unvisited g (st.log (Event.report n)) := unvisited_mark hcu hcr hro
          rw [unvisited_log] at hmark
          have hex := exec_ne_out_of_fuel hfr (unvisited g st - 1)
            (steps H ctxt g n d indent)
            (calls_ne_out_of_fuel hrk hW ih hd indent (unvisited g st - 1) (by omega))
            ((st.log (Event.report n)).set_currently_reporting n true) (by omega)
          cases hres : exec (report H ctxt g F) (steps H ctxt g n d indent)
              ((st.log (Event.report n)).set_currently_reporting n true) with
          | ok s2 => simp
          | fault f => simp
          | out_of_fuel => exact absurd hres hex
      have plain : is_class_or_union_at g n = false → ∀ s, unvisited g s = unvisited g st →
          exec (report H ctxt g F) (steps H ctxt g n d indent) s ≠ .out_of_fuel := by
        intro hcu s hs
        have hn : unvisited g st * W + rk n + 2 ≤ F + 1 := by
          have := hneed
          unfold need at this
          simpa [hcu] using this
        exact exec_ne_out_of_fuel hfr (unvisited g st) (steps H ctxt g n d indent)
          (calls_ne_out_of_fuel hrk hW ih hd indent (unvisited g st) (by omega))
          s (by omega)
      unfold report_node
      split
      · rename_i p hp
        have hcu : is_class_or_union_at g n = true := by
          simp [is_class_or_union_at, hd, hp, Node.is_class_or_union_diff]
        split
        · simp
        · exact marked hcu
      · rename_i p hp
        have hcu : is_class_or_union_at g n = true := by
          simp [is_class_or_union_at, hd, hp, Node.is_class_or_union_diff]
        exact marked hcu
      · rename_i p hp
        have hcu : is_class_or_union_at g n = false := by
          simp [is_class_or_union_at, hd, hp, Node.is_class_or_union_diff]
        exact plain hcu _ rfl
      · rename_i h1 h2 h3
        exact plain (not_class_or_union_at hd h1 h2) _ rfl

theorem exists_rank_bound (rk : Nat → Nat) :
    ∀ N : Nat, ∃ W, ∀ m, m < N → rk m + 1 ≤ W := by
  intro N
  induction N with
  | zero => exact ⟨0, fun m h => by omega⟩
  | succ k ih =>
    obtain ⟨W, hW⟩ := ih
    refine ⟨max W (rk k + 1), fun m hm => ?_⟩
    by_cases e : m = k
    · subst e; exact le_max_right _ _
    · exact le_trans (hW m (by omega)) (le_max_left _ _)

/-! ## Claims C1 to C5: the reporting-state guard -/

/-- A node that is flagged stays flagged for the rest of the session. -/
theorem Session.flagged {H : Helpers} {ctxt : diff_context} {g : Graph}
    {st st1 : RState} (h : Session H ctxt g st st1) (d : Nat)
    (hd : d ∈ st.currently_reporting ∨ d ∈ st.reported_once) :
    d ∈ st1.currently_reporting ∨ d ∈ st1.reported_once := by
  induction h with
  | refl => exact hd
  | write s _ ih => exact ih
  | log e _ ih => exact ih
  | report fuel m indent _ hr ih =>
    have hfr := report_frame_aux H ctxt g fuel m indent _ _ hr
    rcases ih with h1 | h1
    · exact Or.inl (by rw [hfr.cr]; exact h1)
    · exact Or.inr (hfr.ro_mono d h1)
  | enter m _ _ _ ih =>
    rcases ih with h1 | h1
    · left
      by_cases e : d = m
      · simp [RState.set_currently_reporting, e]
      · simp [RState.set_currently_reporting, mem_filter_ne, h1, e]
    · right
      simpa [RState.set_currently_reporting] using h1
  | leave m _ ih =>
    by_cases e : d = m
    · right
      simp [RState.set_reported_once, e]
    · rcases ih with h1 | h1
      · left
        simp [RState.set_reported_once, RState.set_currently_reporting, mem_filter_ne,
          h1, e]
      · right
        simp [RState.set_reported_once, RState.set_currently_reporting, mem_filter_ne,
          h1, e]

/-- A report of a flagged node that guards itself returns at once. -/
theorem report_flagged (H : Helpers) (ctxt : diff_context) (g : Graph)
    (fuel n : Nat) (indent : String) (st : RState) (d : Diff)
    (hd : g[n]? = some d) (hk : d.node.guards_itself = true)
    (hflag : n ∈ st.currently_reporting ∨ n ∈ st.reported_once) :
    ∃ s, report H ctxt g (fuel + 1) n indent st
      = .ok { st with out := st.out ++ s
                      history := st.history ++ [Event.report n] } := by
  obtain ⟨tbr, nd⟩ := d
  have hnote2 : ∀ being earlier,
      return_note (st.log (Event.report n)) n being earlier
        = some (if n ∈ st.currently_reporting then being else earlier) :=
    fun _ _ => return_note_of_flagged hflag
  cases nd <;> simp [Node.guards_itself] at hk <;>
    simp only [report, hd, report_node, report_marked, steps, typedef_diff_steps,
      qualified_type_diff_steps, array_diff_steps, return_if_reported1,
      return_if_reported3] <;>
    cases tbr <;>
    simp only [Bool.not_true, Bool.not_false, if_true, if_false, Bool.false_eq_true,
      List.cons_append, List.nil_append, exec, hnote2] <;>
    first
    | (refine ⟨"", ?_⟩; simp [RState.log]; done)
    | exact ⟨_, rfl⟩

/-- After the report of a union diff, or of a class diff that is to be
reported, returned, the node is flagged. -/
theorem flagged_after_report {H : Helpers} {ctxt : diff_context} {g : Graph}
    {n : Nat} {d : Diff} (hd : g[n]? = some d)
    (hk : d.node.is_class_or_union_diff = true)
    (hpast : d.to_be_reported = true ∨ ∃ p, d.node = Node.union_diff p)
    {fuel : Nat} {indent : String} {st st1 : RState}
    (h : report H ctxt g fuel n indent st = .ok st1) :
    (n ∈ st.currently_reporting ∨ n ∈ st.reported_once →
      n ∈ st1.currently_reporting ∨ n ∈ st1.reported_once)
    ∧ (n ∉ st.currently_reporting → n ∉ st.reported_once →
        n ∈ st1.reported_once ∧
        ∃ k, st1.history = st.history
          ++ [Event.report n, Event.currently_reporting n true] ++ k
          ++ [Event.currently_reporting n false, Event.reported_once n true]) := by
  have hfr := report_frame_aux H ctxt g fuel n indent st st1 h
  refine ⟨?_, ?_⟩
  · rintro (h1 | h1)
    · exact Or.inl (by rw [hfr.cr]; exact h1)
    · exact Or.inr (hfr.ro_mono n h1)
  · intro hcr hro
    cases fuel with
    | zero => simp [report] at h
    | succ F =>
      simp only [report, hd] at h
      have key : report_marked H (report H ctxt g F) n (steps H ctxt g n d indent) indent
          (st.log (Event.report n)) = .ok st1 := by
        obtain ⟨tbr, nd⟩ := d
        cases nd <;> simp [Node.is_class_or_union_diff] at hk
        · simp only [report_node] at h
          rcases hpast with e | ⟨p, e⟩
          · simp only at e
            subst e
            simpa using h
          · simp at e
        · simpa only [report_node] using h
      unfold report_marked at key
      have hnone : return_note (st.log (Event.report n)) n (H.reported_note true indent)
          (H.reported_note false indent) = none :=
        return_note_eq_none.2 ⟨hcr, hro⟩
      rw [hnone] at key
      simp only at key
      cases hb : exec (report H ctxt g F) (steps H ctxt g n d indent)
          ((st.log (Event.report n)).set_currently_reporting n true) with
      | fault e => rw [hb] at key; simp at key
      | out_of_fuel => rw [hb] at key; simp at key
      | ok s2 =>
        rw [hb] at key
        simp only [Result.ok.injEq] at key
        subst key
        obtain ⟨k, hk2, _⟩ := (exec_frame (report_frame_aux H ctxt g F) _ _ _ hb).hist
        refine ⟨by simp [RState.set_reported_once], k, ?_⟩
        simp [RState.set_reported_once, RState.set_currently_reporting, RState.log, hk2]

/-- The effects of a run of statements are report effects when those of the
nested reports are. -/
theorem exec_effects {g : Graph} {rep : Nat → String → RState → Result}
    (hrep : ∀ d ind s s1, rep d ind s = .ok s1 →
      ∃ k, s1.history = s.history ++ k
        ∧ ∀ e ∈ k, e.is_report_effect g = true) :
    ∀ (l : List Step) (st st1 : RState), exec rep l st = .ok st1 →
      ∃ k, st1.history = st.history ++ k
        ∧ ∀ e ∈ k, e.is_report_effect g = true := by
  intro l
  induction l with
  | nil =>
    intro st st1 h
    simp [exec] at h
    subst h
    exact ⟨[], by simp, by simp⟩
  | cons a rest ih =>
    intro st st1 h
    cases a with
    | emit s =>
      simp only [exec] at h
      obtain ⟨k, hk, he⟩ := ih _ _ h
      exact ⟨k, by simpa [RState.write] using hk, he⟩
    | call d ind =>
      simp only [exec] at h
      cases hr : rep d ind st with
      | fault e => rw [hr] at h; simp at h
      | out_of_fuel => rw [hr] at h; simp at h
      | ok s2 =>
        rw [hr] at h
        obtain ⟨k1, hk1, he1⟩ := hrep d ind st s2 hr
        obtain ⟨k2, hk2, he2⟩ := ih _ _ h
        refine ⟨k1 ++ k2, by rw [hk2, hk1, List.append_assoc], ?_⟩
        intro e he
        rcases List.mem_append.1 he with h1 | h1
        · exact he1 e h1
        · exact he2 e h1
    | return_if_reported d being earlier =>
      simp only [exec] at h
      split at h
      · simp at h; subst h; exact ⟨[], by simp [RState.write], by simp⟩
      · exact ih _ _ h
    | fault f => simp [exec] at h
    | maybe_dump_diff_tree d =>
      simp only [exec] at h
      obtain ⟨k2, hk2, he2⟩ := ih _ _ h
      refine ⟨Event.maybe_dump_diff_tree d :: k2, by
        rw [hk2]; simp [RState.log], ?_⟩
      intro e he
      rcases List.mem_cons.1 he with h1 | h1
      · subst h1; rfl
      · exact he2 e h1

/-- The effects of a report are report effects. -/
theorem report_effects (H : Helpers) (ctxt : diff_context) (g : Graph) :
    ∀ (fuel self : Nat) (indent : String) (st st1 : RState),
      report H ctxt g fuel self indent st = .ok st1 →
      ∃ k, st1.history = st.history ++ k
        ∧ ∀ e ∈ k, e.is_report_effect g = true := by
  intro fuel
  induction fuel with
  | zero => intro self indent st st1 h; simp [report] at h
  | succ F ih =>
    intro self indent st st1 h
    simp only [report] at h
    cases hd : g[self]? with
    | none => rw [hd] at h; simp at h
    | some d =>
      rw [hd] at h
      simp only at h
      have hmarked : is_class_or_union_at g self = true →
          ∀ body, report_marked H (report H ctxt g F) self body indent
              (st.log (Event.report self)) = .ok st1 →
            ∃ k, st1.history = st.history ++ k
              ∧ ∀ e ∈ k, e.is_report_effect g = true := by
        intro hself body hm
        unfold report_marked at hm
        split at hm
        · simp at hm
          subst hm
          exact ⟨[Event.report self], by simp [RState.write, RState.log], by
            simp [Event.is_report_effect]⟩
        · cases hb : exec (report H ctxt g F) body
              ((st.log (Event.report self)).set_currently_reporting self
                true) with
          | fault e => rw [hb] at hm; simp at hm
          | out_of_fuel => rw [hb] at hm; simp at hm
          | ok s2 =>
            rw [hb] at hm
            simp only [Result.ok.injEq] at hm
            subst hm
            obtain ⟨k, hk, he⟩ := exec_effects ih body _ _ hb
            refine ⟨[Event.report self, Event.currently_reporting self true]
              ++ k ++ [Event.currently_reporting self false,
                Event.reported_once self true], ?_, ?_⟩
            · simp [RState.set_currently_reporting, RState.set_reported_once,
                RState.log, hk]
            · intro e hmem
              simp only [List.mem_append, List.mem_cons, List.mem_singleton,
                List.not_mem_nil, or_false] at hmem
              rcases hmem with ((h1 | h1) | h1) | (h1 | h1)
              · subst h1; rfl
              · subst h1; simpa [Event.is_report_effect] using hself
              · exact he e h1
              · subst h1; simpa [Event.is_report_effect] using hself
              · subst h1; simpa [Event.is_report_effect] using hself
      have hplain : ∀ body, exec (report H ctxt g F) body
            (st.log (Event.report self)) = .ok st1 →
          ∃ k, st1.history = st.history ++ k
            ∧ ∀ e ∈ k, e.is_report_effect g = true := by
        intro body hb
        obtain ⟨k, hk, he⟩ := exec_effects ih body _ _ hb
        refine ⟨Event.report self :: k, by simp [RState.log, hk], ?_⟩
        intro e hmem
        rcases List.mem_cons.1 hmem with h1 | h1
        · subst h1; rfl
        · exact he e h1
      unfold report_node at h
      split at h
      · rename_i p hp
        have hself : is_class_or_union_at g self = true := by
          simp [is_class_or_union_at, hd, hp, Node.is_class_or_union_diff]
        split at h
        · simp at h
          subst h
          exact ⟨[Event.report self], by simp [RState.log], by
            simp [Event.is_report_effect]⟩
        · exact hmarked hself _ h
      · rename_i p hp
        have hself : is_class_or_union_at g self = true := by
          simp [is_class_or_union_at, hd, hp, Node.is_class_or_union_diff]
        exact hmarked hself _ h
      · rename_i p hp
        have hself : is_corpus_at g self = true := by
          obtain ⟨tbr, nd⟩ := d
          simp only at hp
          subst hp
          simp [is_corpus_at, hd]
        obtain ⟨k, hk, he⟩ := exec_effects ih _ _ _ h
        refine ⟨[Event.report self,
          Event.apply_filters_and_suppressions_before_reporting self] ++ k,
          by simp [RState.log, hk], ?_⟩
        intro e hmem
        simp only [List.mem_append, List.mem_cons, List.mem_singleton,
          List.not_mem_nil, or_false] at hmem
        rcases hmem with (h1 | h1) | h1
        · subst h1; rfl
        · subst h1; simpa [Event.is_report_effect] using hself
        · exact he e h1
      · exact hplain _ h

/-- The report of a corpus diff applies the filters and suppressions to
it. -/
theorem report_corpus_diff_applies_filters (H : Helpers)
    (ctxt : diff_context) (g : Graph) (fuel n : Nat) (indent : String)
    (st st1 : RState) (hn : is_corpus_at g n = true)
    (h : report H ctxt g fuel n indent st = .ok st1) :
    filters_applied st1.history n = true := by
  cases fuel with
  | zero => simp [report] at h
  | succ F =>
    simp only [report] at h
    cases hd : g[n]? with
    | none => rw [hd] at h; simp at h
    | some d =>
      rw [hd] at h
      obtain ⟨tbr, nd⟩ := d
      cases nd <;> simp [is_corpus_at, hd] at hn
      simp only [report_node] at h
      obtain ⟨k, hk, _⟩ :=
        (exec_frame (report_frame_aux H ctxt g F) _ _ _ h).hist
      simp [filters_applied, hk, RState.log]

/-- Claim C1, as amended: when a report returns, every `currently_reporting`
flag is as it was before the call; no `reported_once` flag was cleared and
those that were set belong to class or union diffs; filters and suppressions
that were applied before the call still are, those that the call applied
were applied to corpus diffs, and they are applied to the reported node when
it is a corpus diff; the output was only appended to; and every effect of
the call on the graph is a write of the flag `currently_reporting` of a
class or union diff, the setting of the flag `reported_once` of a class or
union diff, or `apply_filters_and_suppressions_before_reporting` on a corpus
diff. -/
theorem report_changes_reporting_state_only (H : Helpers)
    (ctxt : diff_context) (g : Graph) (fuel n : Nat) (indent : String)
    (st st1 : RState) (h : report H ctxt g fuel n indent st = .ok st1) :
    st1.currently_reporting = st.currently_reporting
    ∧ (∀ m, m ∈ st.reported_once → m ∈ st1.reported_once)
    ∧ (∀ m, m ∈ st1.reported_once → m ∉ st.reported_once →
        is_class_or_union_at g m = true)
    ∧ (∀ m, filters_applied st.history m = true →
        filters_applied st1.history m = true)
    ∧ (∀ m, filters_applied st1.history m = true →
        filters_applied st.history m = false → is_corpus_at g m = true)
    ∧ (is_corpus_at g n = true → filters_applied st1.history n = true)
    ∧ (∃ s, st1.out = st.out ++ s)
    ∧ (∃ k, st1.history = st.history ++ k
        ∧ (∀ m b, Event.currently_reporting m b ∈ k →
            is_class_or_union_at g m = true)
        ∧ (∀ m b, Event.reported_once m b ∈ k →
            b = true ∧ is_class_or_union_at g m = true)
        ∧ (∀ m, Event.apply_filters_and_suppressions_before_reporting m ∈ k →
            is_corpus_at g m = true)) := by
  have hfr := report_frame_aux H ctxt g fuel n indent st st1 h
  obtain ⟨k, hk, he⟩ := report_effects H ctxt g fuel n indent st st1 h
  refine ⟨hfr.cr, hfr.ro_mono, ?_, ?_, ?_,
    fun hn => report_corpus_diff_applies_filters H ctxt g fuel n indent st st1
      hn h,
    hfr.out, k, hk, ?_, ?_, ?_⟩
  · intro m hm hnot
    rcases hfr.ro_new m hm with h1 | h1
    · exact absurd h1 hnot
    · exact h1
  · intro m hm
    simp only [filters_applied, decide_eq_true_eq] at hm ⊢
    rw [hk]
    exact List.mem_append_left _ hm
  · intro m hm hnot
    simp only [filters_applied, decide_eq_true_eq] at hm
    have hnot2 : Event.apply_filters_and_suppressions_before_reporting m
        ∉ st.history := by
      intro hin
      simp [filters_applied, hin] at hnot
    rw [hk] at hm
    rcases List.mem_append.1 hm with h1 | h1
    · exact absurd h1 hnot2
    · simpa [Event.is_report_effect] using he _ h1
  · intro m b hm
    simpa [Event.is_report_effect] using he _ hm
  · intro m b hm
    simpa [Event.is_report_effect] using he _ hm
  · intro m hm
    simpa [Event.is_report_effect] using he _ hm

/-- The report of the class diff of `list_graph` ends in
`list_graph_reported`, and the frame property holds of this run. -/
theorem report_changes_reporting_state_only_witness :
    report H0 ctxt0 list_graph 3 0 "" {} = .ok list_graph_reported
    ∧ list_graph_reported.currently_reporting
        = ({} : RState).currently_reporting
    ∧ (∀ m, m ∈ list_graph_reported.reported_once →
        m ∉ ({} : RState).reported_once →
        is_class_or_union_at list_graph m = true)
    ∧ (∀ m, filters_applied list_graph_reported.history m = true →
        filters_applied ({} : RState).history m = false →
        is_corpus_at list_graph m = true) :=
  have h := report_changes_reporting_state_only H0 ctxt0 list_graph 3 0 "" {}
    list_graph_reported (by decide)
  ⟨by decide, h.1, h.2.2.1, h.2.2.2.2.1⟩

/-- Claim C1 fails as stated: the report of the class diff of `class_graph`
sets the `reported_once` flag of node 0, which was unset before the call;
and the report of the corpus diff of `empty_corpus_graph`, to which filters
and suppressions were not applied before the call, applies them. -/
theorem report_class_diff_sets_reported_once :
    (report H0 ctxt0 class_graph 1 0 "" {}
      = .ok { reported_once := [0]
              history :=
                [Event.report 0, Event.currently_reporting 0 true,
                 Event.currently_reporting 0 false,
                 Event.reported_once 0 true] }
      ∧ ({} : RState).reported_once = [])
    ∧ (report H0 ctxt0 empty_corpus_graph 1 0 "" {}
        = .ok { out := "\n"
                history :=
                  [Event.report 0,
                   Event.apply_filters_and_suppressions_before_reporting 0,
                   Event.maybe_dump_diff_tree 0] }
      ∧ filters_applied ({} : RState).history 0 = false
      ∧ filters_applied
          [Event.report 0,
           Event.apply_filters_and_suppressions_before_reporting 0,
           Event.maybe_dump_diff_tree 0] 0 = true) := by
  refine ⟨⟨?_, ?_⟩, ?_, ?_, ?_⟩ <;> decide

/-- Claim C2: when every cycle of the graph passes through a class or union
diff (`rk` decreases along every nested report of a node of another kind),
a report started on any node in any state ends for every large enough
recursion bound, and during it the sections of each class or union diff
are entered at most once. -/
theorem report_terminates (H : Helpers) (ctxt : diff_context) (g : Graph)
    (rk : Nat → Nat)
    (hrk : ∀ n d indent m ind, g[n]? = some d →
      Step.call m ind ∈ steps H ctxt g n d indent →
      is_class_or_union_at g m = false → rk m < rk n)
    (n : Nat) (indent : String) (st : RState) :
    ∃ fuel, ∀ fuel1, fuel ≤ fuel1 →
      report H ctxt g fuel1 n indent st ≠ .out_of_fuel
      ∧ ∀ st1, report H ctxt g fuel1 n indent st = .ok st1 →
          ∃ k, st1.history = st.history ++ k ∧ ∀ c, traversals c k ≤ 1 := by
  obtain ⟨W, hW⟩ := exists_rank_bound rk g.length
  refine ⟨need g rk W n st, fun fuel1 hf => ⟨?_, ?_⟩⟩
  · exact report_ne_out_of_fuel H ctxt g rk W hrk
      (fun m hm => hW m (is_class_or_union_at_lt hm)) fuel1 n indent st hf
  · intro st1 h1
    obtain ⟨k, hk, _, ht⟩ := (report_frame_aux H ctxt g fuel1 n indent st st1 h1).hist
    exact ⟨k, hk, fun c => (ht c).2.1⟩

/-- In `list_graph` the nested reports of a node that is not a class diff
go from the class diff and from the diff of the data member to the pointer
diff. -/
theorem list_graph_rank_decreases :
    ∀ n d indent m ind, list_graph[n]? = some d →
      Step.call m ind ∈ steps H0 ctxt0 list_graph n d indent →
      is_class_or_union_at list_graph m = false →
      list_graph_rank m < list_graph_rank n := by
  intro n d indent m ind hd hm hcu
  rcases n with _ | _ | _ | n
  · have hm0 : m = 2 := by
      simp [list_graph, list_graph_class] at hd
      subst hd
      simp [steps, class_diff_steps, base_classes_steps, class_or_union_diff_steps,
        member_functions_steps, data_members_steps, member_types_steps,
        member_tmpls_steps, changed_data_members_steps, represent_var_diff,
        with_diff, edit_script.to_bool, allowed, H0, ctxt0, list_graph, list_graph_class, loop_with] at hm
      exact hm.1
    subst hm0
    decide
  · have hm0 : m = 2 := by
      simp [list_graph, list_graph_class] at hd
      subst hd
      simp [steps, var_diff_steps, list_graph, return_if_reported2] at hm
      exact hm.1
    subst hm0
    decide
  · exfalso
    simp [list_graph, list_graph_class] at hd
    subst hd
    simp [steps, pointer_diff_steps, list_graph, return_if_reported2] at hm
    obtain ⟨rfl, _⟩ := hm
    simp [is_class_or_union_at, list_graph, list_graph_class,
      Node.is_class_or_union_diff] at hcu
  · simp [list_graph, list_graph_class] at hd

/-- The class `T` with a member of type pointer to `T`: the report of
its class diff terminates. -/
theorem report_terminates_witness :
    (∀ n d indent m ind, list_graph[n]? = some d →
      Step.call m ind ∈ steps H0 ctxt0 list_graph n d indent →
      is_class_or_union_at list_graph m = false →
      list_graph_rank m < list_graph_rank n)
    ∧ ∃ fuel, ∀ fuel1, fuel ≤ fuel1 →
      report H0 ctxt0 list_graph fuel1 0 "" {} ≠ .out_of_fuel
      ∧ ∀ st1, report H0 ctxt0 list_graph fuel1 0 "" {} = .ok st1 →
          ∃ k, st1.history = ({} : RState).history ++ k
            ∧ ∀ c, traversals c k ≤ 1 :=
  ⟨list_graph_rank_decreases,
   report_terminates H0 ctxt0 list_graph list_graph_rank
     list_graph_rank_decreases 0 "" {}⟩

/-- Claim C3: the report of a class, union, typedef, qualified type or array
diff whose reporting state is currently-being-visited or visited-once
returns without descending: it ends with the two flag lists as they were,
and the history gains the start of this report and nothing else (no report
of a sub-diff, no write of a flag). -/
theorem report_returns_at_guard (H : Helpers) (ctxt : diff_context)
    (g : Graph) (fuel n : Nat) (indent : String) (st : RState) (d : Diff)
    (hd : g[n]? = some d) (hk : d.node.guards_itself = true)
    (hflag : n ∈ st.currently_reporting ∨ n ∈ st.reported_once) :
    ∃ st1, report H ctxt g (fuel + 1) n indent st = .ok st1
      ∧ st1.currently_reporting = st.currently_reporting
      ∧ st1.reported_once = st.reported_once
      ∧ st1.history = st.history ++ [Event.report n] := by
  obtain ⟨s, hs⟩ := report_flagged H ctxt g fuel n indent st d hd hk hflag
  exact ⟨_, hs, rfl, rfl, rfl⟩

/-- In the state `list_graph_reported` the class diff of `list_graph` is
visited-once: its report returns at the guard. -/
theorem report_returns_at_guard_witness :
    list_graph[0]? = some list_graph_class
    ∧ ∃ st1, report H0 ctxt0 list_graph 1 0 "" list_graph_reported = .ok st1
      ∧ st1.currently_reporting = list_graph_reported.currently_reporting
      ∧ st1.reported_once = list_graph_reported.reported_once
      ∧ st1.history = list_graph_reported.history ++ [Event.report 0] :=
  ⟨by decide,
   report_returns_at_guard H0 ctxt0 list_graph 0 0 "" list_graph_reported
     list_graph_class (by decide) (by decide) (by decide)⟩

/-- Claim C4: once the sections of a to-be-reported class diff have been
entered, every later report of that node in the session, be it during the
first report (a cycle leads back to the node) or after the first report
returned (another parent shares the node), writes the note of the
reporting guard and nothing else, and reports no sub-diff: the detailed
description of the node is not written a second time. -/
theorem class_diff_described_at_most_once (H : Helpers)
    (ctxt : diff_context) (g : Graph) (n : Nat) (d : Diff) (p : class_diff)
    (hd : g[n]? = some d) (hp : d.node = Node.class_diff p)
    (htbr : d.to_be_reported = true) (st st2 : RState)
    (hlater :
      (∃ fuel1 indent1 st1, report H ctxt g fuel1 n indent1 st = .ok st1
        ∧ Session H ctxt g st1 st2)
      ∨ Session H ctxt g
          ((st.log (Event.report n)).set_currently_reporting n true) st2)
    (fuel2 : Nat) (indent2 : String) :
    report H ctxt g (fuel2 + 1) n indent2 st2
      = .ok { st2 with
              out := st2.out
                ++ H.reported_note (decide (n ∈ st2.currently_reporting))
                    indent2
              history := st2.history ++ [Event.report n] } := by
  have hk : d.node.is_class_or_union_diff = true := by
    rw [hp]; rfl
  have hfl2 : n ∈ st2.currently_reporting ∨ n ∈ st2.reported_once := by
    rcases hlater with ⟨fuel1, indent1, st1, h1, hs⟩ | hs
    · apply hs.flagged n
      have h := flagged_after_report hd hk (Or.inl htbr) h1
      by_cases hc : n ∈ st.currently_reporting
      · exact h.1 (Or.inl hc)
      · by_cases hr : n ∈ st.reported_once
        · exact h.1 (Or.inr hr)
        · exact Or.inr (h.2 hc hr).1
    · exact hs.flagged n (Or.inl (by simp [RState.set_currently_reporting]))
  obtain ⟨tbr, nd⟩ := d
  simp only at hp htbr
  subst hp htbr
  have hnote : return_note (st2.log (Event.report n)) n
      (H.reported_note true indent2) (H.reported_note false indent2)
      = some (if n ∈ st2.currently_reporting then H.reported_note true indent2
          else H.reported_note false indent2) :=
    return_note_of_flagged hfl2
  simp only [report, hd, report_node, report_marked, Bool.not_true, Bool.false_eq_true,
    if_false, hnote]
  by_cases hc : n ∈ st2.currently_reporting <;> simp [hc, RState.log, RState.write]

/-- The class diff of `list_graph` is reported a second time after its
first report ended in `list_graph_reported`: only the note is written. -/
theorem class_diff_described_at_most_once_witness :
    report H0 ctxt0 list_graph 3 0 "" {} = .ok list_graph_reported
    ∧ report H0 ctxt0 list_graph 1 0 "  " list_graph_reported
      = .ok { list_graph_reported with
              out := list_graph_reported.out
                ++ H0.reported_note
                    (decide (0 ∈ list_graph_reported.currently_reporting))
                    "  "
              history := list_graph_reported.history ++ [Event.report 0] } :=
  ⟨by decide,
   class_diff_described_at_most_once H0 ctxt0 list_graph 0 list_graph_class _
     (by decide) rfl (by decide) {} list_graph_reported
     (Or.inl ⟨3, "", list_graph_reported, by decide, Session.refl _⟩) 0 "  "⟩

/-- Claim C5, as amended: the report of a union diff, or of a class diff
that is to be reported, that finds the node not yet visited writes
`currently_reporting(true)` right after it started, before any nested
report, and ends with `currently_reporting(false)` and
`reported_once(true)`, so that the node is visited-once on return.  The
report of a node of any other kind, typedef, qualified type and array diffs
included, leaves the two flags of the node unset. -/
theorem report_marks_class_and_union_diffs (H : Helpers)
    (ctxt : diff_context) (g : Graph) (fuel n : Nat) (indent : String)
    (st st1 : RState) (d : Diff) (hd : g[n]? = some d)
    (hcr : n ∉ st.currently_reporting) (hro : n ∉ st.reported_once)
    (h : report H ctxt g fuel n indent st = .ok st1) :
    (d.node.is_class_or_union_diff = true →
      (d.to_be_reported = true ∨ ∃ p, d.node = Node.union_diff p) →
        n ∈ st1.reported_once ∧ n ∉ st1.currently_reporting
        ∧ ∃ k, st1.history = st.history
            ++ [Event.report n, Event.currently_reporting n true] ++ k
            ++ [Event.currently_reporting n false,
                Event.reported_once n true])
    ∧ (d.node.is_class_or_union_diff = false →
        n ∉ st1.reported_once ∧ n ∉ st1.currently_reporting) := by
  have hfr := report_frame_aux H ctxt g fuel n indent st st1 h
  have hcr1 : n ∉ st1.currently_reporting := by rw [hfr.cr]; exact hcr
  refine ⟨fun hk hpast => ?_, fun hk => ⟨fun hin => ?_, hcr1⟩⟩
  · obtain ⟨h1, h2⟩ := (flagged_after_report hd hk hpast h).2 hcr hro
    exact ⟨h1, hcr1, h2⟩
  · rcases hfr.ro_new n hin with h1 | h1
    · exact hro h1
    · simp [is_class_or_union_at, hd, hk] at h1

/-- The report of the class diff of `list_graph` from the empty state marks
node 0. -/
theorem report_marks_class_and_union_diffs_witness :
    report H0 ctxt0 list_graph 3 0 "" {} = .ok list_graph_reported
    ∧ 0 ∈ list_graph_reported.reported_once
    ∧ 0 ∉ list_graph_reported.currently_reporting :=
  have h := (report_marks_class_and_union_diffs H0 ctxt0 list_graph 3 0 "" {}
    list_graph_reported list_graph_class (by decide) (by decide) (by decide)
    (by decide)).1 (by decide) (Or.inl (by decide))
  ⟨by decide, h.1, h.2.1⟩

/-- Claim C5 fails as stated: the report of a typedef diff that is to be
reported and not yet visited passes the guard, writes the local change and
returns with the node still not visited-once; it wrote no flag. -/
theorem report_typedef_diff_leaves_flags :
    report H0 ctxt0 typedef_graph 1 0 "" {}
      = .ok { out := "typedef name changed from A to B\n\n"
              reported_once := []
              history := [Event.report 0] } := by
  decide

/-! ## Running statement lists -/

theorem no_guard_append (l1 l2 : List Step) :
    no_guard (l1 ++ l2) = (no_guard l1 && no_guard l2) := by
  simp [no_guard, List.all_append]

theorem write_write (st : RState) (a b : String) :
    (st.write a).write b = st.write (a ++ b) := by
  simp [RState.write, String.append_assoc]

theorem write_empty (st : RState) : st.write "" = st := by
  simp [RState.write]

theorem exec_emit_cons (rep : Nat → String → RState → Result) (t : String)
    (rest : List Step) (st : RState) :
    exec rep (Step.emit t :: rest) st = exec rep rest (st.write t) := rfl

theorem exec_call_last (rep : Nat → String → RState → Result) (d : Nat)
    (ind : String) (st : RState) :
    exec rep [Step.call d ind] st = rep d ind st := by
  simp only [exec]
  cases rep d ind st <;> rfl

theorem exec_nil (rep : Nat → String → RState → Result) (st : RState) :
    exec rep [] st = .ok st := rfl

theorem exec_only_emits {rep : Nat → String → RState → Result} :
    ∀ (l rest : List Step) (st : RState), only_emits l = true →
      exec rep (l ++ rest) st = exec rep rest (st.write (written l)) := by
  intro l
  induction l with
  | nil => intro rest st _; simp [written, write_empty]
  | cons a l ih =>
    intro rest st h
    simp only [only_emits, List.all_cons, Bool.and_eq_true] at h
    cases a with
    | emit s =>
      show exec rep (l ++ rest) (st.write s) = _
      rw [ih rest _ h.2, write_write]
      rfl
    | call d ind => simp [Step.is_emit] at h
    | return_if_reported d being earlier => simp [Step.is_emit] at h
    | fault f => simp [Step.is_emit] at h
    | maybe_dump_diff_tree d => simp [Step.is_emit] at h

theorem only_emits_append (l1 l2 : List Step) :
    only_emits (l1 ++ l2) = (only_emits l1 && only_emits l2) := by
  simp [only_emits, List.all_append]

theorem written_append (l1 l2 : List Step) :
    written (l1 ++ l2) = written l1 ++ written l2 := by
  induction l1 with
  | nil => simp [written]
  | cons a l ih =>
    cases a <;> simp [written, ih, String.append_assoc]

theorem exec_append {rep : Nat → String → RState → Result} :
    ∀ (l1 l2 : List Step) (st : RState), no_guard l1 = true →
      exec rep (l1 ++ l2) st = (exec rep l1 st).bind (exec rep l2) := by
  intro l1
  induction l1 with
  | nil => intro l2 st _; rfl
  | cons a rest ih =>
    intro l2 st hg
    simp only [no_guard, List.all_cons, Bool.and_eq_true] at hg
    have hrest : no_guard rest = true := hg.2
    cases a with
    | emit s => exact ih l2 _ hrest
    | call d ind =>
      simp only [List.cons_append, exec]
      cases hr : rep d ind st with
      | fault e => rfl
      | out_of_fuel => rfl
      | ok s2 => exact ih l2 _ hrest
    | return_if_reported d being earlier => simp [Step.is_guard] at hg
    | fault f => rfl
    | maybe_dump_diff_tree d => exact ih l2 _ hrest

theorem function_decl_diff_local_only_emits (H : Helpers)
    (ctxt : diff_context) (g : Graph) (ff sf : function_decl)
    (td : diff_sptr) (indent : String)
    (htd : ∀ i, td = some i → i < g.length) :
    only_emits (function_decl_diff_local_steps H ctxt g ff sf td indent)
      = true := by
  unfold function_decl_diff_local_steps
  simp only [only_emits_append, Bool.and_eq_true]
  refine ⟨⟨⟨⟨?_, ?_⟩, ?_⟩, ?_⟩, ?_⟩
  · simp [only_emits, Step.is_emit]
  · repeat' split
    all_goals simp [only_emits, Step.is_emit]
  · cases td with
    | none => simp [only_emits]
    | some i =>
      have hi := htd i rfl
      simp only [List.getElem?_eq_getElem hi]
      repeat' split
      all_goals simp [only_emits, Step.is_emit]
  · simp [only_emits, Step.is_emit]
  · repeat' split
    all_goals simp [only_emits, Step.is_emit]

/-- The report of a to-be-reported function declaration diff whose
statements about the vtable only write: it writes the text of the statements
before them, then the text about the vtable, and is then the report of the
function type diff. -/
theorem report_function_decl_diff (H : Helpers) (ctxt : diff_context)
    (g : Graph) (fuel n : Nat) (indent : String) (st : RState)
    (ff sf : function_decl) (td : diff_sptr)
    (hd : g[n]? = some ⟨true, .function_decl_diff ff sf td⟩)
    (htd : ∀ i, td = some i → i < g.length)
    (hv : only_emits (vtable_offset_steps ff sf indent) = true) :
    report H ctxt g (fuel + 1) n indent st
      = exec (report H ctxt g fuel) (function_decl_diff_type_steps g td indent)
          (((st.log (Event.report n)).write
            (written
              (function_decl_diff_local_steps H ctxt g ff sf td indent))).write
            (written (vtable_offset_steps ff sf indent))) := by
  simp only [report, hd, report_node, steps, function_decl_diff_steps,
    Bool.not_true, Bool.false_eq_true, if_false, List.append_assoc]
  rw [exec_only_emits _ _ _
      (function_decl_diff_local_only_emits H ctxt g ff sf td indent htd),
    exec_only_emits _ _ _ hv]

theorem no_guard_nil : no_guard [] = true := rfl

theorem no_guard_emit (s : String) (l : List Step) :
    no_guard (Step.emit s :: l) = no_guard l := by
  simp [no_guard, Step.is_guard]

theorem no_guard_call (d : Nat) (ind : String) (l : List Step) :
    no_guard (Step.call d ind :: l) = no_guard l := by
  simp [no_guard, Step.is_guard]

theorem no_guard_fault (f : Fault) (l : List Step) :
    no_guard (Step.fault f :: l) = no_guard l := by
  simp [no_guard, Step.is_guard]

theorem no_guard_flatMap {α : Type} (f : α → List Step) (l : List α)
    (h : ∀ x, no_guard (f x) = true) : no_guard (l.flatMap f) = true := by
  simp only [no_guard, List.all_flatMap, List.all_eq_true]
  intro x _
  have := h x
  simpa [no_guard] using this

theorem no_guard_loop_newline_between {α : Type} (body : α → List Step)
    (l : List α) (h : ∀ x, no_guard (body x) = true) :
    no_guard (loop_newline_between body l) = true := by
  cases l with
  | nil => rfl
  | cons x xs =>
    simp only [loop_newline_between, no_guard_append, Bool.and_eq_true]
    refine ⟨h x, no_guard_flatMap _ _ (fun y => ?_)⟩
    rw [no_guard_emit]
    exact h y

theorem no_guard_loop_with {α σ : Type} (body : σ → α → List Step × σ)
    (l : List α) (h : ∀ s x, no_guard (body s x).1 = true) :
    ∀ s, no_guard (loop_with body s l).1 = true := by
  induction l with
  | nil => intro s; rfl
  | cons x xs ih =>
    intro s
    simp only [loop_with, no_guard_append, Bool.and_eq_true]
    exact ⟨h s x, ih _⟩

theorem member_tmpls_no_guard (H : Helpers) (e : edit_script)
    (first_tmpls second_tmpls : List Entity) (what indent : String) :
    no_guard (member_tmpls_steps H e first_tmpls second_tmpls what indent)
      = true := by
  unfold member_tmpls_steps
  split
  · rfl
  · simp only [no_guard_append, Bool.and_eq_true]
    refine ⟨⟨⟨⟨⟨?_, ?_⟩, ?_⟩, ?_⟩, ?_⟩, ?_⟩
    · split <;> simp [no_guard, Step.is_guard]
    · apply no_guard_loop_newline_between
      intro x
      split <;> simp [no_guard, Step.is_guard]
    · split <;> simp [no_guard, Step.is_guard]
    · split <;> simp [no_guard, Step.is_guard]
    · apply no_guard_loop_with
      intro s x
      simp only [no_guard_append, Bool.and_eq_true]
      constructor
      · split <;> simp [no_guard, Step.is_guard]
      · split <;> simp [no_guard, Step.is_guard]
    · split <;> simp [no_guard, Step.is_guard]

theorem represent_var_diff_no_guard (H : Helpers) (g : Graph) (d : Diff)
    (indent : String) :
    no_guard (represent_var_diff H g d indent) = true := by
  unfold represent_var_diff
  repeat' split
  all_goals simp [no_guard, Step.is_guard]

theorem changed_data_members_no_guard (H : Helpers) (g : Graph)
    (dms : List diff_sptr) (indent : String) :
    no_guard (changed_data_members_steps H g dms indent) = true := by
  unfold changed_data_members_steps
  apply no_guard_flatMap
  intro x
  unfold with_diff
  repeat' split
  all_goals try dsimp only
  all_goals repeat' split
  all_goals
    simp [no_guard_append, represent_var_diff_no_guard, no_guard_emit,
      no_guard_fault, no_guard_nil]

theorem member_functions_no_guard (H : Helpers) (ctxt : diff_context)
    (g : Graph) (p : class_or_union_diff) (indent : String) :
    no_guard (member_functions_steps H ctxt g p indent) = true := by
  unfold member_functions_steps
  split
  · rfl
  · simp only [no_guard_append, Bool.and_eq_true]
    refine ⟨⟨⟨⟨⟨⟨⟨⟨?_, ?_⟩, ?_⟩, ?_⟩, ?_⟩, ?_⟩, ?_⟩, ?_⟩, ?_⟩
    · split <;> simp [no_guard, Step.is_guard]
    · apply no_guard_loop_with
      intro s x
      repeat' split
      all_goals simp [no_guard, Step.is_guard]
    · split <;> simp [no_guard, Step.is_guard]
    · split <;> simp [no_guard, Step.is_guard]
    · apply no_guard_loop_with
      intro s x
      repeat' split
      all_goals simp [no_guard, Step.is_guard]
    · split <;> simp [no_guard, Step.is_guard]
    · split <;> simp [no_guard, Step.is_guard]
    · apply no_guard_loop_with
      intro s x
      repeat' split
      all_goals simp [no_guard, Step.is_guard]
    · split <;> simp [no_guard, Step.is_guard]

theorem data_members_no_guard (H : Helpers) (g : Graph)
    (p : class_or_union_diff) (indent : String) :
    no_guard (data_members_steps H g p indent) = true := by
  unfold data_members_steps
  split
  · rfl
  · simp only [no_guard_append, Bool.and_eq_true]
    refine ⟨⟨⟨?_, ?_⟩, ?_⟩, ?_⟩
    · split
      · simp only [no_guard_append, Bool.and_eq_true, no_guard_emit,
          List.singleton_append]
        constructor
        · apply no_guard_loop_with
          intro s x
          repeat' split
          all_goals simp [no_guard, Step.is_guard]
        · split <;> simp [no_guard, Step.is_guard]
      · rfl
    · split
      · simp only [no_guard_emit, List.singleton_append]
        apply no_guard_flatMap
        intro x
        split <;> simp [no_guard, Step.is_guard]
      · rfl
    · split
      · simp only [no_guard_emit, List.singleton_append]
        exact changed_data_members_no_guard H g _ indent
      · rfl
    · split
      · simp only [no_guard_emit, List.singleton_append]
        exact changed_data_members_no_guard H g _ indent
      · rfl

theorem member_types_no_guard (H : Helpers) (g : Graph)
    (p : class_or_union_diff) (indent : String) :
    no_guard (member_types_steps H g p indent) = true := by
  unfold member_types_steps
  simp only
  split
  · rfl
  · simp only [no_guard_append, Bool.and_eq_true]
    refine ⟨⟨?_, ?_⟩, ?_⟩
    · split
      · simp only [no_guard_append, Bool.and_eq_true, no_guard_emit,
          List.singleton_append, no_guard_nil, and_true]
        apply no_guard_loop_newline_between
        intro x
        simp [no_guard, Step.is_guard]
      · rfl
    · split
      · simp only [no_guard_append, Bool.and_eq_true, no_guard_emit,
          List.singleton_append, no_guard_nil, and_true]
        apply no_guard_flatMap
        intro x
        unfold with_diff
        repeat' split
        all_goals try dsimp only [with_entity]
        all_goals repeat' split
        all_goals simp [no_guard, Step.is_guard]
      · rfl
    · split
      · simp [no_guard, Step.is_guard]
      · split
        · simp only [no_guard_append, Bool.and_eq_true, no_guard_emit,
            List.singleton_append, no_guard_nil, and_true]
          apply no_guard_loop_with
          intro s x
          repeat' split
          all_goals simp [no_guard, Step.is_guard]
        · rfl

theorem class_or_union_diff_no_guard (H : Helpers) (ctxt : diff_context)
    (g : Graph) (d : Diff) (p : class_or_union_diff) (indent : String) :
    no_guard (class_or_union_diff_steps H ctxt g d p indent) = true := by
  unfold class_or_union_diff_steps
  split
  · rfl
  · simp only
    split
    · simp [no_guard, Step.is_guard]
    · simp only [no_guard_append, Bool.and_eq_true]
      exact ⟨⟨⟨⟨member_functions_no_guard H ctxt g p indent,
        data_members_no_guard H g p indent⟩,
        member_types_no_guard H g p indent⟩,
        member_tmpls_no_guard H _ _ _ _ indent⟩,
        member_tmpls_no_guard H _ _ _ _ indent⟩

theorem base_classes_no_guard (H : Helpers) (g : Graph) (p : class_diff)
    (indent : String) : no_guard (base_classes_steps H g p indent) = true := by
  unfold base_classes_steps
  split
  · rfl
  · simp only [no_guard_append, Bool.and_eq_true]
    refine ⟨⟨?_, ?_⟩, ?_⟩
    · split
      · simp only [no_guard_append, Bool.and_eq_true, no_guard_emit,
          List.singleton_append, no_guard_nil, and_true]
        apply no_guard_loop_newline_between
        intro x
        split <;> simp [no_guard, Step.is_guard]
      · rfl
    · split
      · simp only [no_guard_append, Bool.and_eq_true, no_guard_emit,
          List.singleton_append]
        constructor
        · apply no_guard_loop_with
          intro s x
          repeat' split
          all_goals simp [no_guard, Step.is_guard]
        · split <;> simp [no_guard, Step.is_guard]
      · rfl
    · split
      · simp only [no_guard_append, Bool.and_eq_true, no_guard_emit,
          List.singleton_append, no_guard_nil, and_true]
        apply no_guard_loop_newline_between
        intro x
        simp [no_guard, Step.is_guard]
      · rfl

/-- The statements of `report(const class_diff&)` and of
`report(const union_diff&)` between the two writes of
`currently_reporting` hold no guard, the only statement that returns. -/
theorem marked_steps_no_guard (H : Helpers) (ctxt : diff_context) (g : Graph)
    (n : Nat) (d : Diff) (indent : String)
    (hk : d.node.is_class_or_union_diff = true) :
    no_guard (steps H ctxt g n d indent) = true := by
  obtain ⟨tbr, node⟩ := d
  cases node <;> simp [Node.is_class_or_union_diff] at hk
  · simp only [steps, class_diff_steps, no_guard_append, Bool.and_eq_true,
      no_guard_emit, List.singleton_append, no_guard_nil]
    refine ⟨⟨⟨?_, trivial⟩, base_classes_no_guard H g _ indent⟩,
      class_or_union_diff_no_guard H ctxt g _ _ indent⟩
    split <;> simp [no_guard, Step.is_guard]
  · simp only [steps, union_diff_steps, no_guard_append, Bool.and_eq_true,
      no_guard_emit, List.singleton_append, no_guard_nil]
    refine ⟨⟨?_, trivial⟩, class_or_union_diff_no_guard H ctxt g _ _ indent⟩
    split <;> simp [no_guard, Step.is_guard]

/-! ## Claims C6 to C10: vtable notes, absent symbols, distinct diffs -/

theorem vtable_unchanged {fc sc : class_or_union}
    (hvt : fc.has_vtable = sc.has_vtable ∨ fc.is_declaration_only = true
      ∨ sc.is_declaration_only = true) :
    vtable_added_removed (some fc) (some sc) = some (false, false) := by
  unfold vtable_added_removed
  rcases hvt with h | h | h
  · cases h1 : fc.is_declaration_only <;> cases h2 : sc.is_declaration_only <;>
      cases h3 : sc.has_vtable <;> simp [h, h3]
  · simp [h]
  · cases h1 : fc.is_declaration_only <;> simp [h]

theorem virtual_change_only_emits (ff sf : function_decl) (indent : String) :
    only_emits (virtual_change_steps ff sf indent) = true := by
  unfold virtual_change_steps
  simp only [only_emits_append, Bool.and_eq_true]
  refine ⟨?_, ?_⟩
  · repeat' split
    all_goals simp [only_emits, Step.is_emit]
  · repeat' split
    all_goals simp [only_emits, Step.is_emit]

theorem vtable_note_only_emits (ff sf : function_decl) (fc : class_or_union)
    (va vr : Bool) (indent : String) :
    only_emits (vtable_note_steps ff sf fc va vr indent) = true := by
  unfold vtable_note_steps
  cases va <;> cases vr <;>
    by_cases ho : ff.member_function_vtable_offset
      = sf.member_function_vtable_offset <;>
    by_cases hvi : ff.member_function_is_virtual
      = sf.member_function_is_virtual <;>
    simp [ho, hvi, only_emits, Step.is_emit]

/-- The statements about the vtable when both functions are member
functions of classes that are there. -/
theorem vtable_offset_steps_eq (ff sf : function_decl) (fc : class_or_union)
    (va vr : Bool) (indent : String)
    (hm1 : ff.is_member_function = true) (hm2 : sf.is_member_function = true)
    (hfc : ff.class_type = some fc)
    (hvar : vtable_added_removed ff.class_type sf.class_type
      = some (va, vr)) :
    vtable_offset_steps ff sf indent
      = virtual_change_steps ff sf indent
        ++ vtable_note_steps ff sf fc va vr indent := by
  simp only [vtable_offset_steps, hm1, hm2, Bool.and_self, if_true]
  rw [hvar, hfc]

/-- The report of a to-be-reported function declaration diff between two
member functions of classes that are there: it writes the text of the
statements before those about the vtable, the text about virtuality and
vtable offset, the text of the note, and is then the report of the function
type diff. -/
theorem report_member_function_decl_diff (H : Helpers) (ctxt : diff_context)
    (g : Graph) (fuel n : Nat) (indent : String) (st : RState)
    (ff sf : function_decl) (td : diff_sptr) (fc : class_or_union)
    (va vr : Bool)
    (hd : g[n]? = some ⟨true, .function_decl_diff ff sf td⟩)
    (htd : ∀ i, td = some i → i < g.length)
    (hm1 : ff.is_member_function = true) (hm2 : sf.is_member_function = true)
    (hfc : ff.class_type = some fc)
    (hvar : vtable_added_removed ff.class_type sf.class_type
      = some (va, vr)) :
    report H ctxt g (fuel + 1) n indent st
      = exec (report H ctxt g fuel) (function_decl_diff_type_steps g td indent)
          ((((st.log (Event.report n)).write
            (written
              (function_decl_diff_local_steps H ctxt g ff sf td indent))).write
            (written (virtual_change_steps ff sf indent))).write
            (written (vtable_note_steps ff sf fc va vr indent))) := by
  have hsteps := vtable_offset_steps_eq ff sf fc va vr indent hm1 hm2 hfc hvar
  rw [report_function_decl_diff H ctxt g fuel n indent st ff sf td hd htd
      (by rw [hsteps, only_emits_append, virtual_change_only_emits,
        vtable_note_only_emits]; rfl),
    hsteps, written_append, ← write_write]

/-- Claim C6: the report of a to-be-reported function declaration diff
between two virtual member functions with vtable offsets `a` and `b`,
`a` different from `b`, whose classes neither gained nor lost a vtable
(both have one or both have none, or one of them is declaration-only),
writes, after the text of the statements that come before those about the
vtable, the line `the vtable offset of <first function> changed from a to b`
followed by `note that this is an ABI incompatible change to the vtable of
<first class>`, and nothing else about the vtable; it is then the report of
the function type diff.  The type diff, when there is one, is a node of the
graph. -/
theorem vtable_offset_change_is_incompatible (H : Helpers)
    (ctxt : diff_context) (g : Graph) (fuel n : Nat) (indent : String)
    (st : RState) (ff sf : function_decl) (td : diff_sptr)
    (fc sc : class_or_union)
    (hd : g[n]? = some ⟨true, .function_decl_diff ff sf td⟩)
    (htd : ∀ i, td = some i → i < g.length)
    (hm1 : ff.is_member_function = true) (hm2 : sf.is_member_function = true)
    (hv1 : ff.member_function_is_virtual = true)
    (hv2 : sf.member_function_is_virtual = true)
    (hoff : ff.member_function_vtable_offset
      ≠ sf.member_function_vtable_offset)
    (hfc : ff.class_type = some fc) (hsc : sf.class_type = some sc)
    (hvt : fc.has_vtable = sc.has_vtable ∨ fc.is_declaration_only = true
      ∨ sc.is_declaration_only = true) :
    report H ctxt g (fuel + 1) n indent st
      = exec (report H ctxt g fuel) (function_decl_diff_type_steps g td indent)
          (((st.log (Event.report n)).write
            (written
              (function_decl_diff_local_steps H ctxt g ff sf td indent))).write
            ((indent ++ "the vtable offset of " ++ ff.pretty_representation
                ++ " changed from "
                ++ toString ff.member_function_vtable_offset ++ " to "
                ++ toString sf.member_function_vtable_offset ++ "\n")
              ++ (indent
                ++ "  note that this is an ABI incompatible change to the vtable of "
                ++ fc.pretty_representation ++ "\n"))) := by
  rw [report_member_function_decl_diff H ctxt g fuel n indent st ff sf td fc
    false false hd htd hm1 hm2 hfc (by rw [hfc, hsc]; exact vtable_unchanged hvt)]
  simp [-String.reduceAppend, virtual_change_steps, vtable_note_steps, hv1,
    hv2, hoff, written, write_write, String.append_assoc]

/-- The method `m` of class `C` moves from vtable offset 2 to vtable
offset 3. -/
theorem vtable_offset_change_is_incompatible_witness :
    report H0 ctxt0 vtable_offset_graph (0 + 1) 0 "  " {}
      = exec (report H0 ctxt0 vtable_offset_graph 0)
          (function_decl_diff_type_steps vtable_offset_graph none "  ")
          (((({} : RState).log (Event.report 0)).write
            (written
              (function_decl_diff_local_steps H0 ctxt0 vtable_offset_graph
                (method_at 2) (method_at 3) none "  "))).write
            (("  " ++ "the vtable offset of "
                ++ (method_at 2).pretty_representation ++ " changed from "
                ++ toString (method_at 2).member_function_vtable_offset
                ++ " to "
                ++ toString (method_at 3).member_function_vtable_offset
                ++ "\n")
              ++ ("  "
                ++ "  note that this is an ABI incompatible change to the vtable of "
                ++ "class C" ++ "\n")))
    ∧ report H0 ctxt0 vtable_offset_graph 1 0 "  " {}
      = .ok
          { out :=
              "  the vtable offset of method void C::m() changed from 2 to 3\n"
              ++ "    note that this is an ABI incompatible change to the vtable of class C\n"
            history := [Event.report 0] } :=
  ⟨vtable_offset_change_is_incompatible H0 ctxt0 vtable_offset_graph 0 0 "  "
      {} (method_at 2) (method_at 3) none
      { pretty_representation := "class C", has_vtable := true }
      { pretty_representation := "class C", has_vtable := true }
      rfl (fun _ h => Option.noConfusion h) rfl rfl rfl rfl (by decide) rfl
      rfl (Or.inl rfl),
   by decide⟩

/-- Claim C7: the report of a to-be-reported function declaration diff
between two member functions of which exactly one is virtual, with equal
vtable offsets, whose classes neither gained nor lost a vtable (both have
one or both have none, or one of them is declaration-only), writes, after
the text of the statements that come before those about the vtable, the line
about virtuality followed by `note that this induces a change to the vtable
of <first class>`, and nothing else about the vtable, so not the note about
an ABI incompatible change; it is then the report of the function type
diff.  The type diff, when there is one, is a node of the graph. -/
theorem virtuality_change_induces_vtable_change (H : Helpers)
    (ctxt : diff_context) (g : Graph) (fuel n : Nat) (indent : String)
    (st : RState) (ff sf : function_decl) (td : diff_sptr)
    (fc sc : class_or_union)
    (hd : g[n]? = some ⟨true, .function_decl_diff ff sf td⟩)
    (htd : ∀ i, td = some i → i < g.length)
    (hm1 : ff.is_member_function = true) (hm2 : sf.is_member_function = true)
    (hv : ff.member_function_is_virtual ≠ sf.member_function_is_virtual)
    (hoff : ff.member_function_vtable_offset
      = sf.member_function_vtable_offset)
    (hfc : ff.class_type = some fc) (hsc : sf.class_type = some sc)
    (hvt : fc.has_vtable = sc.has_vtable ∨ fc.is_declaration_only = true
      ∨ sc.is_declaration_only = true) :
    report H ctxt g (fuel + 1) n indent st
      = exec (report H ctxt g fuel) (function_decl_diff_type_steps g td indent)
          (((st.log (Event.report n)).write
            (written
              (function_decl_diff_local_steps H ctxt g ff sf td indent))).write
            ((indent
                ++ (if ff.member_function_is_virtual then
                      ff.pretty_representation
                        ++ " is no more declared virtual\n"
                    else
                      ff.pretty_representation
                        ++ " is now declared virtual\n"))
              ++ (indent
                ++ "  note that this induces a change to the vtable of "
                ++ fc.pretty_representation ++ "\n"))) := by
  have hnot : ¬ (ff.member_function_is_virtual = true
      ∧ sf.member_function_is_virtual = true) := by
    rintro ⟨h1, h2⟩
    exact hv (by rw [h1, h2])
  rw [report_member_function_decl_diff H ctxt g fuel n indent st ff sf td fc
    false false hd htd hm1 hm2 hfc (by rw [hfc, hsc]; exact vtable_unchanged hvt)]
  cases hff : ff.member_function_is_virtual <;>
    simp [-String.reduceAppend, virtual_change_steps, vtable_note_steps, hv,
      hoff, hnot, hff, written, write_write, String.append_assoc] <;>
    simp [-String.reduceAppend, hff] at hv <;>
    simp [-String.reduceAppend, hv, written, write_write,
      String.append_assoc]

/-- The method `m` of class `C`, which has a vtable in both corpora,
becomes virtual. -/
theorem virtuality_change_induces_vtable_change_witness :
    report H0 ctxt0 virtual_graph (0 + 1) 0 "  " {}
      = exec (report H0 ctxt0 virtual_graph 0)
          (function_decl_diff_type_steps virtual_graph none "  ")
          (((({} : RState).log (Event.report 0)).write
            (written
              (function_decl_diff_local_steps H0 ctxt0 virtual_graph
                plain_method virtual_method none "  "))).write
            (("  "
                ++ (if plain_method.member_function_is_virtual then
                      plain_method.pretty_representation
                        ++ " is no more declared virtual\n"
                    else
                      plain_method.pretty_representation
                        ++ " is now declared virtual\n"))
              ++ ("  "
                ++ "  note that this induces a change to the vtable of "
                ++ "class C" ++ "\n")))
    ∧ report H0 ctxt0 virtual_graph 1 0 "  " {}
      = .ok
          { out := "  method void C::m() is now declared virtual\n"
              ++ "    note that this induces a change to the vtable of class C\n"
            history := [Event.report 0] } :=
  ⟨virtuality_change_induces_vtable_change H0 ctxt0 virtual_graph 0 0 "  " {}
      plain_method virtual_method none
      { pretty_representation := "class C", has_vtable := true }
      { pretty_representation := "class C", has_vtable := true }
      rfl (fun _ h => Option.noConfusion h) rfl rfl (by decide) rfl rfl rfl
      (Or.inl rfl),
   by decide⟩

/-- Claim C8: the report of a to-be-reported function declaration diff
between two member functions with classes `fc` and `sc` writes, after the
text of the statements that come before those about the vtable and the text
about virtuality and vtable offset: when neither class is declaration-only
and only `sc` has a vtable, the note `a vtable was added to`; when neither
is declaration-only and only `fc` has one, the note `the vtable was removed
from`; in both cases nothing else, so neither the ABI-incompatible nor the
induced note.  When one of the classes is declaration-only it writes
neither the added nor the removed note, whatever `has_vtable` is: the note
is the ABI-incompatible one when the offsets differ, the induced one when
only virtuality differs, and none otherwise.  The report is then the report
of the function type diff, which, when there is one, is a node of the
graph. -/
theorem vtable_added_or_removed_note (H : Helpers) (ctxt : diff_context)
    (g : Graph) (fuel n : Nat) (indent : String) (st : RState)
    (ff sf : function_decl) (td : diff_sptr) (fc sc : class_or_union)
    (hd : g[n]? = some ⟨true, .function_decl_diff ff sf td⟩)
    (htd : ∀ i, td = some i → i < g.length)
    (hm1 : ff.is_member_function = true) (hm2 : sf.is_member_function = true)
    (hfc : ff.class_type = some fc) (hsc : sf.class_type = some sc) :
    (fc.is_declaration_only = false → sc.is_declaration_only = false →
      fc.has_vtable = false → sc.has_vtable = true →
      report H ctxt g (fuel + 1) n indent st
        = exec (report H ctxt g fuel)
            (function_decl_diff_type_steps g td indent)
            ((((st.log (Event.report n)).write
              (written
                (function_decl_diff_local_steps H ctxt g ff sf td
                  indent))).write
              (written (virtual_change_steps ff sf indent))).write
              (indent ++ "  note that a vtable was added to "
                ++ fc.pretty_representation ++ "\n")))
    ∧ (fc.is_declaration_only = false → sc.is_declaration_only = false →
        fc.has_vtable = true → sc.has_vtable = false →
        report H ctxt g (fuel + 1) n indent st
          = exec (report H ctxt g fuel)
              (function_decl_diff_type_steps g td indent)
              ((((st.log (Event.report n)).write
                (written
                  (function_decl_diff_local_steps H ctxt g ff sf td
                    indent))).write
                (written (virtual_change_steps ff sf indent))).write
                (indent ++ "  note that the vtable was removed from "
                  ++ fc.pretty_representation ++ "\n")))
    ∧ (fc.is_declaration_only = true ∨ sc.is_declaration_only = true →
        report H ctxt g (fuel + 1) n indent st
          = exec (report H ctxt g fuel)
              (function_decl_diff_type_steps g td indent)
              ((((st.log (Event.report n)).write
                (written
                  (function_decl_diff_local_steps H ctxt g ff sf td
                    indent))).write
                (written (virtual_change_steps ff sf indent))).write
                (if ff.member_function_is_virtual
                      != sf.member_function_is_virtual
                    || ff.member_function_vtable_offset
                      != sf.member_function_vtable_offset then
                    indent
                      ++ (if ff.member_function_vtable_offset
                            != sf.member_function_vtable_offset then
                          "  note that this is an ABI incompatible change to the vtable of "
                        else
                          "  note that this induces a change to the vtable of ")
                      ++ fc.pretty_representation ++ "\n"
                  else ""))) := by
  refine ⟨fun h1 h2 h3 h4 => ?_, fun h1 h2 h3 h4 => ?_, fun h => ?_⟩
  · rw [report_member_function_decl_diff H ctxt g fuel n indent st ff sf td fc
      true false hd htd hm1 hm2 hfc
      (by simp [vtable_added_removed, hfc, hsc, h1, h2, h3, h4])]
    simp [-String.reduceAppend, vtable_note_steps, written,
      String.append_assoc]
  · rw [report_member_function_decl_diff H ctxt g fuel n indent st ff sf td fc
      false true hd htd hm1 hm2 hfc
      (by simp [vtable_added_removed, hfc, hsc, h1, h2, h3, h4])]
    simp [-String.reduceAppend, vtable_note_steps, written,
      String.append_assoc]
  · rw [report_member_function_decl_diff H ctxt g fuel n indent st ff sf td fc
      false false hd htd hm1 hm2 hfc
      (by rw [hfc, hsc]; exact vtable_unchanged (Or.inr (by tauto)))]
    by_cases ho : ff.member_function_vtable_offset
        = sf.member_function_vtable_offset <;>
      by_cases hvi : ff.member_function_is_virtual
        = sf.member_function_is_virtual <;>
      simp [-String.reduceAppend, vtable_note_steps, written, ho, hvi,
        String.append_assoc]

/-- A class that gains a vtable, a class that loses it, and a class that is
declaration-only in the second corpus. -/
theorem vtable_added_or_removed_note_witness :
    report H0 ctxt0
        [{ node := .function_decl_diff (method_of false false)
            (method_of true false) none }] (0 + 1) 0 "" {}
      = .ok { out := "method void C::m() is now declared virtual\n"
                ++ "  note that a vtable was added to class C\n"
              history := [Event.report 0] }
    ∧ report H0 ctxt0
        [{ node := .function_decl_diff (method_of true false)
            (method_of false false) none }] (0 + 1) 0 "" {}
      = .ok { out := "method void C::m() is no more declared virtual\n"
                ++ "  note that the vtable was removed from class C\n"
              history := [Event.report 0] }
    ∧ report H0 ctxt0
        [{ node := .function_decl_diff (method_of false false)
            (method_of true true) none }] (0 + 1) 0 "" {}
      = .ok { out := "method void C::m() is now declared virtual\n"
                ++ "  note that this induces a change to the vtable of class C\n"
              history := [Event.report 0] } :=
  ⟨((vtable_added_or_removed_note H0 ctxt0
      [{ node := .function_decl_diff (method_of false false)
          (method_of true false) none }] 0 0 "" {} (method_of false false)
      (method_of true false) none _ _ rfl (fun _ h => Option.noConfusion h)
      rfl rfl rfl rfl).1 rfl rfl rfl rfl).trans (by decide),
   ((vtable_added_or_removed_note H0 ctxt0
      [{ node := .function_decl_diff (method_of true false)
          (method_of false false) none }] 0 0 "" {} (method_of true false)
      (method_of false false) none _ _ rfl (fun _ h => Option.noConfusion h)
      rfl rfl rfl rfl).2.1 rfl rfl rfl rfl).trans (by decide),
   ((vtable_added_or_removed_note H0 ctxt0
      [{ node := .function_decl_diff (method_of false false)
          (method_of true true) none }] 0 0 "" {} (method_of false false)
      (method_of true true) none _ _ rfl (fun _ h => Option.noConfusion h)
      rfl rfl rfl rfl).2.2 (Or.inr rfl)).trans (by decide)⟩

/-- Claim C9 fails on the code: the report of a corpus diff with a
to-be-reported changed function whose declaration has no symbol
dereferences the absent symbol (line 1853), and so does, when linkage names
are shown, the report of a corpus diff with a removed function without
symbol (line 1751); the report of the function declaration diff itself
tests the symbols (lines 1484-1496) and completes. -/
theorem report_corpus_diff_dereferences_absent_symbol :
    report H0 ctxt0 no_symbol_graph 3 0 "" {} = .fault .null_deref
    ∧ report H0 ctxt_linkage_names no_symbol_removed_graph 1 0 "" {}
      = .fault .null_deref
    ∧ report H0 ctxt0 no_symbol_graph 3 1 "" {}
      = .ok { history := [Event.report 1] } := by
  refine ⟨?_, ?_, ?_⟩ <;> decide

/-- Claim C10: the report of a to-be-reported distinct diff with a
compatible child diff writes `entity changed from '<first>' to compatible
type '<second>'` and is then the report of that child with two more spaces
of indentation; without compatible child diff it writes `entity changed
from '<first>' to '<second>'` and then the size and alignment changes of
the two subjects, and reports no sub-diff. -/
theorem report_distinct_diff (H : Helpers) (ctxt : diff_context) (g : Graph)
    (fuel n : Nat) (indent : String) (st : RState) (f s : Option Entity)
    (c : diff_sptr) (hd : g[n]? = some ⟨true, .distinct_diff f s c⟩) :
    (∀ i, c = some i →
      report H ctxt g (fuel + 1) n indent st
        = report H ctxt g fuel i (indent ++ "  ")
            ((((st.log (Event.report n)).write
                (indent ++ "entity changed from '" ++ subject_repr f ++ "'"
                  ++ " to compatible type '" ++ subject_repr s ++ "'")).write
                (H.report_loc_info s)).write "\n"))
    ∧ (c = none →
      report H ctxt g (fuel + 1) n indent st
        = .ok (((((st.log (Event.report n)).write
                (indent ++ "entity changed from '" ++ subject_repr f ++ "'"
                  ++ " to '" ++ subject_repr s ++ "'")).write
                (H.report_loc_info s)).write "\n").write
                ((H.report_size_and_alignment_changes f s indent false).1
                  ++ if (H.report_size_and_alignment_changes f s indent
                      false).2 then "\n" else ""))) := by
  refine ⟨fun i hi => ?_, fun hc => ?_⟩
  · subst hi
    simp only [report, hd, report_node, steps, distinct_diff_steps, Bool.not_true,
      Bool.false_eq_true, if_false, Option.isSome_some, if_true, List.cons_append,
      List.nil_append, exec]
    cases report H ctxt g fuel i (indent ++ "  ")
      ((((st.log (Event.report n)).write
          (indent ++ "entity changed from '" ++ subject_repr f ++ "'"
            ++ " to compatible type '" ++ subject_repr s ++ "'")).write
          (H.report_loc_info s)).write "\n") <;> rfl
  · subst hc
    simp only [report, hd, report_node, steps, distinct_diff_steps, Bool.not_true,
      Bool.false_eq_true, if_false, Option.isSome_none, List.cons_append,
      List.nil_append, exec]
    split <;> simp [exec, RState.write, String.append_assoc]

/-- A typedef that became a compatible enum, and an `int` that became a
class. -/
theorem report_distinct_diff_witness :
    report H0 ctxt0 distinct_graph 2 0 "" {}
      = report H0 ctxt0 distinct_graph 1 1 ("" ++ "  ")
          (((((({} : RState).log (Event.report 0)).write
              ("" ++ "entity changed from '"
                ++ subject_repr (some { pretty_representation := "typedef T" })
                ++ "'" ++ " to compatible type '"
                ++ subject_repr (some { pretty_representation := "enum E" })
                ++ "'")).write
              (H0.report_loc_info (some { pretty_representation := "enum E" }))).write
              "\n"))
    ∧ report H0 ctxt0 distinct_graph 1 2 "" {}
      = .ok { out := "entity changed from 'int' to 'class C'\n"
              history := [Event.report 2] } :=
  ⟨(report_distinct_diff H0 ctxt0 distinct_graph 1 0 "" {} _ _ _ rfl).1 1 rfl,
   by decide⟩

/-! ## Claims C11 to C13: member templates, listed functions -/

theorem intersperse_cons_flatMap (sep a : Step) (l : List Step) :
    (a :: l).intersperse sep = a :: l.flatMap (fun y => [sep, y]) := by
  induction l generalizing a with
  | nil => rfl
  | cons b l ih =>
    rw [List.intersperse_cons_cons, ih]
    simp [List.flatMap_cons]

theorem flatMap_lookup (tmpls : List Entity) (indent : String)
    (f : Nat → List Step)
    (hf : ∀ i (hi : i < tmpls.length),
      f i = [tmpl_line indent (tmpls.get ⟨i, hi⟩)]) :
    ∀ (l : List Nat) (h : ∀ i ∈ l, i < tmpls.length),
      l.flatMap (fun y => Step.emit "\n" :: f y)
      = (l.pmap (fun i hi => tmpl_line indent (tmpls.get ⟨i, hi⟩)) h).flatMap
          (fun y => [Step.emit "\n", y]) := by
  intro l
  induction l with
  | nil => intro _; rfl
  | cons x xs ih =>
    intro h
    have hx : x < tmpls.length := h x (List.mem_cons_self x xs)
    simp only [List.flatMap_cons, List.pmap]
    rw [ih (fun i hi => h i (List.mem_cons_of_mem x hi)), hf x hx]

theorem loop_newline_between_lookup (tmpls : List Entity) (indent : String)
    (f : Nat → List Step)
    (hf : ∀ i (hi : i < tmpls.length),
      f i = [tmpl_line indent (tmpls.get ⟨i, hi⟩)])
    (l : List Nat) (h : ∀ i ∈ l, i < tmpls.length) :
    loop_newline_between f l
    = (l.pmap (fun i hi => tmpl_line indent (tmpls.get ⟨i, hi⟩)) h).intersperse
        (Step.emit "\n") := by
  cases l with
  | nil => rfl
  | cons x xs =>
    have hx : x < tmpls.length := h x (List.mem_cons_self x xs)
    simp only [loop_newline_between, List.pmap, intersperse_cons_flatMap]
    rw [flatMap_lookup tmpls indent f hf xs
      (fun i hi => h i (List.mem_cons_of_mem x hi)), hf x hx]
    rfl

theorem loop_with_lookup_true (tmpls : List Entity) (indent : String)
    (f : Nat → List Step)
    (hf : ∀ i (hi : i < tmpls.length),
      f i = [tmpl_line indent (tmpls.get ⟨i, hi⟩)])
    (l : List Nat) (h : ∀ i ∈ l, i < tmpls.length) :
    (loop_with
      (fun (emitted : Bool) (j : Nat) =>
        ((if emitted then [Step.emit "\n"] else []) ++ f j, true))
      true l).1
    = (l.pmap (fun i hi => tmpl_line indent (tmpls.get ⟨i, hi⟩)) h).flatMap
        (fun y => [Step.emit "\n", y]) := by
  induction l with
  | nil => rfl
  | cons x xs ih =>
    have hx : x < tmpls.length := h x (List.mem_cons_self x xs)
    simp only [loop_with, List.pmap, List.flatMap_cons]
    rw [ih (fun i hi => h i (List.mem_cons_of_mem x hi)), hf x hx]
    rfl

theorem loop_with_lookup (tmpls : List Entity) (indent : String)
    (f : Nat → List Step)
    (hf : ∀ i (hi : i < tmpls.length),
      f i = [tmpl_line indent (tmpls.get ⟨i, hi⟩)])
    (l : List Nat) (h : ∀ i ∈ l, i < tmpls.length) :
    (loop_with
      (fun (emitted : Bool) (j : Nat) =>
        ((if emitted then [Step.emit "\n"] else []) ++ f j, true))
      false l).1
    = (l.pmap (fun i hi => tmpl_line indent (tmpls.get ⟨i, hi⟩)) h).intersperse
        (Step.emit "\n") := by
  cases l with
  | nil => rfl
  | cons x xs =>
    have hx : x < tmpls.length := h x (List.mem_cons_self x xs)
    simp only [loop_with, List.pmap, intersperse_cons_flatMap]
    rw [loop_with_lookup_true tmpls indent f hf xs
      (fun i hi => h i (List.mem_cons_of_mem x hi)), hf x hx]
    rfl

/-- The section of the member function templates or of the member class
templates of `report(const class_or_union_diff&)` with edit script `e` on the
template sequences `first_tmpls` and `second_tmpls`, when every deleted
index of the edit script is an index of the first sequence and every
inserted index is an index of the second sequence: every lookup succeeds,
and the section is the header of the deletions, one line for each deleted
index with the template at that index of the first sequence, the header of
the insertions and one line for each inserted index with the template at
that index of the second sequence, the lines of a list separated by a
newline. -/
theorem member_tmpls_steps_eq (H : Helpers) (e : edit_script)
    (first_tmpls second_tmpls : List Entity) (what indent : String)
    (hdel : ∀ i ∈ e.deletions, i < first_tmpls.length)
    (hins : ∀ j ∈ e.insertions.flatMap (fun i => i.inserted_indexes),
      j < second_tmpls.length) :
    member_tmpls_steps H e first_tmpls second_tmpls what indent
      = if e.to_bool then
          (if e.num_deletions != 0 then
             [Step.emit (H.report_mem_header e.num_deletions 0 .del_kind what
                indent)]
           else [])
          ++ (e.deletions.pmap
                (fun i hi => tmpl_line indent (first_tmpls.get ⟨i, hi⟩))
                hdel).intersperse (Step.emit "\n")
          ++ (if e.num_deletions != 0 then [Step.emit "\n\n"] else [])
          ++ (if e.num_insertions != 0 then
                [Step.emit (H.report_mem_header e.num_insertions 0 .ins_kind
                  what indent)]
              else [])
          ++ ((e.insertions.flatMap (fun i => i.inserted_indexes)).pmap
                (fun j hj => tmpl_line indent (second_tmpls.get ⟨j, hj⟩))
                hins).intersperse (Step.emit "\n")
          ++ (if e.num_insertions != 0 then [Step.emit "\n\n"] else [])
        else [] := by
  unfold member_tmpls_steps
  by_cases hb : e.to_bool = true
  · simp only [hb, Bool.not_true, Bool.false_eq_true, if_false, if_true]
    rw [loop_newline_between_lookup first_tmpls indent _ ?_ e.deletions hdel,
      loop_with_lookup second_tmpls indent _ ?_ _ hins]
    · intro j hj
      simp [List.getElem?_eq_getElem hj, tmpl_line]
    · intro i hi
      simp [List.getElem?_eq_getElem hi, tmpl_line]
  · simp [hb]

theorem only_emits_intersperse (sep : Step) (hs : sep.is_emit = true) :
    ∀ l : List Step, only_emits l = true →
      only_emits (l.intersperse sep) = true
  | [], _ => rfl
  | [_], h => by simpa [List.intersperse] using h
  | x :: y :: zs, h => by
    have h1 : x.is_emit = true ∧ only_emits (y :: zs) = true := by
      simpa [only_emits] using h
    have ih := only_emits_intersperse sep hs (y :: zs) h1.2
    simp only [List.intersperse, only_emits, List.all_cons,
      Bool.and_eq_true] at ih ⊢
    exact ⟨h1.1, hs, ih⟩

theorem only_emits_pmap_tmpl_line (tmpls : List Entity) (indent : String) :
    ∀ (l : List Nat) (h : ∀ i ∈ l, i < tmpls.length),
      only_emits
        (l.pmap (fun i hi => tmpl_line indent (tmpls.get ⟨i, hi⟩)) h) = true := by
  intro l
  induction l with
  | nil => intro _; rfl
  | cons a l ih =>
    intro h
    have := ih (fun i hi => h i (List.mem_cons_of_mem _ hi))
    simp only [only_emits, List.pmap, List.all_cons, Bool.and_eq_true] at this ⊢
    exact ⟨rfl, this⟩

/-- A section of member templates whose lookups are in bounds only
writes. -/
theorem member_tmpls_only_emits (H : Helpers) (e : edit_script)
    (first_tmpls second_tmpls : List Entity) (what indent : String)
    (hdel : ∀ i ∈ e.deletions, i < first_tmpls.length)
    (hins : ∀ j ∈ e.insertions.flatMap (fun i => i.inserted_indexes),
      j < second_tmpls.length) :
    only_emits (member_tmpls_steps H e first_tmpls second_tmpls what indent)
      = true := by
  rw [member_tmpls_steps_eq H e first_tmpls second_tmpls what indent hdel hins]
  split
  · simp only [only_emits_append, Bool.and_eq_true]
    refine ⟨⟨⟨⟨⟨?_, ?_⟩, ?_⟩, ?_⟩, ?_⟩, ?_⟩
    · split <;> rfl
    · exact only_emits_intersperse (Step.emit "\n") rfl _
        (only_emits_pmap_tmpl_line _ _ _ _)
    · split <;> rfl
    · split <;> rfl
    · exact only_emits_intersperse (Step.emit "\n") rfl _
        (only_emits_pmap_tmpl_line _ _ _ _)
    · split <;> rfl
  · rfl

/-- Claim C11: in the run of the statements of `report(const
class_or_union_diff&)` on a diff that is to be reported and is not reported
as a change between a declaration-only and a defined type, when every
deleted index of the two edit scripts of member templates is an index of
the sequence of the first subject and every inserted index is an index of
the sequence of the second subject: the two sections of member templates
run without fault after the sections before them, and write, each when its
edit script is not empty, the header of the deletions, one line for each
deleted index with the template at that index of the sequence of the first
subject, the header of the insertions and one line for each inserted index
with the template at that index of the sequence of the second subject, the
lines of a list separated by a newline. -/
theorem member_tmpls_lookups_in_bounds (H : Helpers) (ctxt : diff_context)
    (g : Graph) (d : Diff) (p : class_or_union_diff) (indent : String)
    (rep : Nat → String → RState → Result) (st : RState)
    (htbr : d.to_be_reported = true)
    (hdef : (allowed ctxt H.CLASS_DECL_ONLY_DEF_CHANGE_CATEGORY
      && H.has_class_decl_only_def_change p.first_class_or_union
          p.second_class_or_union) = false)
    (hfd : ∀ i ∈ p.member_fn_tmpls_changes.deletions,
      i < p.first_class_or_union.member_function_templates.length)
    (hfi : ∀ j ∈ p.member_fn_tmpls_changes.insertions.flatMap
        (fun i => i.inserted_indexes),
      j < p.second_class_or_union.member_function_templates.length)
    (hcd : ∀ i ∈ p.member_class_tmpls_changes.deletions,
      i < p.first_class_or_union.member_class_templates.length)
    (hci : ∀ j ∈ p.member_class_tmpls_changes.insertions.flatMap
        (fun i => i.inserted_indexes),
      j < p.second_class_or_union.member_class_templates.length) :
    exec rep (class_or_union_diff_steps H ctxt g d p indent) st
      = (exec rep
          (member_functions_steps H ctxt g p indent
            ++ data_members_steps H g p indent
            ++ member_types_steps H g p indent) st).bind
        (fun s1 => .ok
          ((s1.write
            (written
              (if p.member_fn_tmpls_changes.to_bool then
                (if p.member_fn_tmpls_changes.num_deletions != 0 then
                   [Step.emit (H.report_mem_header
                      p.member_fn_tmpls_changes.num_deletions 0 .del_kind
                      "member function template" indent)]
                 else [])
                ++ (p.member_fn_tmpls_changes.deletions.pmap
                      (fun i hi => tmpl_line indent
                        (p.first_class_or_union.member_function_templates.get
                          ⟨i, hi⟩))
                      hfd).intersperse (Step.emit "\n")
                ++ (if p.member_fn_tmpls_changes.num_deletions != 0 then
                      [Step.emit "\n\n"]
                    else [])
                ++ (if p.member_fn_tmpls_changes.num_insertions != 0 then
                      [Step.emit (H.report_mem_header
                        p.member_fn_tmpls_changes.num_insertions 0 .ins_kind
                        "member function template" indent)]
                    else [])
                ++ ((p.member_fn_tmpls_changes.insertions.flatMap
                        (fun i => i.inserted_indexes)).pmap
                      (fun j hj => tmpl_line indent
                        (p.second_class_or_union.member_function_templates.get
                          ⟨j, hj⟩))
                      hfi).intersperse (Step.emit "\n")
                ++ (if p.member_fn_tmpls_changes.num_insertions != 0 then
                      [Step.emit "\n\n"]
                    else [])
              else []))).write
            (written
              (if p.member_class_tmpls_changes.to_bool then
                (if p.member_class_tmpls_changes.num_deletions != 0 then
                   [Step.emit (H.report_mem_header
                      p.member_class_tmpls_changes.num_deletions 0 .del_kind
                      "member class template" indent)]
                 else [])
                ++ (p.member_class_tmpls_changes.deletions.pmap
                      (fun i hi => tmpl_line indent
                        (p.first_class_or_union.member_class_templates.get
                          ⟨i, hi⟩))
                      hcd).intersperse (Step.emit "\n")
                ++ (if p.member_class_tmpls_changes.num_deletions != 0 then
                      [Step.emit "\n\n"]
                    else [])
                ++ (if p.member_class_tmpls_changes.num_insertions != 0 then
                      [Step.emit (H.report_mem_header
                        p.member_class_tmpls_changes.num_insertions 0
                        .ins_kind "member class template" indent)]
                    else [])
                ++ ((p.member_class_tmpls_changes.insertions.flatMap
                        (fun i => i.inserted_indexes)).pmap
                      (fun j hj => tmpl_line indent
                        (p.second_class_or_union.member_class_templates.get
                          ⟨j, hj⟩))
                      hci).intersperse (Step.emit "\n")
                ++ (if p.member_class_tmpls_changes.num_insertions != 0 then
                      [Step.emit "\n\n"]
                    else [])
              else [])))) := by
  have hsteps : class_or_union_diff_steps H ctxt g d p indent
      = (member_functions_steps H ctxt g p indent
          ++ data_members_steps H g p indent
          ++ member_types_steps H g p indent)
        ++ (member_tmpls_steps H p.member_fn_tmpls_changes
              p.first_class_or_union.member_function_templates
              p.second_class_or_union.member_function_templates
              "member function template" indent
            ++ (member_tmpls_steps H p.member_class_tmpls_changes
              p.first_class_or_union.member_class_templates
              p.second_class_or_union.member_class_templates
              "member class template" indent ++ [])) := by
    simp [class_or_union_diff_steps, htbr, hdef, List.append_assoc]
  rw [hsteps, exec_append _ _ _ (by
    simp [no_guard_append, member_functions_no_guard, data_members_no_guard,
      member_types_no_guard])]
  congr 1
  funext s1
  rw [exec_only_emits _ _ _ (member_tmpls_only_emits H _ _ _ _ indent hfd hfi),
    exec_only_emits _ _ _ (member_tmpls_only_emits H _ _ _ _ indent hcd hci),
    member_tmpls_steps_eq H _ _ _ _ indent hfd hfi,
    member_tmpls_steps_eq H _ _ _ _ indent hcd hci]
  rfl

/-- The union `U` of `tmpls_diff`: the member function templates at indexes
0 and 2 of the first sequence were deleted, the one at index 1 of the second
sequence was inserted, and the member class template at index 0 was
deleted. -/
theorem member_tmpls_lookups_in_bounds_witness :
    exec (report H0 ctxt0 [{ node := .union_diff tmpls_diff }] 0)
        (class_or_union_diff_steps H0 ctxt0 [{ node := .union_diff tmpls_diff }]
          { node := .union_diff tmpls_diff } tmpls_diff "") {}
      = .ok { out := "  'template<T> void a(T)'\n  'template<T> void c(T)'\n\n"
                ++ "  'template<T> void d(T)'\n\n"
                ++ "  'template<T> class X'\n\n" }
    ∧ report H0 ctxt0 [{ node := .union_diff tmpls_diff }] 1 0 "" {}
      = .ok { out := "  'template<T> void a(T)'\n  'template<T> void c(T)'\n\n"
                ++ "  'template<T> void d(T)'\n\n"
                ++ "  'template<T> class X'\n\n"
              reported_once := [0]
              history :=
                [Event.report 0, Event.currently_reporting 0 true,
                 Event.currently_reporting 0 false,
                 Event.reported_once 0 true] } :=
  ⟨(member_tmpls_lookups_in_bounds H0 ctxt0
      [{ node := .union_diff tmpls_diff }] { node := .union_diff tmpls_diff }
      tmpls_diff "" (report H0 ctxt0 [{ node := .union_diff tmpls_diff }] 0)
      {} rfl rfl (by decide) (by decide) (by decide) (by decide)).trans
      (by decide),
   by decide⟩

theorem H0_sort_permutes : H0.sort_permutes :=
  ⟨fun _ => List.Perm.refl _, fun _ => List.Perm.refl _, fun _ => List.Perm.refl _⟩

theorem sort_nil_fns (H : Helpers) (hs : H.sort_permutes) :
    H.sort_string_function_ptr_map [] = [] :=
  List.Perm.eq_nil (hs.fns [])

theorem sort_singleton_fns (H : Helpers) (hs : H.sort_permutes)
    (x : String × function_decl) :
    H.sort_string_function_ptr_map [x] = [x.2] :=
  List.perm_singleton.mp (hs.fns [x])

theorem size_t_sub_self (a : Nat) : size_t_sub a a = 0 := by
  unfold size_t_sub
  have h : a % 2 ^ 64 < 2 ^ 64 := Nat.mod_lt _ (by norm_num)
  omega

/-- Claim C12: the report of a corpus diff whose only change is one added
function that is not suppressed and is not a member function, with
`show_added_fns` set and `show_stats_only` and `show_linkage_names` unset,
writes the statistics, a newline, the header `1 Added function:` followed
by an empty line, the entry `indent + "  '<function>'"` without the tag
`[A] `, a newline and an empty line, and nothing else; it starts no nested
report. -/
theorem report_one_added_function (H : Helpers) (ctxt : diff_context)
    (g : Graph) (fuel n : Nat) (indent : String) (st : RState) (tbr : Bool)
    (s : diff_stats) (c1 c2 : corpus) (key : String) (fn : function_decl)
    (hd : g[n]? = some ⟨tbr, .corpus_diff
      { stats := s, first_corpus := c1, second_corpus := c2
        added_fns := [(key, fn)] }⟩)
    (hs : s.one_function_added) (hsort : H.sort_permutes)
    (hshown : ctxt.show_added_fns = true)
    (hstats : ctxt.show_stats_only = false)
    (hlinkage : ctxt.show_linkage_names = false)
    (hsup : H.added_function_is_suppressed
      { stats := s, first_corpus := c1, second_corpus := c2
        added_fns := [(key, fn)] } fn = false)
    (hmem : fn.is_member_function = false) :
    report H ctxt g (fuel + 1) n indent st
      = .ok ((((((((((st.log (Event.report n)).log
            (Event.apply_filters_and_suppressions_before_reporting n)).write
            (H.emit_diff_stats s indent)).write "\n").write
            (indent ++ "1 Added function:\n\n")).write
            (indent ++ "  ")).write
            ("'" ++ fn.pretty_representation ++ "'")).write "\n").write
            "\n").log (Event.maybe_dump_diff_tree n)) := by
  obtain ⟨h1, h2, h3, h4, h5, h6, h7⟩ := hs
  have e1 : H.sort_string_function_ptr_map [] = [] := sort_nil_fns H hsort
  have e2 : H.sort_string_function_ptr_map [(key, fn)] = [fn] :=
    sort_singleton_fns H hsort (key, fn)
  have e3 : H.sort_string_var_ptr_map [] = [] :=
    List.Perm.eq_nil (hsort.vars [])
  have e4 : H.sort_string_function_decl_diff_sptr_map [] = [] :=
    List.Perm.eq_nil (hsort.fn_diffs [])
  have e5 : size_t_add (size_t_add 0 1) 0 = 1 := by decide
  simp [report, hd, report_node, steps, corpus_diff_steps, hstats, hshown,
    hlinkage, hsup, hmem, h1, h2, h3, h4, h5, h6, h7, e1, e2, e3, e4, e5,
    size_t_sub_self, count_header, listed_function_steps, unrefed_syms_steps,
    loop_with, exec]

/-- The function `void f(int)` is added. -/
theorem report_one_added_function_witness :
    report H0 ctxt0 added_function_graph (0 + 1) 0 "" {}
      = .ok ((((((((((({} : RState).log (Event.report 0)).log
            (Event.apply_filters_and_suppressions_before_reporting 0)).write
            (H0.emit_diff_stats { net_num_func_added := 1 } "")).write
            "\n").write
            ("" ++ "1 Added function:\n\n")).write
            ("" ++ "  ")).write
            ("'" ++ void_f_int.pretty_representation ++ "'")).write
            "\n").write
            "\n").log (Event.maybe_dump_diff_tree 0))
    ∧ report H0 ctxt0 added_function_graph 1 0 "" {}
      = .ok { out := "\n1 Added function:\n\n  'void f(int)'\n\n"
              history :=
                [Event.report 0,
                 Event.apply_filters_and_suppressions_before_reporting 0,
                 Event.maybe_dump_diff_tree 0] } :=
  ⟨report_one_added_function H0 ctxt0 added_function_graph 0 0 "" {} true
      { net_num_func_added := 1 } {} {} "f" void_f_int rfl
      (by decide) H0_sort_permutes rfl rfl rfl rfl rfl,
   by decide⟩


theorem loop_with_listed (body : function_decl → List Step)
    (supp : function_decl → Bool) (sorted : List function_decl) (c : Nat) :
    loop_with
      (fun (listed : Nat) (i : function_decl) =>
        if supp i then (([] : List Step), listed) else (body i, listed + 1))
      c sorted
    = ((sorted.filter (fun i => !supp i)).flatMap body,
       c + (sorted.filter (fun i => !supp i)).length) := by
  induction sorted generalizing c with
  | nil => simp [loop_with]
  | cons x xs ih =>
    simp only [loop_with]
    by_cases hx : supp x = true
    · simp [hx, ih]
    · simp only [Bool.not_eq_true] at hx
      simp [hx, ih, List.flatMap_cons]
      omega

theorem function_list_steps_eq (H : Helpers) (ctxt : diff_context)
    (shown : Bool) (net : Nat) (one many : String) (total : Nat)
    (tag note : String) (sorted : List function_decl)
    (supp : function_decl → Bool) (indent : String) :
    function_list_steps H ctxt shown net one many total tag note sorted supp
        indent
    = if shown then
        (count_header net one many indent
          ++ (sorted.filter (fun i => !supp i)).flatMap (fun i =>
              listed_function_steps H ctxt total tag note i indent)
          ++ (if (sorted.filter (fun i => !supp i)).length != 0 then
                [Step.emit "\n"]
              else []),
         (sorted.filter (fun i => !supp i)).length)
      else ([], 0) := by
  unfold function_list_steps
  simp only [loop_with_listed, Nat.zero_add]

theorem filter_length_add_countP (fns : List (String × function_decl))
    (supp : function_decl → Bool) :
    ((fns.map (fun x => x.2)).filter (fun i => !supp i)).length
      + fns.countP (fun i => supp i.2) = fns.length := by
  induction fns with
  | nil => rfl
  | cons x xs ih =>
    by_cases hx : supp x.2 = true
    · simp [List.filter_cons, List.countP_cons, hx]
      simp at ih
      omega
    · simp only [Bool.not_eq_true] at hx
      simp [List.filter_cons, List.countP_cons, hx]
      simp at ih
      omega

theorem unsuppressed_length (H : Helpers) (hs : H.sort_permutes)
    (fns : List (String × function_decl)) (supp : function_decl → Bool) :
    ((H.sort_string_function_ptr_map fns).filter (fun i => !supp i)).length
      + fns.countP (fun i => supp i.2) = fns.length := by
  rw [((hs.fns fns).filter (fun i => !supp i)).length_eq]
  exact filter_length_add_countP fns supp

theorem unsuppressed_mem (H : Helpers) (hs : H.sort_permutes)
    (fns : List (String × function_decl)) (supp : function_decl → Bool)
    (fn : function_decl) :
    fn ∈ (H.sort_string_function_ptr_map fns).filter (fun i => !supp i)
      ↔ (∃ key, (key, fn) ∈ fns) ∧ supp fn = false := by
  rw [List.mem_filter, (hs.fns fns).mem_iff]
  simp

theorem count_header_cases (n : Nat) (one many indent : String) :
    count_header n one many indent
      = if n = 0 then []
        else if n = 1 then [Step.emit (indent ++ one)]
        else [Step.emit (indent ++ toString n ++ many)] := by
  unfold count_header
  by_cases h0 : n = 0
  · simp [h0]
  · by_cases h1 : n = 1
    · simp [h1]
    · have : n > 1 := by omega
      simp [h0, h1, this]

/-- The statements of `report(const corpus_diff&)`: after the statistics
and the lines about the SONAME and the architecture come the section of the
removed functions and the section of the added functions.  In such a
section, when it is shown, a function of the map is listed exactly when it
is not suppressed, so the number of listed functions plus the number of
suppressed ones is the size of the map; the section is its header, the
statements that list the functions and, when one was listed, an empty line.
When the net count of the statistics is the size of the map minus the
number of suppressed functions, the header is absent for no listed
function and else holds the number of listed functions (the singular form
for one). -/
theorem function_list_sections (H : Helpers) (ctxt : diff_context)
    (g : Graph) (self : Nat) (p : corpus_diff) (indent : String)
    (hs : H.sort_permutes) (hso : ctxt.show_stats_only = false) :
    ([Step.emit (H.emit_diff_stats p.stats indent), Step.emit "\n"]
      ++ (if ctxt.show_soname_change && !p.sonames_equal then
            [Step.emit (indent ++ "SONAME changed from '"
              ++ p.first_corpus.soname ++ "' to '" ++ p.second_corpus.soname
              ++ "'\n\n")]
          else [])
      ++ (if ctxt.show_architecture_change && !p.architectures_equal then
            [Step.emit (indent ++ "architecture changed from '"
              ++ p.first_corpus.architecture_name ++ "' to '"
              ++ p.second_corpus.architecture_name ++ "'\n\n")]
          else [])
      ++ (function_list_steps H ctxt ctxt.show_deleted_fns
            p.stats.net_num_func_removed "1 Removed function:\n\n"
            " Removed functions:\n\n"
            (size_t_add
              (size_t_add p.stats.net_num_func_removed
                p.stats.net_num_func_added)
              p.stats.net_num_func_changed)
            "[D] " "note that this removes an entry from the vtable of "
            (H.sort_string_function_ptr_map p.deleted_fns)
            (H.deleted_function_is_suppressed p) indent).1
      ++ (function_list_steps H ctxt ctxt.show_added_fns
            p.stats.net_num_func_added "1 Added function:\n\n"
            " Added functions:\n\n"
            (size_t_add
              (size_t_add p.stats.net_num_func_removed
                p.stats.net_num_func_added)
              p.stats.net_num_func_changed)
            "[A] " "note that this adds a new entry to the vtable of "
            (H.sort_string_function_ptr_map p.added_fns)
            (H.added_function_is_suppressed p) indent).1)
      <+: corpus_diff_steps H ctxt g self p indent
    ∧ ∀ (net total : Nat) (one many tag note : String)
        (fns : List (String × function_decl))
        (supp : function_decl → Bool),
        (∀ fn, fn ∈ (H.sort_string_function_ptr_map fns).filter
                  (fun i => !supp i)
              ↔ (∃ key, (key, fn) ∈ fns) ∧ supp fn = false)
        ∧ ((H.sort_string_function_ptr_map fns).filter
              (fun i => !supp i)).length
            + fns.countP (fun i => supp i.2) = fns.length
        ∧ function_list_steps H ctxt true net one many total tag note
              (H.sort_string_function_ptr_map fns) supp indent
            = (count_header net one many indent
                ++ ((H.sort_string_function_ptr_map fns).filter
                      (fun i => !supp i)).flatMap
                    (fun i =>
                      listed_function_steps H ctxt total tag note i indent)
                ++ (if ((H.sort_string_function_ptr_map fns).filter
                          (fun i => !supp i)).length != 0 then
                      [Step.emit "\n"]
                    else []),
               ((H.sort_string_function_ptr_map fns).filter
                  (fun i => !supp i)).length)
        ∧ (net + fns.countP (fun i => supp i.2) = fns.length →
            count_header net one many indent
              = if ((H.sort_string_function_ptr_map fns).filter
                      (fun i => !supp i)).length = 0 then []
                else if ((H.sort_string_function_ptr_map fns).filter
                      (fun i => !supp i)).length = 1 then
                  [Step.emit (indent ++ one)]
                else
                  [Step.emit (indent
                    ++ toString ((H.sort_string_function_ptr_map fns).filter
                        (fun i => !supp i)).length
                    ++ many)]) := by
  refine ⟨?_, fun net total one many tag note fns supp =>
    ⟨unsuppressed_mem H hs fns supp, unsuppressed_length H hs fns supp, ?_,
      fun hnet => ?_⟩⟩
  · simp only [function_list_steps_eq, corpus_diff_steps, hso,
      Bool.false_eq_true, if_false]
    by_cases hd : ctxt.show_deleted_fns = true <;>
      by_cases ha : ctxt.show_added_fns = true <;>
      simp [hd, ha, List.append_assoc, List.prefix_append_right_inj]
  · rw [function_list_steps_eq]
    simp
  · have h := unsuppressed_length H hs fns supp
    have hn : net = ((H.sort_string_function_ptr_map fns).filter
        (fun i => !supp i)).length := by omega
    rw [← hn]
    exact count_header_cases net one many indent

/-- Claim C13 fails on the code: of three removed functions one is
suppressed and the net count of the statistics is 2, the number of the
other two.  With `show_linkage_names` set, the report writes the header
`2 Removed functions:`, the name of the first function and an opening
brace, and then dereferences the absent symbol of that function (line
1751): no entry line is completed under the header.  With
`show_linkage_names` unset, the same report lists the two functions under
that header and completes (its last newline is the one of the section of
the removed variables, whose counter is the one of the removed
functions). -/
theorem listed_functions_stop_at_absent_symbol :
    removed_functions_corpus_diff.stats.net_num_func_removed
        + removed_functions_corpus_diff.deleted_fns.countP
            (fun i => H_suppress.deleted_function_is_suppressed
              removed_functions_corpus_diff i.2)
      = removed_functions_corpus_diff.deleted_fns.length
    ∧ report H_suppress ctxt_linkage_names
        [{ node := .corpus_diff removed_functions_corpus_diff }] 1 0 "" {}
      = .fault .null_deref
    ∧ (corpus_diff_steps H_suppress ctxt_linkage_names
          [{ node := .corpus_diff removed_functions_corpus_diff }] 0
          removed_functions_corpus_diff "").take 7
      = [Step.emit "", Step.emit "\n",
         Step.emit "2 Removed functions:\n\n", Step.emit "  ",
         Step.emit "'void f()'", Step.emit "    \x7b",
         Step.fault .null_deref]
    ∧ report H_suppress ctxt0
        [{ node := .corpus_diff removed_functions_corpus_diff }] 1 0 "" {}
      = .ok { out := "\n2 Removed functions:\n\n  'void f()'\n  'void h()'\n\n"
                ++ "1 Added function:\n\n  'void k()'\n\n\n"
              history :=
                [Event.report 0,
                 Event.apply_filters_and_suppressions_before_reporting 0,
                 Event.maybe_dump_diff_tree 0] } := by
  refine ⟨by decide, by decide, by rfl, by decide⟩

/-! ## Claims C14 to C17: determinism, local changes, nodes not to be reported -/

/-- Claim C14 fails on the code: the report of a class diff lists the
deleted member functions in the order in which the map
`deleted_member_functions_` is iterated (lines 866-885), and the report of a
scope diff lists the deleted types in the order in which the map
`deleted_types_` is iterated (lines 750-757): the same two entries in the
other order give another text.  The sections of `report(const
corpus_diff&)` sort their maps before they list them (lines 1733-1734). -/
theorem report_follows_map_iteration_order :
    report H_methods ctxt0
        (deleted_methods_graph
          [("f", virtual_member "f"), ("g", virtual_member "g")]) 1 0 "" {}
      = .ok { out := "  'method virtual void C::f()'\n"
                ++ "  'method virtual void C::g()'\n"
              reported_once := [0]
              history :=
                [Event.report 0, Event.currently_reporting 0 true,
                 Event.currently_reporting 0 false,
                 Event.reported_once 0 true] }
    ∧ report H_methods ctxt0
        (deleted_methods_graph
          [("g", virtual_member "g"), ("f", virtual_member "f")]) 1 0 "" {}
      = .ok { out := "  'method virtual void C::g()'\n"
                ++ "  'method virtual void C::f()'\n"
              reported_once := [0]
              history :=
                [Event.report 0, Event.currently_reporting 0 true,
                 Event.currently_reporting 0 false,
                 Event.reported_once 0 true] }
    ∧ report H0 ctxt0
        (deleted_types_graph
          [("A", { pretty_representation := "struct A" }),
           ("B", { pretty_representation := "struct B" })]) 1 0 "" {}
      = .ok { out := "  'struct A' was removed\n  'struct B' was removed\n\n"
              history := [Event.report 0] }
    ∧ report H0 ctxt0
        (deleted_types_graph
          [("B", { pretty_representation := "struct B" }),
           ("A", { pretty_representation := "struct A" })]) 1 0 "" {}
      = .ok { out := "  'struct B' was removed\n  'struct A' was removed\n\n"
              history := [Event.report 0] } := by
  refine ⟨?_, ?_, ?_, ?_⟩ <;> decide

/-- Claim C15 fails on the code: for a typedef renamed from `A` to `B`,
`report_local_typedef_changes` writes the line of the name change, ends it
with a newline itself (line 223) and then returns true (lines 224-227): the
text it wrote is terminated by a newline although the result tells the
caller to emit one, and the report of the typedef diff ends with an empty
line. -/
theorem report_local_typedef_changes_true_after_newline :
    (report_local_typedef_changes H0 ctxt0
        ⟨true, .typedef_diff { qualified_name := "A" } { qualified_name := "B" }
          none⟩
        { qualified_name := "A" } { qualified_name := "B" } "").2 = true
    ∧ written
        (report_local_typedef_changes H0 ctxt0
          ⟨true, .typedef_diff { qualified_name := "A" }
            { qualified_name := "B" } none⟩
          { qualified_name := "A" } { qualified_name := "B" } "").1
      = "typedef name changed from A to B\n"
    ∧ report H0 ctxt0 typedef_graph 1 0 "" {}
      = .ok { out := "typedef name changed from A to B\n\n"
              history := [Event.report 0] } := by
  refine ⟨?_, ?_, ?_⟩ <;> decide

/-- Claim C16: `report_local_qualified_type_changes` writes exactly
`indent + "'" + first + "' changed to '" + second + "'\n"`, with the pretty
representations of the two qualified types, and returns true when the diff
is to be reported and the two representations differ; in every other case
it writes nothing and returns false. -/
theorem report_local_qualified_type_changes_spec (d : Diff)
    (first second : Entity) (indent : String) :
    report_local_qualified_type_changes d first second indent
      = if d.to_be_reported = true
            ∧ first.pretty_representation ≠ second.pretty_representation then
          ([Step.emit (indent ++ "'" ++ first.pretty_representation
              ++ "' changed to '" ++ second.pretty_representation ++ "'\n")],
           true)
        else ([], false) := by
  unfold report_local_qualified_type_changes
  by_cases h : d.to_be_reported = true
  · by_cases hn : first.pretty_representation = second.pretty_representation
    · simp [h, hn]
    · simp [h, hn]
  · simp [h]

/-- For every node of a kind other than `corpus_diff` and `union_diff` that
is not to be reported, the report returns at once: nothing is written, no
flag changes and no nested report starts. -/
theorem report_not_to_be_reported (H : Helpers) (ctxt : diff_context)
    (g : Graph) (fuel n : Nat) (indent : String) (st : RState) (d : Diff)
    (hd : g[n]? = some d) (h : d.to_be_reported = false)
    (hc : ∀ p, d.node ≠ .corpus_diff p) (hu : ∀ p, d.node ≠ .union_diff p) :
    report H ctxt g (fuel + 1) n indent st = .ok (st.log (Event.report n)) := by
  obtain ⟨tbr, node⟩ := d
  simp only at h hc hu
  subst h
  cases node <;>
    first
    | exact absurd rfl (hc _)
    | exact absurd rfl (hu _)
    | simp [report, hd, report_node, steps, exec, type_decl_diff_steps,
        enum_diff_steps, typedef_diff_steps, qualified_type_diff_steps,
        pointer_diff_steps, reference_diff_steps, fn_parm_diff_steps,
        function_type_diff_steps, array_diff_steps, base_diff_steps,
        scope_diff_steps, distinct_diff_steps, function_decl_diff_steps,
        var_diff_steps, report_local_typedef_changes,
        report_local_qualified_type_changes,
        report_local_reference_type_changes,
        report_local_function_type_changes]

/-- Claim C17 fails on the code: `report(const union_diff&)` has no test of
`to_be_reported()` (lines 1387-1411).  On a union diff that is not to be
reported and whose union changed size it writes the change of size and
marks the node as reported once, where `report(const class_diff&)` (lines
1266-1267) returns at once on the same data. -/
theorem report_union_diff_not_to_be_reported :
    report H_sizes ctxt0 filtered_union_graph 1 0 "" {}
      = .ok { out := "type size changed from 32 to 64 (in bits)\n"
              reported_once := [0]
              history :=
                [Event.report 0, Event.currently_reporting 0 true,
                 Event.currently_reporting 0 false,
                 Event.reported_once 0 true] }
    ∧ report H_sizes ctxt0 filtered_class_graph 1 0 "" {}
      = .ok { history := [Event.report 0] } := by
  refine ⟨?_, ?_⟩ <;> decide

/-! ## Claim C18: the nested reports of a class or union diff -/

/-- Two reporters that agree on the states in which node `c` is currently
being reported run a list of statements alike from such a state. -/
theorem exec_congr_marked {g : Graph}
    {rep1 rep2 : Nat → String → RState → Result} (c : Nat)
    (hagree : ∀ m ind s, c ∈ s.currently_reporting →
      rep1 m ind s = rep2 m ind s)
    (hfr : ∀ m ind s s1, rep2 m ind s = .ok s1 → Frame g s s1) :
    ∀ (l : List Step) (st : RState), c ∈ st.currently_reporting →
      exec rep1 l st = exec rep2 l st := by
  intro l
  induction l with
  | nil => intro st _; rfl
  | cons a rest ih =>
    intro st hc
    cases a with
    | emit s => simp only [exec]; exact ih _ hc
    | call d ind =>
      simp only [exec, hagree d ind st hc]
      cases hr : rep2 d ind st with
      | fault e => rfl
      | out_of_fuel => rfl
      | ok s2 =>
        have h2 : c ∈ s2.currently_reporting := by
          rw [(hfr d ind st s2 hr).cr]; exact hc
        exact ih s2 h2
    | return_if_reported d being earlier =>
      simp only [exec]
      split
      · rfl
      · exact ih _ hc
    | fault f => rfl
    | maybe_dump_diff_tree d => simp only [exec]; exact ih _ hc

theorem report_marked_congr {H : Helpers} {g : Graph}
    {rep1 rep2 : Nat → String → RState → Result} (c : Nat)
    (hagree : ∀ m ind s, c ∈ s.currently_reporting →
      rep1 m ind s = rep2 m ind s)
    (hfr : ∀ m ind s s1, rep2 m ind s = .ok s1 → Frame g s s1)
    (self : Nat) (body : List Step) (indent : String) (st : RState)
    (hc : c ∈ st.currently_reporting ∨ c = self) :
    report_marked H rep1 self body indent st
      = report_marked H rep2 self body indent st := by
  unfold report_marked
  split
  · rfl
  · have h2 : c ∈ (st.set_currently_reporting self true).currently_reporting := by
      simp only [RState.set_currently_reporting, if_true, List.mem_cons,
        mem_filter_ne]
      rcases hc with h | h
      · by_cases e : c = self
        · exact Or.inl e
        · exact Or.inr ⟨h, e⟩
      · exact Or.inl h
    rw [exec_congr_marked c hagree hfr body _ h2]

theorem report_node_congr {H : Helpers} {ctxt : diff_context} {g : Graph}
    {rep1 rep2 : Nat → String → RState → Result} (c : Nat)
    (hagree : ∀ m ind s, c ∈ s.currently_reporting →
      rep1 m ind s = rep2 m ind s)
    (hfr : ∀ m ind s s1, rep2 m ind s = .ok s1 → Frame g s s1)
    (self : Nat) (d : Diff) (indent : String) (st : RState)
    (hc : c ∈ st.currently_reporting) :
    report_node H ctxt g rep1 self d indent st
      = report_node H ctxt g rep2 self d indent st := by
  unfold report_node
  split
  · split
    · rfl
    · exact report_marked_congr c hagree hfr self _ indent st (Or.inl hc)
  · exact report_marked_congr c hagree hfr self _ indent st (Or.inl hc)
  · exact exec_congr_marked c hagree hfr _ _ hc
  · exact exec_congr_marked c hagree hfr _ _ hc

/-- From a state in which node `c` is currently being reported, the probe
of `report_observing` is never hit. -/
theorem report_observing_eq (H : Helpers) (ctxt : diff_context) (g : Graph)
    (c : Nat) (v : Result) :
    ∀ (fuel m : Nat) (ind : String) (s : RState),
      c ∈ s.currently_reporting →
      report_observing H ctxt g c v fuel m ind s
        = report H ctxt g fuel m ind s := by
  intro fuel
  induction fuel with
  | zero => intro m ind s _; rfl
  | succ n ih =>
    intro m ind s hc
    simp only [report_observing, report, hc, if_true]
    cases hd : g[m]? with
    | none => rfl
    | some d =>
      exact report_node_congr c (fun m ind s h => ih m ind s h)
        (report_frame_aux H ctxt g n) m d ind _ hc

/-- Claim C18: for a union diff, or a class diff that is to be reported,
that is not yet visited, every report that starts during the report of the
node, at any depth, starts while the node is currently being reported: the
report is the same whatever result `v` a nested report would give at once
if it started while the node is not currently being reported.  The
statements between `currently_reporting(true)` and
`currently_reporting(false)` hold no guard, the only statement that
returns, so every report that passes the guard and returns went through
`currently_reporting(false)` and `reported_once(true)`: on return the node
is not currently being reported and is reported once. -/
theorem nested_reports_observe_currently_reporting (H : Helpers)
    (ctxt : diff_context) (g : Graph) (fuel n : Nat) (indent : String)
    (st : RState) (d : Diff) (hd : g[n]? = some d)
    (hk : d.node.is_class_or_union_diff = true)
    (hpast : d.to_be_reported = true ∨ ∃ p, d.node = Node.union_diff p)
    (hcr : n ∉ st.currently_reporting) (hro : n ∉ st.reported_once) :
    (∀ v : Result,
      report_node H ctxt g (report_observing H ctxt g n v fuel) n d indent
          (st.log (Event.report n))
        = report H ctxt g (fuel + 1) n indent st)
    ∧ no_guard (steps H ctxt g n d indent) = true
    ∧ report H ctxt g (fuel + 1) n indent st
        = (match exec (report H ctxt g fuel) (steps H ctxt g n d indent)
              ((st.log (Event.report n)).set_currently_reporting n true) with
            | .ok st1 =>
              .ok ((st1.set_currently_reporting n false).set_reported_once n
                true)
            | .fault f => .fault f
            | .out_of_fuel => .out_of_fuel)
    ∧ ∀ st1, report H ctxt g (fuel + 1) n indent st = .ok st1 →
        n ∉ st1.currently_reporting ∧ n ∈ st1.reported_once := by
  have hnone : return_note (st.log (Event.report n)) n
      (H.reported_note true indent) (H.reported_note false indent) = none :=
    return_note_eq_none.2 ⟨hcr, hro⟩
  have hmarked : ∀ rep : Nat → String → RState → Result,
      report_node H ctxt g rep n d indent (st.log (Event.report n))
        = report_marked H rep n (steps H ctxt g n d indent) indent
            (st.log (Event.report n)) := by
    intro rep
    obtain ⟨tbr, nd⟩ := d
    cases nd <;> simp [Node.is_class_or_union_diff] at hk
    · rcases hpast with e | ⟨p, e⟩
      · simp only at e
        subst e
        simp [report_node]
      · simp at e
    · simp [report_node]
  refine ⟨fun v => ?_, marked_steps_no_guard H ctxt g n d indent hk, ?_,
    fun st1 h => ?_⟩
  · simp only [report, hd, hmarked]
    exact report_marked_congr n
      (fun m ind s h => report_observing_eq H ctxt g n v fuel m ind s h)
      (report_frame_aux H ctxt g fuel) n _ indent _ (Or.inr rfl)
  · simp only [report, hd, hmarked, report_marked, hnone]
  · have hfr := report_frame_aux H ctxt g (fuel + 1) n indent st st1 h
    exact ⟨by rw [hfr.cr]; exact hcr,
      ((flagged_after_report hd hk hpast h).2 hcr hro).1⟩

/-- The report of the class diff of `list_graph`, whose data member points
back to the class. -/
theorem nested_reports_observe_currently_reporting_witness :
    (∀ v : Result,
      report_node H0 ctxt0 list_graph
          (report_observing H0 ctxt0 list_graph 0 v 2) 0 list_graph_class ""
          (({} : RState).log (Event.report 0))
        = report H0 ctxt0 list_graph (2 + 1) 0 "" {})
    ∧ report H0 ctxt0 list_graph (2 + 1) 0 "" {} = .ok list_graph_reported
    ∧ (0 ∉ list_graph_reported.currently_reporting
        ∧ 0 ∈ list_graph_reported.reported_once)
    ∧ report_observing H0 ctxt0 list_graph 0 (.fault .out_of_bounds) 3 2 ""
        {} = .fault .out_of_bounds :=
  have h := nested_reports_observe_currently_reporting H0 ctxt0 list_graph 2
    0 "" {} list_graph_class (by decide) (by decide) (Or.inl (by decide))
    (by decide) (by decide)
  ⟨h.1, by decide, h.2.2.2 list_graph_reported (by decide), by decide⟩

/-! ## Claims C19 and C20: qualified types, entries added to a scope -/

/-- Claim C19: the report of a to-be-reported, not yet visited
`qualified_type_diff` whose two qualified types have different pretty
representations writes the line `'<first>' changed to '<second>'` and
nothing else, and starts no nested report.  When the two representations
are equal and the leaf underlying type diff is to be reported and not yet
visited, the report writes the heading `in unqualified underlying type` and
is then the report of that leaf diff with two more spaces of
indentation. -/
theorem report_qualified_type_diff (H : Helpers) (ctxt : diff_context)
    (g : Graph) (fuel n : Nat) (indent : String) (st : RState)
    (f s : Entity) (u : diff_sptr)
    (hd : g[n]? = some ⟨true, .qualified_type_diff f s u⟩)
    (hcr : n ∉ st.currently_reporting) (hro : n ∉ st.reported_once) :
    (f.pretty_representation ≠ s.pretty_representation →
      report H ctxt g (fuel + 1) n indent st
        = .ok ((st.log (Event.report n)).write
            (indent ++ "'" ++ f.pretty_representation ++ "' changed to '"
              ++ s.pretty_representation ++ "'\n")))
    ∧ (f.pretty_representation = s.pretty_representation →
        ∀ (i : Nat) (dif : Diff) (fs : Entity), u = some i →
          g[i]? = some dif → dif.to_be_reported = true →
          dif.node.first_subject = some fs →
          i ∉ st.currently_reporting → i ∉ st.reported_once →
          report H ctxt g (fuel + 1) n indent st
            = report H ctxt g fuel i (indent ++ "  ")
                ((((st.log (Event.report n)).write
                  (indent ++ "in unqualified underlying type '"
                    ++ fs.pretty_representation ++ "'")).write
                  (H.report_loc_info dif.node.second_subject)).write
                  ":\n")) := by
  have hn : return_note (st.log (Event.report n)) n
      (H.reported_note true indent) (H.reported_note false indent) = none :=
    return_note_eq_none.mpr ⟨hcr, hro⟩
  refine ⟨fun hne => ?_, fun heq i dif fs hu hi htbr hfs hicr hiro => ?_⟩
  · simp [report, hd, report_node, steps, qualified_type_diff_steps,
      report_local_qualified_type_changes, hne, exec, return_if_reported1, hn]
  · subst hu
    have hn2 : return_note (st.log (Event.report n)) i
        (H.reported_note2 true dif "unqualified underlying type" indent)
        (H.reported_note2 false dif "unqualified underlying type" indent)
        = none :=
      return_note_eq_none.mpr ⟨hicr, hiro⟩
    simp only [report, hd, report_node, steps, qualified_type_diff_steps,
      report_local_qualified_type_changes, heq, exec, return_if_reported1,
      return_if_reported2, hn, hn2, hi, htbr, hfs, with_entity, bne_self_eq_false,
      Bool.not_true, Bool.false_eq_true, if_false, List.cons_append,
      List.nil_append, List.append_nil]
    cases report H ctxt g fuel i (indent ++ "  ")
      ((((st.log (Event.report n)).write
        (indent ++ "in unqualified underlying type '"
          ++ fs.pretty_representation ++ "'")).write
        (H.report_loc_info dif.node.second_subject)).write ":\n") <;> rfl

/-- From `const int` to `volatile int`. -/
theorem report_qualified_type_diff_witness :
    report H0 ctxt0 qualified_graph (0 + 1) 0 "  " {}
      = .ok ((({} : RState).log (Event.report 0)).write
          ("  " ++ "'" ++ "const int" ++ "' changed to '" ++ "volatile int"
            ++ "'\n")) :=
  (report_qualified_type_diff H0 ctxt0 qualified_graph 0 0 "  " {}
      { pretty_representation := "const int" }
      { pretty_representation := "volatile int" } (some 1) rfl
      (by decide) (by decide)).1 (by decide)

theorem loop_with_inserted (indent : String)
    (entries : List (String × Entity)) (emitted : Bool) :
    loop_with
      (fun (emitted : Bool) (i : String × Entity) =>
        if i.2.is_type_decl then (([] : List Step), emitted)
        else
          ([Step.emit (indent ++ "  '" ++ i.2.pretty_representation
              ++ "' was added\n")], true))
      emitted entries
    = ((entries.filter (fun i => !i.2.is_type_decl)).map
          (fun i => was_added_line i indent),
       emitted || entries.any (fun i => !i.2.is_type_decl)) := by
  induction entries generalizing emitted with
  | nil => simp [loop_with]
  | cons x xs ih =>
    simp only [loop_with]
    by_cases hx : x.2.is_type_decl = true
    · simp [hx, ih]
    · simp [hx, ih, was_added_line]

theorem inserted_steps_eq (entries : List (String × Entity))
    (indent : String) :
    inserted_steps entries indent
    = (entries.filter (fun i => !i.2.is_type_decl)).map
          (fun i => was_added_line i indent)
      ++ (if entries.any (fun i => !i.2.is_type_decl) then [Step.emit "\n"]
          else []) := by
  unfold inserted_steps
  simp only [loop_with_inserted, Bool.false_or]

theorem any_eq_not_isEmpty_filter {α : Type} (p : α → Bool) (l : List α) :
    (!(l.filter p).isEmpty) = l.any p := by
  induction l with
  | nil => simp
  | cons x xs ih =>
    by_cases hx : p x = true
    · simp [List.filter_cons, hx]
    · simp only [Bool.not_eq_true] at hx
      simp [List.filter_cons, hx, ih]

/-- The statements of the report of a to-be-reported scope diff end with
the loop over the inserted types and the loop over the inserted
declarations; what comes before are the statements of the same scope diff
without inserted entries. -/
theorem scope_diff_steps_inserted (H : Helpers) (g : Graph) (d : Diff)
    (p : scope_diff) (indent : String) (h : d.to_be_reported = true) :
    scope_diff_steps H g d p indent
      = scope_diff_steps H g d
          { p with inserted_types := [], inserted_decls := [] } indent
        ++ inserted_steps p.inserted_types indent
        ++ inserted_steps p.inserted_decls indent := by
  unfold scope_diff_steps
  simp only [h, Bool.not_true, Bool.false_eq_true, if_false]
  simp only [inserted_steps_eq, ← any_eq_not_isEmpty_filter, was_added_line]
  simp

theorem no_guard_map_emit {α : Type} (f : α → String) (l : List α) :
    no_guard (l.map (fun i => Step.emit (f i))) = true := by
  simp [no_guard, Step.is_guard]

theorem only_emits_map_emit {α : Type} (f : α → String) (l : List α) :
    only_emits (l.map (fun i => Step.emit (f i))) = true := by
  simp [only_emits, Step.is_emit]

theorem scope_diff_no_guard (H : Helpers) (g : Graph) (d : Diff)
    (p : scope_diff) (indent : String) :
    no_guard (scope_diff_steps H g d p indent) = true := by
  unfold scope_diff_steps
  split
  · rfl
  · simp only [no_guard_append, Bool.and_eq_true]
    refine ⟨⟨⟨⟨⟨⟨⟨⟨⟨⟨⟨?_, ?_⟩, ?_⟩, ?_⟩, ?_⟩, ?_⟩, ?_⟩, ?_⟩, ?_⟩, ?_⟩, ?_⟩, ?_⟩
    · repeat' split
      all_goals simp [no_guard, Step.is_guard]
    · apply no_guard_flatMap
      intro x
      unfold with_entity
      repeat' split
      all_goals simp [no_guard, Step.is_guard]
    · repeat' split
      all_goals simp [no_guard, Step.is_guard]
    · apply no_guard_flatMap
      intro x
      unfold with_entity
      repeat' split
      all_goals simp [no_guard, Step.is_guard]
    · exact no_guard_map_emit _ _
    · split <;> simp [no_guard, Step.is_guard]
    · exact no_guard_map_emit _ _
    · split <;> simp [no_guard, Step.is_guard]
    · exact no_guard_map_emit _ _
    · split <;> simp [no_guard, Step.is_guard]
    · exact no_guard_map_emit _ _
    · split <;> simp [no_guard, Step.is_guard]

/-- The loop over inserted entries only writes: one line for each entry
that is not a `type_decl`, and then the empty line when there is such an
entry. -/
theorem inserted_steps_written (entries : List (String × Entity))
    (indent : String) :
    only_emits (inserted_steps entries indent) = true
    ∧ written (inserted_steps entries indent)
      = written ((entries.filter (fun i => !i.2.is_type_decl)).map
            (fun i => was_added_line i indent))
        ++ (if entries.any (fun i => !i.2.is_type_decl) then "\n" else "") := by
  rw [inserted_steps_eq]
  refine ⟨?_, ?_⟩
  · rw [only_emits_append]
    have h1 : only_emits ((entries.filter (fun i => !i.2.is_type_decl)).map
        (fun i => was_added_line i indent)) = true :=
      only_emits_map_emit _ _
    rw [h1]
    split <;> rfl
  · rw [written_append]
    split <;> simp [written]

/-- Claim C20: the report of a to-be-reported scope diff runs the
statements that come before the sections of the added entries (those of the
same scope diff without inserted entries) and then, without fault, writes
the section of the inserted types and the section of the inserted
declarations.  Each of the two sections is one line `'<repr>' was added`
for every inserted entry that is not a `type_decl`, in order, none for an
entry that is a `type_decl`, and after these lines the empty line exactly
when the section has an entry that is not a `type_decl`.  When the scope
diff has no changed type and no changed declaration, the report completes
and writes the lines of the removed types and declarations and these two
sections, and nothing else. -/
theorem scope_diff_added_sections (H : Helpers) (ctxt : diff_context)
    (g : Graph) (fuel n : Nat) (indent : String) (st : RState)
    (p : scope_diff) (hd : g[n]? = some ⟨true, .scope_diff p⟩) :
    report H ctxt g (fuel + 1) n indent st
      = (exec (report H ctxt g fuel)
          (scope_diff_steps H g ⟨true, .scope_diff p⟩
            { p with inserted_types := [], inserted_decls := [] } indent)
          (st.log (Event.report n))).bind
        (fun s1 => .ok
          ((s1.write
            (written ((p.inserted_types.filter
                  (fun i => !i.2.is_type_decl)).map
                (fun i => was_added_line i indent))
              ++ (if p.inserted_types.any (fun i => !i.2.is_type_decl) then
                    "\n"
                  else ""))).write
            (written ((p.inserted_decls.filter
                  (fun i => !i.2.is_type_decl)).map
                (fun i => was_added_line i indent))
              ++ (if p.inserted_decls.any (fun i => !i.2.is_type_decl) then
                    "\n"
                  else ""))))
    ∧ (p.changed_types = [] → p.changed_decls = [] →
        report H ctxt g (fuel + 1) n indent st
          = .ok
              (((((st.log (Event.report n)).write
                (written (p.deleted_types.map (fun i =>
                    Step.emit (indent ++ "  '" ++ i.2.pretty_representation
                      ++ "' was removed\n")))
                  ++ (if p.deleted_types.isEmpty then "" else "\n"))).write
                (written (p.deleted_decls.map (fun i =>
                    Step.emit (indent ++ "  '" ++ i.2.pretty_representation
                      ++ "' was removed\n")))
                  ++ (if p.deleted_decls.isEmpty then "" else "\n"))).write
                (written ((p.inserted_types.filter
                      (fun i => !i.2.is_type_decl)).map
                    (fun i => was_added_line i indent))
                  ++ (if p.inserted_types.any
                        (fun i => !i.2.is_type_decl) then
                        "\n"
                      else ""))).write
                (written ((p.inserted_decls.filter
                      (fun i => !i.2.is_type_decl)).map
                    (fun i => was_added_line i indent))
                  ++ (if p.inserted_decls.any
                        (fun i => !i.2.is_type_decl) then
                        "\n"
                      else "")))) := by
  have hrun : report H ctxt g (fuel + 1) n indent st
      = (exec (report H ctxt g fuel)
          (scope_diff_steps H g ⟨true, .scope_diff p⟩
            { p with inserted_types := [], inserted_decls := [] } indent)
          (st.log (Event.report n))).bind
        (fun s1 => .ok
          ((s1.write
            (written ((p.inserted_types.filter
                  (fun i => !i.2.is_type_decl)).map
                (fun i => was_added_line i indent))
              ++ (if p.inserted_types.any (fun i => !i.2.is_type_decl) then
                    "\n"
                  else ""))).write
            (written ((p.inserted_decls.filter
                  (fun i => !i.2.is_type_decl)).map
                (fun i => was_added_line i indent))
              ++ (if p.inserted_decls.any (fun i => !i.2.is_type_decl) then
                    "\n"
                  else "")))) := by
    simp only [report, hd, report_node, steps]
    rw [scope_diff_steps_inserted H g _ p indent rfl, List.append_assoc,
      exec_append _ _ _ (scope_diff_no_guard H g _ _ indent)]
    congr 1
    funext s1
    have h2 : exec (report H ctxt g fuel)
          (inserted_steps p.inserted_decls indent)
          (s1.write (written (inserted_steps p.inserted_types indent)))
        = .ok ((s1.write
            (written (inserted_steps p.inserted_types indent))).write
            (written (inserted_steps p.inserted_decls indent))) := by
      have h := @exec_only_emits (report H ctxt g fuel)
        (inserted_steps p.inserted_decls indent) []
        (s1.write (written (inserted_steps p.inserted_types indent)))
        (inserted_steps_written p.inserted_decls indent).1
      rw [List.append_nil] at h
      rw [h]
      rfl
    rw [exec_only_emits _ _ _ (inserted_steps_written p.inserted_types indent).1,
      h2, (inserted_steps_written p.inserted_types indent).2,
      (inserted_steps_written p.inserted_decls indent).2]
  refine ⟨hrun, fun ht hdc => ?_⟩
  rw [hrun]
  have hpre : scope_diff_steps H g ⟨true, .scope_diff p⟩
      { p with inserted_types := [], inserted_decls := [] } indent
      = (p.deleted_types.map (fun i =>
            Step.emit (indent ++ "  '" ++ i.2.pretty_representation
              ++ "' was removed\n"))
          ++ (if p.deleted_types.isEmpty then [] else [Step.emit "\n"]))
        ++ ((p.deleted_decls.map (fun i =>
            Step.emit (indent ++ "  '" ++ i.2.pretty_representation
              ++ "' was removed\n"))
          ++ (if p.deleted_decls.isEmpty then [] else [Step.emit "\n"]))
          ++ []) := by
    simp [scope_diff_steps, ht, hdc]
  have he1 : only_emits (p.deleted_types.map (fun i =>
            Step.emit (indent ++ "  '" ++ i.2.pretty_representation
              ++ "' was removed\n"))
          ++ (if p.deleted_types.isEmpty then [] else [Step.emit "\n"]))
      = true := by
    rw [only_emits_append, only_emits_map_emit]
    split <;> rfl
  have he2 : only_emits (p.deleted_decls.map (fun i =>
            Step.emit (indent ++ "  '" ++ i.2.pretty_representation
              ++ "' was removed\n"))
          ++ (if p.deleted_decls.isEmpty then [] else [Step.emit "\n"]))
      = true := by
    rw [only_emits_append, only_emits_map_emit]
    split <;> rfl
  rw [hpre, exec_only_emits _ _ _ he1, exec_only_emits _ _ _ he2, exec_nil,
    written_append, written_append]
  simp only [Result.bind]
  congr 4
  · split <;> simp [written]
  · split <;> simp [written]

/-- The built-in type `int`, the structure `S` and the function `f` are
added to a scope: the report writes one line for `S` and one for `f`, each
followed by an empty line, and none for `int`. -/
theorem scope_diff_added_sections_witness :
    report H0 ctxt0 [{ node := .scope_diff inserted_scope }] (0 + 1) 0 "  " {}
      = .ok { out := "    'struct S' was added\n\n"
                ++ "    'void f()' was added\n\n"
              history := [Event.report 0] } :=
  ((scope_diff_added_sections H0 ctxt0
      [{ node := .scope_diff inserted_scope }] 0 0 "  " {} inserted_scope
      rfl).2 rfl rfl).trans (by decide)

/-! ## Claims C21 to C27: functions, bases, classes, corpora -/

/-- Claim C21: the statements of the report of a to-be-reported function
declaration diff start with the member change and the statements about the
linkage names, on the linkage names computed for the two functions; when
nothing else changed (same qualified name and inline-ness, not two member
functions, no type diff) only the symbol change follows.  The statements
about the linkage names are none exactly when the two strings are equal, in
particular when both functions have no symbol; when the strings differ they
are one write: `didn't have any linkage name, and it now has` when the
first string is empty, else `did have linkage names ... but it doesn't have
any linkage name anymore` when the second is empty, else `linkage names of
... changed from ... to ...`. -/
theorem linkage_names_message (H : Helpers) (ctxt : diff_context)
    (g : Graph) (d : Diff) (ff sf : function_decl) (td : diff_sptr)
    (indent : String) (h : d.to_be_reported = true) :
    ([Step.emit
        (H.maybe_report_diff_for_member ff.toEntity sf.toEntity indent)]
      ++ linkage_names_steps ff
          (linkage_names ctxt.has_first_corpus ff.symbol)
          (linkage_names ctxt.has_second_corpus sf.symbol) indent)
      <+: function_decl_diff_steps H ctxt g d ff sf td indent
    ∧ (ff.qualified_name = sf.qualified_name →
        ff.is_declared_inline = sf.is_declared_inline →
        (ff.is_member_function && sf.is_member_function) = false →
        td = none →
        function_decl_diff_steps H ctxt g d ff sf td indent
          = [Step.emit
              (H.maybe_report_diff_for_member ff.toEntity sf.toEntity
                indent)]
            ++ linkage_names_steps ff
                (linkage_names ctxt.has_first_corpus ff.symbol)
                (linkage_names ctxt.has_second_corpus sf.symbol) indent
            ++ [Step.emit
                (H.maybe_report_diff_for_symbol ff.symbol sf.symbol
                  indent)])
    ∧ (∀ a b : String,
        (linkage_names_steps ff a b indent = [] ↔ a = b)
        ∧ (a ≠ b → a.isEmpty = true →
            linkage_names_steps ff a b indent
              = [Step.emit (indent ++ ff.pretty_representation
                  ++ " didn't have any linkage name, and it now has: '"
                  ++ b ++ "'\n")])
        ∧ (a ≠ b → a.isEmpty = false → b.isEmpty = true →
            linkage_names_steps ff a b indent
              = [Step.emit (indent ++ ff.pretty_representation
                  ++ " did have linkage names '" ++ a ++ "'\n" ++ indent
                  ++ "but it doesn't have any linkage name anymore\n")])
        ∧ (a ≠ b → a.isEmpty = false → b.isEmpty = false →
            linkage_names_steps ff a b indent
              = [Step.emit (indent ++ "linkage names of "
                  ++ ff.pretty_representation ++ "\n" ++ indent
                  ++ "changed from '" ++ a ++ "' to '" ++ b ++ "'\n")]))
    ∧ (ff.symbol = none → sf.symbol = none →
        linkage_names ctxt.has_first_corpus ff.symbol
          = linkage_names ctxt.has_second_corpus sf.symbol) := by
  refine ⟨?_, fun hq hi hm ht => ?_, fun a b => ⟨?_, fun hab ha => ?_,
    fun hab ha hb => ?_, fun hab ha hb => ?_⟩, fun h1 h2 => ?_⟩
  · simp only [function_decl_diff_steps, h, Bool.not_true,
      Bool.false_eq_true, if_false, function_decl_diff_local_steps,
      linkage_names_steps, List.append_assoc]
    simp [List.prefix_append_right_inj]
  · subst ht
    simp [function_decl_diff_steps, h, function_decl_diff_local_steps,
      linkage_names_steps, hq, hi, vtable_offset_steps, hm,
      function_decl_diff_type_steps]
  · unfold linkage_names_steps
    by_cases hab : a = b
    · simp [hab]
    · simp only [bne_iff_ne, ne_eq, hab, not_false_eq_true, if_true,
        iff_false]
      split
      · simp
      · split <;> simp
  · simp [linkage_names_steps, hab, ha]
  · simp [linkage_names_steps, hab, ha, hb]
  · simp [linkage_names_steps, hab, ha, hb]
  · simp [linkage_names, h1, h2]

/-- The function `f` gets the symbol `f`, loses it, changes it to `_Z1fv`,
or has no symbol before and after. -/
theorem linkage_names_message_witness :
    function_decl_diff_steps H0 ctxt0 []
        ⟨true, .function_decl_diff (f_with_symbol none)
          (f_with_symbol (some "f")) none⟩
        (f_with_symbol none) (f_with_symbol (some "f")) none "  "
      = [Step.emit
          (H0.maybe_report_diff_for_member (f_with_symbol none).toEntity
            (f_with_symbol (some "f")).toEntity "  ")]
        ++ linkage_names_steps (f_with_symbol none)
            (linkage_names ctxt0.has_first_corpus (f_with_symbol none).symbol)
            (linkage_names ctxt0.has_second_corpus
              (f_with_symbol (some "f")).symbol) "  "
        ++ [Step.emit
            (H0.maybe_report_diff_for_symbol (f_with_symbol none).symbol
              (f_with_symbol (some "f")).symbol "  ")]
    ∧ report H0 ctxt0
        [⟨true, .function_decl_diff (f_with_symbol none)
          (f_with_symbol (some "f")) none⟩] 1 0 "  " {}
      = .ok { out := "  function void f() didn't have any linkage name, "
                ++ "and it now has: 'f'\n"
              history := [Event.report 0] }
    ∧ report H0 ctxt0
        [⟨true, .function_decl_diff (f_with_symbol (some "f"))
          (f_with_symbol none) none⟩] 1 0 "  " {}
      = .ok { out := "  function void f() did have linkage names 'f'\n"
                ++ "  but it doesn't have any linkage name anymore\n"
              history := [Event.report 0] }
    ∧ report H0 ctxt0
        [⟨true, .function_decl_diff (f_with_symbol (some "f"))
          (f_with_symbol (some "_Z1fv")) none⟩] 1 0 "  " {}
      = .ok { out := "  linkage names of function void f()\n"
                ++ "  changed from 'f' to '_Z1fv'\n"
              history := [Event.report 0] }
    ∧ report H0 ctxt0
        [⟨true, .function_decl_diff (f_with_symbol none)
          (f_with_symbol none) none⟩] 1 0 "  " {}
      = .ok { history := [Event.report 0] } :=
  ⟨(linkage_names_message H0 ctxt0 []
      ⟨true, .function_decl_diff (f_with_symbol none)
        (f_with_symbol (some "f")) none⟩
      (f_with_symbol none) (f_with_symbol (some "f")) none "  " rfl).2.1
      rfl rfl rfl rfl,
   by decide, by decide, by decide, by decide⟩

/-- Claim C22: for a `class_or_union_diff` that is to be reported, when the
category `CLASS_DECL_ONLY_DEF_CHANGE_CATEGORY` is allowed and the two
subjects have a declaration-only / definition change, the statements of the
report are the single write of `indent + "type " + <first> + " was a
declaration-only type"` or `" was a defined type"` `+ " and is now a
declaration-only type"` or `" and is now a defined type"`, so the report
returns after it with no nested report and no section; when the category is
not allowed, or the subjects have no such change, the statements are the
sections of the member functions, data members, member types and member
templates. -/
theorem class_or_union_decl_only_def_change (H : Helpers)
    (ctxt : diff_context) (g : Graph) (d : Diff) (p : class_or_union_diff)
    (indent : String) (h : d.to_be_reported = true) :
    (allowed ctxt H.CLASS_DECL_ONLY_DEF_CHANGE_CATEGORY = true →
      H.has_class_decl_only_def_change p.first_class_or_union
        p.second_class_or_union = true →
      class_or_union_diff_steps H ctxt g d p indent
        = [Step.emit (indent ++ "type "
            ++ p.first_class_or_union.pretty_representation
            ++ (if p.first_class_or_union.is_declaration_only then
                  " was a declaration-only type"
                else " was a defined type")
            ++ (if p.second_class_or_union.is_declaration_only then
                  " and is now a declaration-only type"
                else " and is now a defined type"))]
      ∧ ∀ (rep : Nat → String → RState → Result) (st : RState),
          exec rep (class_or_union_diff_steps H ctxt g d p indent) st
            = .ok (st.write (indent ++ "type "
                ++ p.first_class_or_union.pretty_representation
                ++ (if p.first_class_or_union.is_declaration_only then
                      " was a declaration-only type"
                    else " was a defined type")
                ++ (if p.second_class_or_union.is_declaration_only then
                      " and is now a declaration-only type"
                    else " and is now a defined type"))))
    ∧ (allowed ctxt H.CLASS_DECL_ONLY_DEF_CHANGE_CATEGORY = false
        ∨ H.has_class_decl_only_def_change p.first_class_or_union
            p.second_class_or_union = false →
      class_or_union_diff_steps H ctxt g d p indent
        = member_functions_steps H ctxt g p indent
          ++ data_members_steps H g p indent
          ++ member_types_steps H g p indent
          ++ member_tmpls_steps H p.member_fn_tmpls_changes
              p.first_class_or_union.member_function_templates
              p.second_class_or_union.member_function_templates
              "member function template" indent
          ++ member_tmpls_steps H p.member_class_tmpls_changes
              p.first_class_or_union.member_class_templates
              p.second_class_or_union.member_class_templates
              "member class template" indent) := by
  refine ⟨fun ha hc => ?_, fun hn => ?_⟩
  · have e : class_or_union_diff_steps H ctxt g d p indent
        = [Step.emit (indent ++ "type "
            ++ p.first_class_or_union.pretty_representation
            ++ (if p.first_class_or_union.is_declaration_only then
                  " was a declaration-only type"
                else " was a defined type")
            ++ (if p.second_class_or_union.is_declaration_only then
                  " and is now a declaration-only type"
                else " and is now a defined type"))] := by
      simp [class_or_union_diff_steps, h, ha, hc]
    refine ⟨e, fun rep st => ?_⟩
    rw [e]
    rfl
  · rcases hn with hn | hn <;> simp [class_or_union_diff_steps, h, hn]

/-- A declaration-only class that became a defined class and lost a data
member, with the category allowed (`ctxt0`) and with no category allowed. -/
theorem class_or_union_decl_only_def_change_witness :
    class_or_union_diff_steps H_decl_only ctxt0 []
        ⟨true, .union_diff decl_only_diff⟩ decl_only_diff "  "
      = [Step.emit ("  " ++ "type "
          ++ decl_only_diff.first_class_or_union.pretty_representation
          ++ (if decl_only_diff.first_class_or_union.is_declaration_only then
                " was a declaration-only type"
              else " was a defined type")
          ++ (if decl_only_diff.second_class_or_union.is_declaration_only
              then " and is now a declaration-only type"
              else " and is now a defined type"))]
    ∧ written
        (class_or_union_diff_steps H_decl_only ctxt0 []
          ⟨true, .union_diff decl_only_diff⟩ decl_only_diff "  ")
      = "  type class C was a declaration-only type and is now a defined type"
    ∧ class_or_union_diff_steps H_decl_only {} []
        ⟨true, .union_diff decl_only_diff⟩ decl_only_diff "  "
      = member_functions_steps H_decl_only {} [] decl_only_diff "  "
        ++ data_members_steps H_decl_only [] decl_only_diff "  "
        ++ member_types_steps H_decl_only [] decl_only_diff "  "
        ++ member_tmpls_steps H_decl_only
            decl_only_diff.member_fn_tmpls_changes
            decl_only_diff.first_class_or_union.member_function_templates
            decl_only_diff.second_class_or_union.member_function_templates
            "member function template" "  "
        ++ member_tmpls_steps H_decl_only
            decl_only_diff.member_class_tmpls_changes
            decl_only_diff.first_class_or_union.member_class_templates
            decl_only_diff.second_class_or_union.member_class_templates
            "member class template" "  " :=
  ⟨((class_or_union_decl_only_def_change H_decl_only ctxt0 []
      ⟨true, .union_diff decl_only_diff⟩ decl_only_diff "  " rfl).1
      (by decide) (by decide)).1,
   by decide,
   (class_or_union_decl_only_def_change H_decl_only {} []
      ⟨true, .union_diff decl_only_diff⟩ decl_only_diff "  " rfl).2
      (Or.inl (by decide))⟩

theorem loop_with_separated_true {α : Type} (skip : α → Bool)
    (entry : α → List Step)
    (body : Bool × Bool → α → List Step × (Bool × Bool))
    (hb : ∀ st i, body st i
      = if skip i then (([] : List Step), (st.1, false))
        else
          ((if st.1 && !st.2 then [Step.emit "\n"] else []) ++ entry i,
           (true, false)))
    (l : List α) :
    loop_with body (true, false) l
    = ((l.filter (fun i => !skip i)).flatMap
          (fun y => Step.emit "\n" :: entry y),
       (true, false)) := by
  induction l with
  | nil => rfl
  | cons x xs ih =>
    simp only [loop_with]
    rw [hb (true, false) x]
    by_cases hx : skip x = true
    · simp only [hx, if_true, ih, List.nil_append, List.filter_cons,
        Bool.not_true, Bool.false_eq_true, if_false]
    · simp only [Bool.not_eq_true] at hx
      simp only [hx, Bool.false_eq_true, if_false, ih, List.filter_cons,
        Bool.not_false, if_true, List.flatMap_cons, Bool.and_self,
        List.singleton_append, List.cons_append, List.append_assoc,
        List.nil_append]

theorem loop_with_separated {α : Type} (skip : α → Bool)
    (entry : α → List Step)
    (body : Bool × Bool → α → List Step × (Bool × Bool))
    (hb : ∀ st i, body st i
      = if skip i then (([] : List Step), (st.1, false))
        else
          ((if st.1 && !st.2 then [Step.emit "\n"] else []) ++ entry i,
           (true, false)))
    (l : List α) (b : Bool) :
    (loop_with body (false, b) l).1
      = loop_newline_between entry (l.filter (fun i => !skip i))
    ∧ (loop_with body (false, b) l).2.1 = l.any (fun i => !skip i) := by
  induction l generalizing b with
  | nil => exact ⟨rfl, rfl⟩
  | cons x xs ih =>
    simp only [loop_with]
    rw [hb (false, b) x]
    by_cases hx : skip x = true
    · simp only [hx, if_true, List.nil_append, List.filter_cons,
        Bool.not_true, Bool.false_eq_true, if_false, List.any_cons,
        Bool.false_or]
      exact ih false
    · simp only [Bool.not_eq_true] at hx
      simp only [hx, Bool.false_eq_true, if_false,
        loop_with_separated_true skip entry body hb, List.filter_cons,
        Bool.not_false, if_true, Bool.false_and, List.nil_append,
        List.any_cons, Bool.true_or, loop_newline_between, and_self]

/-- The sections of the deleted and of the inserted member functions of
`report(const class_or_union_diff&)`, lines 859-914: a member function of
the map is listed exactly when it is virtual or
`NON_VIRT_MEM_FUN_CHANGE_CATEGORY` is allowed, the listed entries are
separated by a newline and followed by one when there is an entry. -/
theorem member_functions_listed (H : Helpers) (ctxt : diff_context)
    (g : Graph) (p : class_or_union_diff) (indent : String)
    (h : p.member_fns_changes.to_bool = true) :
    ∃ changed : List Step,
      member_functions_steps H ctxt g p indent
        = (if p.deleted_member_functions.length != 0 then
            [Step.emit (H.report_mem_header p.deleted_member_functions.length
              p.count_filtered_deleted_mem_fns .del_kind "member function"
              indent)]
           else [])
          ++ loop_newline_between
              (fun (i : String × function_decl) =>
                [Step.emit (indent ++ "  "),
                 Step.emit (H.represent_method i.2)])
              (p.deleted_member_functions.filter (fun i =>
                allowed ctxt H.NON_VIRT_MEM_FUN_CHANGE_CATEGORY
                  || i.2.member_function_is_virtual))
          ++ (if p.deleted_member_functions.any (fun i =>
                allowed ctxt H.NON_VIRT_MEM_FUN_CHANGE_CATEGORY
                  || i.2.member_function_is_virtual) then
                [Step.emit "\n"]
              else [])
          ++ (if p.inserted_member_functions.length != 0 then
                [Step.emit (H.report_mem_header
                  p.inserted_member_functions.length
                  p.count_filtered_inserted_mem_fns .ins_kind
                  "member function" indent)]
              else [])
          ++ loop_newline_between
              (fun (i : String × function_decl) =>
                [Step.emit (indent ++ "  "),
                 Step.emit (H.represent_method i.2)])
              (p.inserted_member_functions.filter (fun i =>
                allowed ctxt H.NON_VIRT_MEM_FUN_CHANGE_CATEGORY
                  || i.2.member_function_is_virtual))
          ++ (if p.inserted_member_functions.any (fun i =>
                allowed ctxt H.NON_VIRT_MEM_FUN_CHANGE_CATEGORY
                  || i.2.member_function_is_virtual) then
                [Step.emit "\n"]
              else [])
          ++ changed := by
  have hk : ∀ i : String × function_decl,
      (!(!allowed ctxt H.NON_VIRT_MEM_FUN_CHANGE_CATEGORY
          && !i.2.member_function_is_virtual))
        = (allowed ctxt H.NON_VIRT_MEM_FUN_CHANGE_CATEGORY
            || i.2.member_function_is_virtual) := by
    intro i
    cases allowed ctxt H.NON_VIRT_MEM_FUN_CHANGE_CATEGORY <;>
      cases i.2.member_function_is_virtual <;> rfl
  unfold member_functions_steps
  simp only [h, Bool.not_true, Bool.false_eq_true, if_false]
  have hd := loop_with_separated
    (fun (i : String × function_decl) =>
      !allowed ctxt H.NON_VIRT_MEM_FUN_CHANGE_CATEGORY
        && !i.2.member_function_is_virtual)
    (fun i => [Step.emit (indent ++ "  "),
      Step.emit (H.represent_method i.2)]) _ (fun _ _ => rfl)
    p.deleted_member_functions true
  have hi := loop_with_separated
    (fun (i : String × function_decl) =>
      !allowed ctxt H.NON_VIRT_MEM_FUN_CHANGE_CATEGORY
        && !i.2.member_function_is_virtual)
    (fun i => [Step.emit (indent ++ "  "),
      Step.emit (H.represent_method i.2)]) _ (fun _ _ => rfl)
    p.inserted_member_functions true
  simp only [hk] at hd hi
  rw [hd.1, hd.2, hi.1, hi.2]
  simp only [List.append_assoc]
  exact ⟨_, rfl⟩

/-- Claim C23 fails on the code: the loop over the changed member functions
dereferences the diff (lines 928-934) before it tests that it is not null
(line 937).  When `NON_VIRT_MEM_FUN_CHANGE_CATEGORY` is not allowed and the
first entry is a null diff, the report dereferences it, and the virtual,
to-be-reported member function that follows is not listed; it is listed
when the null entry is not there, and also when the category is allowed,
where the null entry is skipped. -/
theorem report_changed_member_functions_null_diff :
    report H0 ctxt_virtual_only (changed_methods_graph [none, some 1]) 2 0 ""
        {}
      = .fault .null_deref
    ∧ report H0 ctxt_virtual_only (changed_methods_graph [some 1]) 2 0 "" {}
      = .ok { out := "  'method virtual void C::m()' has some sub-type "
                ++ "changes:\n\n"
              reported_once := [0]
              history :=
                [Event.report 0, Event.currently_reporting 0 true,
                 Event.report 1, Event.currently_reporting 0 false,
                 Event.reported_once 0 true] }
    ∧ report H0 ctxt0 (changed_methods_graph [none, some 1]) 2 0 "" {}
      = .ok { out := "  'method virtual void C::m()' has some sub-type "
                ++ "changes:\n\n"
              reported_once := [0]
              history :=
                [Event.report 0, Event.currently_reporting 0 true,
                 Event.report 1, Event.currently_reporting 0 false,
                 Event.reported_once 0 true] } := by
  refine ⟨?_, ?_, ?_⟩ <;> decide

/-- Claim C24: the report of a to-be-reported base diff writes the text
about static-ness (`is no more static` when the first base is static, `now
becomes static` otherwise) exactly when the is-static flags of the two
bases differ, whatever the allowed categories, then the text `has access
changed from '<a>' to '<b>'` exactly when `ACCESS_CHANGE_CATEGORY` is
allowed and the two access specifiers differ.  When the underlying class
diff is present and to be reported, the report is then the report of that
diff, after a newline if one of the two texts was written; otherwise the
report returns with no nested report. -/
theorem report_base_diff (H : Helpers) (ctxt : diff_context) (g : Graph)
    (fuel n : Nat) (indent : String) (st : RState) (f s : base_spec)
    (u : diff_sptr) (hd : g[n]? = some ⟨true, .base_diff f s u⟩) :
    (∀ (i : Nat) (dif : Diff), u = some i → g[i]? = some dif →
      dif.to_be_reported = true →
      report H ctxt g (fuel + 1) n indent st
        = report H ctxt g fuel i indent
            ((st.log (Event.report n)).write
              (static_change_text f s indent ++ access_change_text H ctxt f s
                ++ (if f.is_static != s.is_static
                      || (allowed ctxt H.ACCESS_CHANGE_CATEGORY
                          && f.access_specifier != s.access_specifier) then
                      "\n"
                    else ""))))
    ∧ (u = none
        ∨ (∃ (i : Nat) (dif : Diff), u = some i ∧ g[i]? = some dif
            ∧ dif.to_be_reported = false) →
      report H ctxt g (fuel + 1) n indent st
        = .ok ((st.log (Event.report n)).write
            (static_change_text f s indent
              ++ access_change_text H ctxt f s))) := by
  refine ⟨fun i dif hu hi htbr => ?_, fun hno => ?_⟩
  · subst hu
    simp only [report, hd, report_node, steps, base_diff_steps, hi, htbr,
      Bool.not_true, Bool.false_eq_true, if_false, if_true,
      static_change_text, access_change_text]
    cases hs : (f.is_static != s.is_static) <;>
      cases ha : (allowed ctxt H.ACCESS_CHANGE_CATEGORY
        && f.access_specifier != s.access_specifier) <;>
      cases hf : f.is_static <;>
      simp [-String.reduceAppend, exec_emit_cons, exec_call_last,
        write_write, write_empty, String.append_assoc]
  · rcases hno with h | ⟨i, dif, h1, h2, h3⟩
    · subst h
      simp only [report, hd, report_node, steps, base_diff_steps,
        Bool.not_true, Bool.false_eq_true, if_false, List.append_nil,
        static_change_text, access_change_text]
      cases hs : (f.is_static != s.is_static) <;>
        cases ha : (allowed ctxt H.ACCESS_CHANGE_CATEGORY
          && f.access_specifier != s.access_specifier) <;>
        cases hf : f.is_static <;>
        simp [-String.reduceAppend, exec_emit_cons, exec_nil, write_write,
          write_empty, String.append_assoc]
    · subst h1
      simp only [report, hd, report_node, steps, base_diff_steps, h2, h3,
        Bool.not_true, Bool.false_eq_true, if_false, List.append_nil,
        static_change_text, access_change_text]
      cases hs : (f.is_static != s.is_static) <;>
        cases ha : (allowed ctxt H.ACCESS_CHANGE_CATEGORY
          && f.access_specifier != s.access_specifier) <;>
        cases hf : f.is_static <;>
        simp [-String.reduceAppend, exec_emit_cons, exec_nil, write_write,
          write_empty, String.append_assoc]

/-- A base class that changes from static and private to not static and
public, over the class diff of the base class. -/
theorem report_base_diff_witness :
    report H0 ctxt0 base_graph (1 + 1) 0 "  " {}
      = report H0 ctxt0 base_graph 1 1 "  "
          ((({} : RState).log (Event.report 0)).write
            (static_change_text
                { is_static := true, access_specifier := "private"
                  base_class := { pretty_representation := "class B" } }
                { is_static := false, access_specifier := "public"
                  base_class := { pretty_representation := "class B" } } "  "
              ++ access_change_text H0 ctxt0
                { is_static := true, access_specifier := "private"
                  base_class := { pretty_representation := "class B" } }
                { is_static := false, access_specifier := "public"
                  base_class := { pretty_representation := "class B" } }
              ++ "\n"))
    ∧ report H0 ctxt0 base_graph 2 0 "  " {}
      = .ok { out := "  is no more static, has access changed from "
                ++ "'private' to 'public'\n"
              reported_once := [1]
              history :=
                [Event.report 0, Event.report 1,
                 Event.currently_reporting 1 true,
                 Event.currently_reporting 1 false,
                 Event.reported_once 1 true] } :=
  ⟨(report_base_diff H0 ctxt0 base_graph 1 0 "  " {} _ _ (some 1) rfl).1 1
      _ rfl rfl rfl,
   by decide⟩

/-- Claim C25: the report of a to-be-reported function declaration diff
whose two functions are not both member functions writes the text of the
statements that come before those about the vtable and is then the report
of the function type diff: it writes no text about the vtable.  When they
are both member functions, of classes that are there, it writes after that
text the text about virtuality and vtable offset and then one text `note`:
`a vtable was added to` when the class gained a vtable; else `the vtable
was removed from` when it lost one; else `this is an ABI incompatible
change to the vtable of` when the vtable offsets differ; else `this induces
a change to the vtable of` when the two functions differ on virtuality;
else nothing.  So at most one of the four notes is written, and none is
exactly when the class neither gained nor lost a vtable, the two functions
agree on virtuality and their vtable offsets are equal.  The type diff,
when there is one, is a node of the graph. -/
theorem vtable_notes_exclusive (H : Helpers) (ctxt : diff_context)
    (g : Graph) (fuel n : Nat) (indent : String) (st : RState)
    (ff sf : function_decl) (td : diff_sptr)
    (hd : g[n]? = some ⟨true, .function_decl_diff ff sf td⟩)
    (htd : ∀ i, td = some i → i < g.length) :
    ((ff.is_member_function && sf.is_member_function) = false →
      report H ctxt g (fuel + 1) n indent st
        = exec (report H ctxt g fuel)
            (function_decl_diff_type_steps g td indent)
            ((st.log (Event.report n)).write
              (written
                (function_decl_diff_local_steps H ctxt g ff sf td indent))))
    ∧ ∀ (fc : class_or_union) (vtable_added vtable_removed : Bool),
        ff.is_member_function = true → sf.is_member_function = true →
        ff.class_type = some fc →
        vtable_added_removed ff.class_type sf.class_type
          = some (vtable_added, vtable_removed) →
        ∃ note : String,
          report H ctxt g (fuel + 1) n indent st
            = exec (report H ctxt g fuel)
                (function_decl_diff_type_steps g td indent)
                ((((st.log (Event.report n)).write
                  (written
                    (function_decl_diff_local_steps H ctxt g ff sf td
                      indent))).write
                  (written (virtual_change_steps ff sf indent))).write note)
          ∧ note
            = (if vtable_added then
                indent ++ "  note that a vtable was added to "
                  ++ fc.pretty_representation ++ "\n"
              else if vtable_removed then
                indent ++ "  note that the vtable was removed from "
                  ++ fc.pretty_representation ++ "\n"
              else if ff.member_function_vtable_offset
                  ≠ sf.member_function_vtable_offset then
                indent
                  ++ "  note that this is an ABI incompatible change to the vtable of "
                  ++ fc.pretty_representation ++ "\n"
              else if ff.member_function_is_virtual
                  ≠ sf.member_function_is_virtual then
                indent
                  ++ "  note that this induces a change to the vtable of "
                  ++ fc.pretty_representation ++ "\n"
              else "")
          ∧ (note = ""
              ↔ vtable_added = false ∧ vtable_removed = false
                ∧ ff.member_function_is_virtual
                  = sf.member_function_is_virtual
                ∧ ff.member_function_vtable_offset
                  = sf.member_function_vtable_offset) := by
  refine ⟨fun h => ?_, fun fc va vr hf hs hfc hv => ?_⟩
  · rw [report_function_decl_diff H ctxt g fuel n indent st ff sf td hd htd
      (by simp [vtable_offset_steps, h, only_emits])]
    simp [vtable_offset_steps, h, written, write_empty]
  · have hnote : written (vtable_note_steps ff sf fc va vr indent)
        = (if va then
            indent ++ "  note that a vtable was added to "
              ++ fc.pretty_representation ++ "\n"
          else if vr then
            indent ++ "  note that the vtable was removed from "
              ++ fc.pretty_representation ++ "\n"
          else if ff.member_function_vtable_offset
              ≠ sf.member_function_vtable_offset then
            indent
              ++ "  note that this is an ABI incompatible change to the vtable of "
              ++ fc.pretty_representation ++ "\n"
          else if ff.member_function_is_virtual
              ≠ sf.member_function_is_virtual then
            indent
              ++ "  note that this induces a change to the vtable of "
              ++ fc.pretty_representation ++ "\n"
          else "") := by
      unfold vtable_note_steps
      cases va <;> cases vr <;>
        by_cases ho : ff.member_function_vtable_offset
          = sf.member_function_vtable_offset <;>
        by_cases hvi : ff.member_function_is_virtual
          = sf.member_function_is_virtual <;>
        simp [-String.reduceAppend, ho, hvi, written, String.append_assoc]
    have hne2 : ∀ a b c : String, a ++ b ++ c ++ "\n" = "" → False := by
      intro a b c h
      have hl := congrArg String.length h
      simp [String.length_append] at hl
      exact absurd hl.2 (by decide)
    refine ⟨_, report_member_function_decl_diff H ctxt g fuel n indent st ff
      sf td fc va vr hd htd hf hs hfc hv, hnote, ?_⟩
    rw [hnote]
    cases va <;> cases vr <;>
      by_cases ho : ff.member_function_vtable_offset
        = sf.member_function_vtable_offset <;>
      by_cases hvi : ff.member_function_is_virtual
        = sf.member_function_is_virtual <;>
      simp [-String.reduceAppend, ho, hvi] <;>
      exact fun h => hne2 _ _ _ h

/-- A function that is not a member function; the method `C::m` unchanged;
the method `C::m` with the vtable offset changed from 2 to 3. -/
theorem vtable_notes_exclusive_witness :
    report H0 ctxt0
        [{ node := .function_decl_diff void_f_int void_f_int none }] (0 + 1)
        0 "" {}
      = .ok { history := [Event.report 0] }
    ∧ report H0 ctxt0
        [{ node := .function_decl_diff (method_at 2) (method_at 2) none }]
        (0 + 1) 0 "" {}
      = .ok { history := [Event.report 0] }
    ∧ report H0 ctxt0 vtable_offset_graph (0 + 1) 0 "  " {}
      = .ok vtable_offset_reported :=
  ⟨((vtable_notes_exclusive H0 ctxt0
      [{ node := .function_decl_diff void_f_int void_f_int none }] 0 0 "" {}
      void_f_int void_f_int none rfl (fun _ h => Option.noConfusion h)).1
      rfl).trans (by decide),
   by
    obtain ⟨note, h1, _, h3⟩ := (vtable_notes_exclusive H0 ctxt0
      [{ node := .function_decl_diff (method_at 2) (method_at 2) none }] 0 0
      "" {} (method_at 2) (method_at 2) none rfl
      (fun _ h => Option.noConfusion h)).2
      { pretty_representation := "class C", has_vtable := true } false false
      rfl rfl rfl rfl
    rw [h1, h3.2 ⟨rfl, rfl, rfl, rfl⟩]
    decide,
   by
    obtain ⟨note, h1, h2, _⟩ := (vtable_notes_exclusive H0 ctxt0
      vtable_offset_graph 0 0 "  " {} (method_at 2) (method_at 3) none rfl
      (fun _ h => Option.noConfusion h)).2
      { pretty_representation := "class C", has_vtable := true } false false
      rfl rfl rfl rfl
    rw [h1, h2]
    decide⟩

/-- Claim C26: the report of a corpus diff whose context has
`show_stats_only` set applies the filters and suppressions, writes the text
of `emit_diff_stats` on the statistics and returns: nothing else is
written, no nested report starts and the diff tree is not dumped. -/
theorem report_corpus_diff_stats_only (H : Helpers) (ctxt : diff_context)
    (g : Graph) (fuel n : Nat) (indent : String) (st : RState) (tbr : Bool)
    (p : corpus_diff) (hd : g[n]? = some ⟨tbr, .corpus_diff p⟩)
    (hs : ctxt.show_stats_only = true) :
    report H ctxt g (fuel + 1) n indent st
      = .ok (((st.log (Event.report n)).log
          (Event.apply_filters_and_suppressions_before_reporting n)).write
          (H.emit_diff_stats p.stats indent)) := by
  simp [report, hd, report_node, steps, corpus_diff_steps, hs, exec]

/-- A corpus diff with removed and added functions, statistics only. -/
theorem report_corpus_diff_stats_only_witness :
    report H_stats ctxt_stats_only
        [{ node := .corpus_diff removed_functions_corpus_diff }] (0 + 1) 0
        "  " {}
      = .ok (((({} : RState).log (Event.report 0)).log
          (Event.apply_filters_and_suppressions_before_reporting 0)).write
          (H_stats.emit_diff_stats removed_functions_corpus_diff.stats "  "))
    ∧ report H_stats ctxt_stats_only
        [{ node := .corpus_diff removed_functions_corpus_diff }] 1 0 "  " {}
      = .ok { out := "  Functions changes summary: 2 Removed, 1 Added\n"
              history :=
                [Event.report 0,
                 Event.apply_filters_and_suppressions_before_reporting 0] } :=
  ⟨report_corpus_diff_stats_only H_stats ctxt_stats_only
      [{ node := .corpus_diff removed_functions_corpus_diff }] 0 0 "  " {}
      true removed_functions_corpus_diff rfl rfl,
   by decide⟩

/-- Claim C27 fails on the code: the local variable `removed` counts the
listed removed functions (line 1766) and is not reset after their section
(lines 1768-1769), so the section of the removed variables, which tests
the same variable (lines 1938-1942), writes its closing empty line for a
corpus diff with one listed removed function and no removed variable.  The
line is not there when the removed variables are not shown, and the section
of the added functions, which resets `added` (lines 1817-1821), leaves none
in the section of the added variables. -/
theorem report_removed_variables_blank_line :
    report H0 ctxt0 removed_function_graph 1 0 "" {}
      = .ok { out := "\n1 Removed function:\n\n  'void f(int)'\n\n" ++ "\n"
              history :=
                [Event.report 0,
                 Event.apply_filters_and_suppressions_before_reporting 0,
                 Event.maybe_dump_diff_tree 0] }
    ∧ report H0 ctxt_no_deleted_vars removed_function_graph 1 0 "" {}
      = .ok { out := "\n1 Removed function:\n\n  'void f(int)'\n\n"
              history :=
                [Event.report 0,
                 Event.apply_filters_and_suppressions_before_reporting 0,
                 Event.maybe_dump_diff_tree 0] }
    ∧ report H0 ctxt0 added_function_graph 1 0 "" {}
      = .ok { out := "\n1 Added function:\n\n  'void f(int)'\n\n"
              history :=
                [Event.report 0,
                 Event.apply_filters_and_suppressions_before_reporting 0,
                 Event.maybe_dump_diff_tree 0] } := by
  refine ⟨?_, ?_, ?_⟩ <;> decide

end default_reporter
